import Mathlib

/-!
# Photo detail overlay controller

A shallow embedding of `static/js/detail-modal.js`: the sequence-guarded
navigation (`openByIndex`), the freshness-checked detail cache
(`getDetailEnsuringFreshness`), the content swap (`swapModalContentSmooth`),
the form-submission bridge and the patch-back of counters to the grid
(`patchListUI`, `setCount`).

Modelling conventions.

* The script's top-level variables are the fields of `State`.  JavaScript
  maps (`idToUrl`, `htmlCache`) are functions into `Option`.
* Asynchronous code is cut at its `await`s.  The part of a handler that runs
  up to the first `await` is a function on `State` that appends a `Task` (the
  suspended continuation) to `State.tasks`; `runTask` runs a continuation up
  to its next `await`.  Every `await` written in `openByIndex`, in the
  `preloadAround` callback and in the submit handler is such a cut; the chain
  of helper promises below one `await` (`fetchJSON`, `fetchDetailHTML`,
  `getDetailEnsuringFreshness`) settles within the same step.
* What the network answers is the environment's choice (`FetchOutcome`),
  also for a request whose `AbortController` has been aborted.
* The DOM is abstracted to what the script queries: for an HTML string the
  selectors it is searched with (`Html`), for the grid the elements carrying
  `data-photo-id` (`Doc`), for the modal element its panel, swap region,
  loading veil, error toast and attributes (`Overlay`).  Modal elements live
  in a heap `State.els` indexed by creation order, so that a continuation
  holding a reference to an element keeps acting on that element.
-/

namespace PhotoModal

/-- Photo identifiers are the numbers `parseInt(a.dataset.photoId, 10)` yields. -/
abbrev PhotoId := Int

/-! ## Payloads and HTTP -/

/-- An HTML string as the script sees it once parsed: its text and the answers
to the selector queries made on it.  The swap region, when there is one, lies
inside the panel (`.modal-content`). -/
structure Html where
  /-- the string itself -/
  text : String
  /-- `#photoDetailModal` is found after mounting it -/
  hasRoot : Bool := true
  /-- `.modal-content` is found -/
  hasContent : Bool := true
  /-- `.js-modal-swap` is found -/
  hasSwap : Bool := true
  /-- `src` of the first `img` of the swap region -/
  img : Option String := none
  deriving DecidableEq, Repr

/-- A detail payload `{ html, photo_id, is_favorite, favorites_count,
comments_count }` whose `html` is a string.  An optional field is `none` when
it is `null` or `undefined`. -/
structure Payload where
  html : Html
  photo_id : Option PhotoId := none
  is_favorite : Option Bool := none
  favorites_count : Option Int := none
  comments_count : Option Int := none
  deriving DecidableEq, Repr

/-- A parsed JSON body; `html` is `none` when the body has no string `html`
(also when the body is `null` or not an object). -/
structure Body where
  html : Option Html
  photo_id : Option PhotoId := none
  is_favorite : Option Bool := none
  favorites_count : Option Int := none
  comments_count : Option Int := none
  deriving DecidableEq, Repr

/-- An HTTP response: `res.ok`, the `content-type` header and the result of
`res.json()` (`none` when the body is not JSON). -/
structure Response where
  ok : Bool
  contentType : Option String
  json : Option Body
  deriving DecidableEq, Repr

/-- How a `fetch` settles. -/
inductive FetchOutcome where
  /-- rejected with an `AbortError` -/
  | aborted
  /-- rejected by the transport -/
  | failed
  /-- resolved with a response -/
  | response (r : Response)
  deriving DecidableEq, Repr

/-- The two kinds of exception the handlers tell apart: `err.name ===
'AbortError'` or anything else. -/
inductive Err where
  | abort
  | other
  deriving DecidableEq, Repr

/-- The test `hay.includes(needle)` on character lists. -/
def includes : List Char → List Char → Bool
  | [], needle => needle.isEmpty
  | c :: cs, needle => needle.isPrefixOf (c :: cs) || includes cs needle

/-- The characters of `s.toLowerCase()`. -/
def toLowerCase (s : String) : List Char := s.toList.map Char.toLower

/-- The test `if (!x)` on a string that may be `null` or `undefined`: the empty string
is falsy too. -/
def truthy : Option String → Option String
  | some u => if u = "" then none else some u
  | none => none

/-- The function `fetchJSON`: non-2xx and a content type without `application/json` both
throw. -/
def fetchJSON : FetchOutcome → Except Err Body
  | .aborted => .error .abort
  | .failed => .error .other
  | .response res =>
    let ct := toLowerCase (res.contentType.getD "")
    if !res.ok then .error .other
    else if !includes ct "application/json".toList then .error .other
    else match res.json with
      | none => .error .other
      | some data => .ok data

/-- The function `fetchDetailHTML`: `fetchJSON`, then `typeof data.html !== 'string'`
throws. -/
def fetchDetailHTML (o : FetchOutcome) : Except Err Payload :=
  match fetchJSON o with
  | .error e => .error e
  | .ok data =>
    match data.html with
    | none => .error .other
    | some h => .ok { html := h, photo_id := data.photo_id, is_favorite := data.is_favorite,
                      favorites_count := data.favorites_count,
                      comments_count := data.comments_count }

/-- What `postForm` does with the answer to its request: every failure is a
plain exception. -/
def postForm : FetchOutcome → Except Err Payload
  | .aborted => .error .other
  | .failed => .error .other
  | .response res =>
    let ct := toLowerCase (res.contentType.getD "")
    if !res.ok then .error .other
    else if !includes ct "application/json".toList then .error .other
    else match res.json with
      | none => .error .other
      | some data =>
        match data.html with
        | none => .error .other
        | some h => .ok { html := h, photo_id := data.photo_id,
                          is_favorite := data.is_favorite,
                          favorites_count := data.favorites_count,
                          comments_count := data.comments_count }

/-! ## The grid -/

/-- The text of a `.js-num` element, as `parseInt` reads it. -/
inductive NumText where
  /-- the empty string: `textContent || '0'` makes it `'0'` -/
  | empty
  /-- the decimal numeral of `n` -/
  | digits (n : Int)
  /-- a text `parseInt` maps to `NaN` -/
  | junk
  deriving DecidableEq, Repr

/-- A counter region `.js-fav-count[data-photo-id]` or
`.js-comment-count[data-photo-id]`: its key, the text of its `.js-num` child
(if it has one) and whether it carries the class `d-none`. -/
structure CountEl where
  photoId : PhotoId
  num : Option NumText
  dNone : Bool
  deriving DecidableEq, Repr

/-- A tile `.js-photo-tile[data-photo-id]` and whether it carries the class
`is-favorite`. -/
structure TileEl where
  photoId : PhotoId
  isFavorite : Bool
  deriving DecidableEq, Repr

/-- A thumbnail anchor `.js-open-photo`: `parseInt` of its `data-photo-id`
(`none` when not finite) and its `href`. -/
structure Thumb where
  photoId : Option PhotoId
  href : Option String
  deriving DecidableEq, Repr

/-- The part of the document outside the overlay, each list in document
order. -/
structure Doc where
  thumbs : List Thumb := []
  favEls : List CountEl := []
  commentEls : List CountEl := []
  tileEls : List TileEl := []
  deriving DecidableEq, Repr

/-- The expression `parseInt(el.textContent || '0', 10)` followed by `Number.isFinite`. -/
def parseNum : NumText → Option Int
  | .empty => some 0
  | .digits n => some n
  | .junk => none

/-- The first `.js-num` below an element of `els` keyed by `photoId`. -/
def queryNum (els : List CountEl) (photoId : PhotoId) : Option NumText :=
  (els.filter (fun e => e.photoId == photoId)).findSome? (fun e => e.num)

/-- The result `{ comments, favorites }` of `readTileCounts`. -/
structure TileCounts where
  comments : Option Int
  favorites : Option Int
  deriving DecidableEq, Repr

/-- The function `readTileCounts`. -/
def readTileCounts (d : Doc) (photoId : PhotoId) : TileCounts :=
  { comments := (queryNum d.commentEls photoId).bind parseNum
    favorites := (queryNum d.favEls photoId).bind parseNum }

/-- The function `sameCount`. -/
def sameCount (a b : Option Int) : Bool :=
  match a, b with
  | none, _ => true
  | _, none => true
  | some x, some y => x == y

/-- The condition under which `getDetailEnsuringFreshness` reuses `cached`. -/
def isFresh (cached : Payload) (tileCounts : TileCounts) : Bool :=
  sameCount cached.comments_count tileCounts.comments &&
  sameCount cached.favorites_count tileCounts.favorites

/-- Apply `f` to the first element satisfying `p`: what a write through
`document.querySelector` does to a list of elements. -/
def patchFirst {α : Type} (p : α → Bool) (f : α → α) : List α → List α
  | [] => []
  | x :: xs => if p x then f x :: xs else x :: patchFirst p f xs

/-- The two kinds of counter `setCount` is called with. -/
inductive Kind where
  | fav
  | comment
  deriving DecidableEq, Repr

/-- What `setCount` does to the element it found. -/
def setCountEl (count : Int) (el : CountEl) : CountEl :=
  { el with num := el.num.map (fun _ => NumText.digits count), dNone := count == 0 }

/-- The function `setCount`. -/
def setCount (kind : Kind) (d : Doc) (photoId : PhotoId) (count : Int) : Doc :=
  match kind with
  | .fav =>
    { d with favEls := patchFirst (fun e => e.photoId == photoId) (setCountEl count) d.favEls }
  | .comment =>
    { d with commentEls :=
        patchFirst (fun e => e.photoId == photoId) (setCountEl count) d.commentEls }

/-- The function `patchListUI`. -/
def patchListUI (d : Doc) (delta : Payload) : Doc :=
  match delta.photo_id with
  | none => d
  | some photo_id =>
    let d := setCount .fav d photo_id (delta.favorites_count.getD 0)
    let d := setCount .comment d photo_id (delta.comments_count.getD 0)
    let is_favorite := delta.is_favorite.getD false
    let tiles := patchFirst (fun t => t.photoId == photo_id)
      (fun t => { t with isFavorite := is_favorite }) d.tileEls
    { d with tileEls := tiles }

/-! ## The overlay and the script's state -/

/-- The modal element `#photoDetailModal`. -/
structure Overlay where
  /-- its `.modal-content`: the HTML it came from -/
  panel : Option Html := none
  /-- counts the panels this modal has had -/
  panelGen : Nat := 0
  /-- its `.js-modal-swap`: the HTML it came from -/
  swap : Option Html := none
  /-- counts the swap-region elements this modal has had, so that a reference
  to one of them can be told from the current one -/
  swapGen : Nat := 0
  /-- the incoming regions of the `transitionend` listeners waiting on the
  current swap region, oldest first -/
  fadeQueue : List Html := []
  /-- a `.js-modal-loading` veil is present -/
  veil : Bool := false
  /-- the text of a visible `.js-modal-error` -/
  toast : Option String := none
  /-- the attribute `data-photo-id`, read with `parseInt` -/
  dataPhotoId : Option PhotoId := none
  /-- the flag `dataset.wired === '1'` -/
  wired : Bool := false
  /-- the inline `z-index` -/
  zIndex : Option Nat := none
  deriving DecidableEq, Repr

/-- A suspended continuation. -/
inductive Task where
  /-- the function `openByIndex` at `await getDetailEnsuringFreshness(...)`;
  `el` is `modalElExisting`, `cached` the fresh cache entry that call returned
  without a request (`none`: its request is in flight) -/
  | navDetail (seq : Nat) (idx : Int) (id : PhotoId) (el : Option Nat) (cached : Option Payload)
  /-- the function `openByIndex` at `await swapModalContentSmooth(...)`; with
  `pre = some h` the swap itself waits for the image of `h`, having seen the
  swap region of generation `gen` -/
  | navSwap (seq : Nat) (idx : Int) (id : PhotoId) (el : Nat) (pre : Option Html) (gen : Nat)
  /-- a callback of `preloadAround` at `await fetchDetailHTML(url)` -/
  | prefetch (pid : PhotoId)
  /-- the submit handler at `await postForm(url, form)` -/
  | submitPost (el : Nat) (id : Option PhotoId)
  /-- the submit handler at `await swapModalContentSmooth(...)` -/
  | submitSwap (el : Nat) (id : Option PhotoId) (data : Payload) (pre : Option Html) (gen : Nat)
  deriving DecidableEq, Repr

/-- The top-level variables of the script, the document, and what is pending. -/
structure State where
  idToUrl : PhotoId → Option String := fun _ => none
  order : List PhotoId := []
  currentIndex : Int := -1
  /-- the element the Bootstrap instance `bsModal` was made for -/
  bsModal : Option Nat := none
  htmlCache : PhotoId → Option Payload := fun _ => none
  /-- the pending spinner timer: the element and the generation of the panel
  it will veil -/
  spinnerTimer : Option (Nat × Nat) := none
  navSeq : Nat := 0
  /-- the attempt whose `AbortController` is in `navAbort` -/
  navAbort : Option Nat := none
  /-- the attempts whose controller has been aborted -/
  aborted : List Nat := []
  /-- the HTML last written to `mount.innerHTML` -/
  mountHtml : Option Html := none
  /-- the mount has `pointer-events: auto` -/
  mountPointer : Bool := false
  /-- every modal element created so far -/
  els : Nat → Overlay := fun _ => {}
  nextEl : Nat := 0
  /-- the modal element that is in the document -/
  mounted : Option Nat := none
  doc : Doc := {}
  /-- the URLs of the GET requests issued, oldest first -/
  requests : List String := []
  /-- the URLs of the POST requests issued, oldest first -/
  posts : List (Option String) := []
  tasks : List Task := []

/-- Write `ov` to the element `el`. -/
def setEl (s : State) (el : Nat) (ov : Overlay) : State :=
  { s with els := Function.update s.els el ov }

/-- The modal element `document.getElementById(MODAL_ID)` finds. -/
def modalEl (s : State) : Option Overlay := s.mounted.map s.els

/-- The body of the loop of `rebuildOrderFromDOM` for the anchor `a`. -/
def addThumb (s : State) (a : Thumb) : State :=
  match a.photoId with
  | some id => { s with order := s.order ++ [id],
                        idToUrl := Function.update s.idToUrl id a.href }
  | none => s

/-- The function `rebuildOrderFromDOM`. -/
def rebuildOrderFromDOM (s : State) : State :=
  s.doc.thumbs.foldl addThumb { s with idToUrl := fun _ => none, order := [] }

/-- The state after the script has run on a document. -/
def init (doc : Doc) : State := rebuildOrderFromDOM { doc := doc }

/-- The array read `order[k]`. -/
def orderAt (s : State) (k : Int) : Option PhotoId :=
  if k < 0 then none else s.order[k.toNat]?

/-- The remainder `a % b` of JavaScript, which has the sign of `a`. -/
def jsMod (a b : Int) : Int := Int.tmod a b

/-- The function `toastInModal`. -/
def toastInModal (s : State) (msg : String) : State :=
  match s.mounted with
  | none => s
  | some el => setEl s el { s.els el with toast := some msg }

/-- The function `showLoadingWithDelay`. -/
def showLoadingWithDelay (s : State) (el : Nat) (isOn : Bool) : State :=
  if (s.els el).panel.isNone then s
  else if isOn then { s with spinnerTimer := some (el, (s.els el).panelGen) }
  else setEl { s with spinnerTimer := none } el { s.els el with veil := false }

/-- The fallback of `swapModalContentSmooth`: replace the whole panel. -/
def swapFallback (ov : Overlay) (h : Html) : Overlay :=
  if h.hasContent && ov.panel.isSome then
    { ov with panel := some h, panelGen := ov.panelGen + 1,
              swap := if h.hasSwap then some h else none,
              swapGen := ov.swapGen + 1, fadeQueue := [], veil := false }
  else ov

/-- The end of `swapModalContentSmooth`: fade the old region out and leave a
`transitionend` listener on it that will put `h` in its place.  The listener
has an effect only on a region that is still in the modal. -/
def swapFade (ov : Overlay) (h : Html) (gen : Nat) : Overlay :=
  if ov.swapGen = gen then { ov with fadeQueue := ov.fadeQueue ++ [h] } else ov

/-- The function `swapModalContentSmooth` up to its `await preloadImage(...)`:
the modal afterwards, and the HTML whose image it waits for, if any. -/
def swapStart (ov : Overlay) (h : Html) : Overlay × Option Html :=
  if ov.swap.isNone || !h.hasSwap then (swapFallback ov h, none)
  else if (truthy h.img).isSome then (ov, some h)
  else (swapFade ov h ov.swapGen, none)

/-- The `transitionend` listeners of the swap region of `el` run: the first
replaces the region, the others find it detached. -/
def transitionEnd (s : State) (el : Nat) : State :=
  match (s.els el).fadeQueue with
  | [] => s
  | h :: _ => setEl s el { s.els el with swap := some h, swapGen := (s.els el).swapGen + 1,
                                         fadeQueue := [] }

/-- The spinner timer fires: the veil is appended to the panel the timer was
set for, which shows if that panel is still in the modal. -/
def spinnerFire (s : State) : State :=
  match s.spinnerTimer with
  | none => s
  | some (el, gen) =>
    if (s.els el).panel.isSome && (s.els el).panelGen == gen then
      setEl { s with spinnerTimer := none } el { s.els el with veil := true }
    else { s with spinnerTimer := none }

/-- The timer of `toastInModal` fires on the element `el`. -/
def toastExpire (s : State) (el : Nat) : State :=
  setEl s el { s.els el with toast := none }

/-! ## Cache, preloading and navigation -/

/-- The function `getDetailEnsuringFreshness` up to its `await`: the cache
entry it returns without a request, if there is a fresh one. -/
def cachedFresh (s : State) (id : PhotoId) : Option Payload :=
  match s.htmlCache id with
  | some cached => if isFresh cached (readTileCounts s.doc id) then some cached else none
  | none => none

/-- The call `getDetailEnsuringFreshness(id, url, ...)` as made from
`openByIndex`: either it returns the fresh cache entry, or it issues the
request for `url`; `mk` builds the continuation of the caller. -/
def startDetail (s : State) (id : PhotoId) (url : String) (mk : Option Payload → Task) :
    State :=
  match cachedFresh s id with
  | some cached => { s with tasks := s.tasks ++ [mk (some cached)] }
  | none => { s with requests := s.requests ++ [url], tasks := s.tasks ++ [mk none] }

/-- The function `getDetailEnsuringFreshness` from its `await` on: the fetched
payload is stored and returned; a payload returned from the cache is passed
through. -/
def finishDetail (s : State) (id : PhotoId) (cached : Option Payload) (o : FetchOutcome) :
    State × Except Err Payload :=
  match cached with
  | some data => (s, .ok data)
  | none =>
    match fetchDetailHTML o with
    | .ok fresh => ({ s with htmlCache := Function.update s.htmlCache id (some fresh) }, .ok fresh)
    | .error e => (s, .error e)

/-- One callback of `preloadAround`, up to its `await`. -/
def preloadOne (s : State) (pid : Option PhotoId) : State :=
  match pid with
  | none => s
  | some pid =>
    match truthy (s.idToUrl pid) with
    | none => s
    | some url =>
      if (s.htmlCache pid).isSome then s
      else { s with requests := s.requests ++ [url], tasks := s.tasks ++ [.prefetch pid] }

/-- The function `preloadAround`. -/
def preloadAround (s : State) (idx : Int) : State :=
  if s.order.length = 0 then s
  else
    let s := preloadOne s (orderAt s (jsMod (idx + 1) s.order.length))
    preloadOne s (orderAt s (jsMod (idx - 1 + s.order.length) s.order.length))

/-- A callback of `preloadAround` from its `await` on. -/
def finishPrefetch (s : State) (pid : PhotoId) (o : FetchOutcome) : State :=
  match fetchDetailHTML o with
  | .ok data => { s with htmlCache := Function.update s.htmlCache pid (some data) }
  | .error _ => s

/-- The function `openByIndex` up to its first `await`. -/
def openByIndex (s : State) (idx : Int) : State :=
  if idx < 0 ∨ idx ≥ s.order.length then s
  else
    let seq := s.navSeq + 1
    let s := { s with navSeq := seq,
                      aborted := (match s.navAbort with
                                  | some c => c :: s.aborted
                                  | none => s.aborted),
                      navAbort := some seq }
    match orderAt s idx with
    | none => s
    | some id =>
      match truthy (s.idToUrl id) with
      | none => s
      | some url =>
        match s.mounted with
        | none => startDetail s id url (Task.navDetail seq idx id none)
        | some el =>
          startDetail (showLoadingWithDelay s el true) id url (Task.navDetail seq idx id (some el))

/-- The modal element that `mount.innerHTML = html` creates, before any
attribute is set on it. -/
def newOverlay (h : Html) : Overlay :=
  { panel := if h.hasContent then some h else none,
    swap := if h.hasSwap then some h else none }

/-- The first-open branch of `openByIndex` from its `await` on; `r` is what
the awaited call returned or threw. -/
def resumeFirst (s : State) (seq : Nat) (idx : Int) (id : PhotoId) (r : Except Err Payload) :
    State :=
  match r with
  | .ok data =>
    if seq ≠ s.navSeq then s
    else
      let s := { s with mountHtml := some data.html, mountPointer := true }
      if !data.html.hasRoot then
        toastInModal { s with mounted := none } "Sorry, could not load that photo."
      else
        let el := s.nextEl
        let ov := { newOverlay data.html with zIndex := some 3000, wired := true,
                                              dataPhotoId := some id }
        let s := { s with mounted := some el, nextEl := el + 1,
                          els := Function.update s.els el ov,
                          bsModal := some el, currentIndex := idx }
        preloadAround s idx
  | .error err =>
    if err ≠ .abort ∧ seq = s.navSeq then toastInModal s "Sorry, could not load that photo."
    else s

/-- The statements of `openByIndex` after `await swapModalContentSmooth(...)`,
and its `finally`. -/
def finishNav (s : State) (idx : Int) (id : PhotoId) (el : Nat) : State :=
  let s := { s with currentIndex := idx }
  let s := setEl s el { s.els el with dataPhotoId := some id }
  let s := preloadAround s idx
  showLoadingWithDelay s el false

/-- The already-open branch of `openByIndex` from its first `await` to its
second. -/
def resumeMounted (s : State) (seq : Nat) (idx : Int) (id : PhotoId) (el : Nat)
    (r : Except Err Payload) : State :=
  match r with
  | .ok data =>
    if seq ≠ s.navSeq then showLoadingWithDelay s el false
    else
      let started := swapStart (s.els el) data.html
      let s := setEl s el started.1
      { s with tasks := s.tasks ++ [.navSwap seq idx id el started.2 started.1.swapGen] }
  | .error err =>
    let s := if err ≠ .abort ∧ seq = s.navSeq then
               toastInModal s "Sorry, could not load that photo."
             else s
    showLoadingWithDelay s el false

/-- The already-open branch of `openByIndex` from its second `await` on; a
swap that waited for its image finishes first. -/
def resumeSwap (s : State) (idx : Int) (id : PhotoId) (el : Nat) (pre : Option Html)
    (gen : Nat) : State :=
  let s := match pre with
    | some h => setEl s el (swapFade (s.els el) h gen)
    | none => s
  finishNav s idx id el

/-- The previous control: the index it passes to `openByIndex`. -/
def prevIndex (s : State) : Int :=
  jsMod (s.currentIndex - 1 + s.order.length) s.order.length

/-- The next control: the index it passes to `openByIndex`. -/
def nextIndex (s : State) : Int :=
  jsMod (s.currentIndex + 1) s.order.length

/-- A click on `#photoPrevBtn` or the key `ArrowLeft`. -/
def onPrev (s : State) : State := openByIndex s (prevIndex s)

/-- A click on `#photoNextBtn` or the key `ArrowRight`. -/
def onNext (s : State) : State := openByIndex s (nextIndex s)

/-! ## Form submission -/

/-- A submitted form: whether it is one of `.fav-form, .comment-form,
.comment-delete-form, .comment-edit-form`, and its `action` attribute. -/
structure Form where
  handled : Bool := true
  action : Option String := none
  deriving DecidableEq, Repr

/-- The URL the submit handler posts to. -/
def submitUrl (s : State) (id : Option PhotoId) (form : Form) : Option String :=
  match truthy form.action with
  | some actionUrl => some actionUrl
  | none => id.bind s.idToUrl

/-- The submit handler of the modal `el` up to `await postForm(url, form)`;
`csrf` tells whether `getCsrfToken()` finds a cookie.  Without one `postForm`
throws before it sends anything. -/
def onSubmit (s : State) (el : Nat) (form : Form) (csrf : Bool) : State :=
  if !form.handled then s
  else
    let id := (s.els el).dataPhotoId
    let url := submitUrl s id form
    if !csrf then toastInModal s "Sorry, could not update that."
    else { s with posts := s.posts ++ [url], tasks := s.tasks ++ [.submitPost el id] }

/-- The submit handler from `await postForm(...)` to
`await swapModalContentSmooth(...)`. -/
def resumeSubmitPost (s : State) (el : Nat) (id : Option PhotoId) (o : FetchOutcome) : State :=
  match postForm o with
  | .error _ => toastInModal s "Sorry, could not update that."
  | .ok data =>
    let started := swapStart (s.els el) data.html
    let s := setEl s el started.1
    { s with tasks := s.tasks ++ [.submitSwap el id data started.2 started.1.swapGen] }

/-- The value `Number(data.photo_id ?? id)`, `none` when it is not finite. -/
def newId (data : Payload) (id : Option PhotoId) : Option PhotoId :=
  match data.photo_id with
  | some p => some p
  | none => id

/-- The submit handler from `await swapModalContentSmooth(...)` on. -/
def resumeSubmitSwap (s : State) (el : Nat) (id : Option PhotoId) (data : Payload)
    (pre : Option Html) (gen : Nat) : State :=
  let s := match pre with
    | some h => setEl s el (swapFade (s.els el) h gen)
    | none => s
  let s := setEl s el { s.els el with dataPhotoId := newId data id }
  let s := { s with doc := patchListUI s.doc data }
  match newId data id with
  | some n => { s with htmlCache := Function.update s.htmlCache n (some data) }
  | none => s

/-! ## Steps and runs -/

/-- Run the continuation `t`; `o` is how its request settled, when it waits
for one. -/
def runTask (s : State) (t : Task) (o : FetchOutcome) : State :=
  match t with
  | .navDetail seq idx id el cached =>
    let done := finishDetail s id cached o
    match el with
    | none => resumeFirst done.1 seq idx id done.2
    | some el => resumeMounted done.1 seq idx id el done.2
  | .navSwap _ idx id el pre gen => resumeSwap s idx id el pre gen
  | .prefetch pid => finishPrefetch s pid o
  | .submitPost el id => resumeSubmitPost s el id o
  | .submitSwap el id data pre gen => resumeSubmitSwap s el id data pre gen

/-- What can happen next. -/
inductive Event where
  /-- a call `openByIndex(idx)` -/
  | call (idx : Int)
  /-- the previous control -/
  | prev
  /-- the next control -/
  | next
  /-- the `i`-th pending continuation resumes -/
  | resume (i : Nat) (o : FetchOutcome)
  /-- a form is submitted in the modal -/
  | submit (form : Form) (csrf : Bool)
  /-- the fade-out of the swap region of `el` ends -/
  | transitionEnd (el : Nat)
  /-- the spinner timer fires -/
  | spinnerFire
  /-- the toast timer fires -/
  | toastExpire (el : Nat)
  deriving DecidableEq, Repr

/-- The modal element in the document, when its delegated listeners are
bound. -/
def wiredEl (s : State) : Option Nat :=
  match s.mounted with
  | some el => if (s.els el).wired then some el else none
  | none => none

/-- One step of the script.  The controls and the forms are inside the modal:
their events reach the listeners of `wireModalEvents` only while the modal is
in the document. -/
def step (s : State) : Event → State
  | .call idx => openByIndex s idx
  | .prev => if (wiredEl s).isSome then onPrev s else s
  | .next => if (wiredEl s).isSome then onNext s else s
  | .resume i o =>
    match s.tasks[i]? with
    | none => s
    | some t => runTask { s with tasks := s.tasks.eraseIdx i } t o
  | .submit form csrf =>
    match wiredEl s with
    | some el => onSubmit s el form csrf
    | none => s
  | .transitionEnd el => transitionEnd s el
  | .spinnerFire => spinnerFire s
  | .toastExpire el => toastExpire s el

/-- A run: the events in order. -/
def run (s : State) (evs : List Event) : State := evs.foldl step s

/-! ## Vocabulary of the statements -/

/-- The sequence number of a navigation attempt's continuation. -/
def Task.seq? : Task → Option Nat
  | .navDetail seq _ _ _ _ => some seq
  | .navSwap seq _ _ _ _ _ => some seq
  | _ => none

/-- Every pending navigation attempt was numbered by `++navSeq`. -/
def State.wf (s : State) : Prop :=
  ∀ t ∈ s.tasks, ∀ k, t.seq? = some k → k ≤ s.navSeq

/-- An event that starts a navigation attempt. -/
def Event.navigates : Event → Bool
  | .call _ => true
  | .prev => true
  | .next => true
  | _ => false

/-- What a modal shows, the loading veil apart. -/
def Overlay.shown (ov : Overlay) : Overlay := { ov with veil := false }

/-- The states `s` and `t` render the same: the same navigation index, the
same mounted HTML and modal, and on every modal element the same panel, swap
region, pending swaps, toast and attributes. -/
def sameRender (s t : State) : Prop :=
  t.currentIndex = s.currentIndex ∧ t.mounted = s.mounted ∧ t.mountHtml = s.mountHtml ∧
  ∀ el, (t.els el).shown = (s.els el).shown

/-- The cache once the `getDetailEnsuringFreshness` awaited by an attempt for
`id` has settled: `c` is the entry it returned without a request, if any, and
`o` the outcome of its request otherwise. -/
def cacheAfter (t : State) (id : PhotoId) (c : Option Payload) (o : FetchOutcome) :
    PhotoId → Option Payload :=
  match c, fetchDetailHTML o with
  | none, .ok fresh => Function.update t.htmlCache id (some fresh)
  | _, _ => t.htmlCache

/-- The tasks a step may add to `old`: continuations without a sequence
number, and continuations of the attempt numbered `k`. -/
def addsOnly (k : Nat) (old new : List Task) : Prop :=
  ∃ added, new = old ++ added ∧ ∀ x ∈ added, x.seq? = none ∨ x.seq? = some k

/-- Three calls of `openByIndex` in immediate succession: the synchronous part
of each runs before any continuation resumes. -/
def openThree (s : State) (a b c : Int) : State :=
  openByIndex (openByIndex (openByIndex s a) b) c

/-! ## A page with three photos -/

/-- A grid of three thumbnails, photos 5, 6 and 7, with counters for 5 and 6. -/
def doc0 : Doc :=
  { thumbs := [⟨some 5, some "/p/5"⟩, ⟨some 6, some "/p/6"⟩, ⟨some 7, some "/p/7"⟩],
    favEls := [⟨5, some (.digits 1), false⟩, ⟨6, some (.digits 2), false⟩],
    commentEls := [⟨5, some (.digits 0), true⟩, ⟨6, some (.digits 3), false⟩],
    tileEls := [⟨5, false⟩, ⟨6, false⟩] }

/-- The script's state on that page. -/
def s0 : State := init doc0

/-- The detail HTML of photo 5. -/
def h5 : Html := { text := "<div id=photoDetailModal>5</div>" }

/-- The detail HTML of photo 6; its swap region holds an image. -/
def h6 : Html := { text := "<div id=photoDetailModal>6</div>", img := some "/img/6.jpg" }

/-- The detail HTML of photo 7. -/
def h7 : Html := { text := "<div id=photoDetailModal>7</div>" }

/-- A JSON response carrying `body`. -/
def jsonOk (body : Body) : FetchOutcome :=
  .response { ok := true, contentType := some "application/json", json := some body }

/-- The detail response for photo 5. -/
def r5 : FetchOutcome := jsonOk { html := some h5, photo_id := some 5 }

/-- The detail response for photo 6. -/
def r6 : FetchOutcome := jsonOk { html := some h6, photo_id := some 6 }

/-- The detail response for photo 7. -/
def r7 : FetchOutcome := jsonOk { html := some h7, photo_id := some 7 }

/-- The detail HTML of photo 5 without the element `#photoDetailModal`. -/
def h5bare : Html :=
  { text := "<p>5</p>", hasRoot := false, hasContent := false, hasSwap := false }

/-- A detail response for photo 5 whose HTML lacks the modal root. -/
def r5bare : FetchOutcome := jsonOk { html := some h5bare, photo_id := some 5 }

/-- A response with an HTML content type, as an authentication redirect
gives. -/
def rHtml : FetchOutcome :=
  .response { ok := true, contentType := some "text/html; charset=utf-8", json := none }

/-- A cache entry for photo 6 reporting nine favorites. -/
def staleEntry : Payload := { html := h6, photo_id := some 6, favorites_count := some 9 }

/-- A cache entry for photo 6 reporting two favorites. -/
def freshEntry : Payload := { html := h6, photo_id := some 6, favorites_count := some 2 }

/-- A state whose cache entry for photo 6 reports nine favorites while the
tile shows two. -/
def sStale : State :=
  { s0 with htmlCache := Function.update s0.htmlCache 6 (some staleEntry) }

/-- A state whose cache entry for photo 6 agrees with the tile. -/
def sFresh : State :=
  { s0 with htmlCache := Function.update s0.htmlCache 6 (some freshEntry) }

/-- The response to a favorite toggle on photo 5: four favorites, favorited. -/
def favData : Payload :=
  { html := h5, photo_id := some 5, is_favorite := some true, favorites_count := some 4,
    comments_count := some 0 }

/-- A response to a submission made on photo 5 that reports photo 6. -/
def rOther : FetchOutcome :=
  jsonOk { html := some h5, photo_id := some 6, is_favorite := some true,
           favorites_count := some 9, comments_count := some 3 }

/-- The payload of `rOther`. -/
def otherData : Payload :=
  { html := h5, photo_id := some 6, is_favorite := some true, favorites_count := some 9,
    comments_count := some 3 }

/-! ## The thumbnail click and its fail-safe -/

/-- How the promise returned by an `async` function settles. -/
inductive Settled where
  | fulfilled
  | rejected (e : Err)
  deriving DecidableEq, Repr

/-- The `try` block of the first-open branch of `openByIndex` from its `await`
on: the state when the block is left and the exception that leaves it, if any.
`boot` tells whether `new bootstrap.Modal(...)` and `show()` run without
throwing. -/
def firstOpenTry (s : State) (seq : Nat) (idx : Int) (id : PhotoId) (r : Except Err Payload)
    (boot : Bool) : State × Option Err :=
  match r with
  | .error err => (s, some err)
  | .ok data =>
    if seq ≠ s.navSeq then (s, none)
    else
      let s := { s with mountHtml := some data.html, mountPointer := true }
      if !data.html.hasRoot then ({ s with mounted := none }, some .other)
      else
        let el := s.nextEl
        if !boot then
          ({ s with mounted := some el, nextEl := el + 1,
                    els := Function.update s.els el (newOverlay data.html) }, some .other)
        else
          let ov := { newOverlay data.html with zIndex := some 3000, wired := true,
                                                dataPhotoId := some id }
          let s := { s with mounted := some el, nextEl := el + 1,
                            els := Function.update s.els el ov,
                            bsModal := some el, currentIndex := idx }
          (preloadAround s idx, none)

/-- The `catch` block of the first-open branch of `openByIndex`. -/
def firstOpenCatch (s : State) (seq : Nat) (err : Err) : State :=
  if err ≠ .abort ∧ seq = s.navSeq then toastInModal s "Sorry, could not load that photo."
  else s

/-- The first-open branch of `openByIndex` from its `await` on, with the way
the promise of `openByIndex` settles: the `catch` block ends normally, so an
exception of the `try` block does not leave the function. -/
def firstOpenSettle (s : State) (seq : Nat) (idx : Int) (id : PhotoId)
    (r : Except Err Payload) (boot : Bool) : State × Settled :=
  match firstOpenTry s seq idx id r boot with
  | (s, none) => (s, .fulfilled)
  | (s, some err) => (firstOpenCatch s seq err, .fulfilled)

/-- The value of `order.indexOf(id)`. -/
def indexOf (order : List PhotoId) (id : PhotoId) : Int :=
  if id ∈ order then (order.indexOf id : Int) else -1

/-- The function `indexForAnchor`: the state, which it may rebuild, and the
index. -/
def indexForAnchor (s : State) (a : Thumb) : State × Int :=
  match a.photoId with
  | none => (s, -1)
  | some id =>
    if indexOf s.order id = -1 then
      (rebuildOrderFromDOM s, indexOf (rebuildOrderFromDOM s).order id)
    else (s, indexOf s.order id)

/-- The click handler of the thumbnails up to the first `await` of the
`openByIndex` it calls. -/
def onThumbClick (s : State) (a : Thumb) : State :=
  if (indexForAnchor s a).2 ≠ -1 then openByIndex (indexForAnchor s a).1 (indexForAnchor s a).2
  else (indexForAnchor s a).1

/-- The `.catch` of the click handler: the URL it assigns to
`window.location.href`, if it runs. -/
def failSafe (a : Thumb) (settled : Settled) : Option String :=
  match settled with
  | .rejected _ => a.href
  | .fulfilled => none

/-! ## Stacked modals and teardown -/

/-- The modal a Bootstrap event is dispatched on, by its `id`. -/
inductive ModalId where
  /-- the element `#photoDetailModal` -/
  | detail
  /-- the element `#activityModal` -/
  | activity
  /-- any other modal -/
  | other
  deriving DecidableEq, Repr

/-- What Bootstrap keeps on the page for the open modals, with the inline
`z-index` the script gives them (`none`: the stylesheet's). -/
structure Stack where
  /-- the inline `z-index` of `#photoDetailModal` -/
  detailZ : Option Nat := none
  /-- the inline `z-index` of `#activityModal` -/
  activityZ : Option Nat := none
  /-- the `.modal-backdrop` elements in document order, each with its inline
  `z-index` -/
  backdrops : List (Option Nat) := []
  /-- the body carries the class `modal-open` -/
  bodyModalOpen : Bool := false
  deriving DecidableEq, Repr

/-- The constant `Z_INDEX.activity.modal`. -/
def zActivityModal : Nat := 2000

/-- The constant `Z_INDEX.activity.backdrop`. -/
def zActivityBackdrop : Nat := 1990

/-- The constant `Z_INDEX.detail.modal`. -/
def zDetailModal : Nat := 3000

/-- The constant `Z_INDEX.detail.backdrop`. -/
def zDetailBackdrop : Nat := 2990

/-- The listener of `show.bs.modal`. -/
def onShowBsModal (k : Stack) (modal : ModalId) : Stack :=
  match modal with
  | .detail => { k with detailZ := some zDetailModal }
  | .activity => { k with activityZ := some zActivityModal }
  | .other => k

/-- Give the last element of a list the value `z`. -/
def setLast (z : Option Nat) : List (Option Nat) → List (Option Nat)
  | [] => []
  | [_] => [z]
  | x :: y :: rest => x :: setLast z (y :: rest)

/-- The listener of `shown.bs.modal`: it styles the last backdrop of the
document. -/
def onShownBsModal (k : Stack) (modal : ModalId) : Stack :=
  match modal with
  | .detail => { k with backdrops := setLast (some zDetailBackdrop) k.backdrops }
  | .activity => { k with backdrops := setLast (some zActivityBackdrop) k.backdrops }
  | .other => k

/-- What `show()` of a Bootstrap modal does around the two listeners: it
dispatches `show.bs.modal`, appends a backdrop to the body and locks the body,
and when the modal is visible dispatches `shown.bs.modal`. -/
def bootstrapShow (k : Stack) (modal : ModalId) : Stack :=
  let k := onShowBsModal k modal
  let k := { k with backdrops := k.backdrops ++ [none], bodyModalOpen := true }
  onShownBsModal k modal

/-- The function `hardTeardownModal` on the modal element `el`; `mountEmpty`
tells whether the mount has no child left once the element is removed. -/
def hardTeardownModal (s : State) (k : Stack) (el : Nat) (mountEmpty : Bool) : State × Stack :=
  let k := { k with backdrops := [], bodyModalOpen := false }
  let s := if s.mounted = some el then { s with mounted := none } else s
  let s := if mountEmpty then { s with mountPointer := false } else s
  (s, k)

/-- The listener of `hidden.bs.modal` that the first open registers on `el`. -/
def onHidden (s : State) (k : Stack) (el : Nat) (mountEmpty : Bool) : State × Stack :=
  ({ (hardTeardownModal s k el mountEmpty).1 with bsModal := none },
    (hardTeardownModal s k el mountEmpty).2)

/-- The parsed JSON body a payload came from. -/
def Payload.toBody (p : Payload) : Body :=
  { html := some p.html, photo_id := p.photo_id, is_favorite := p.is_favorite,
    favorites_count := p.favorites_count, comments_count := p.comments_count }

/-! ## A page with a thumbnail that has no link -/

/-- A grid of two thumbnails, photos 5 and 8; the anchor of photo 8 has no
`href`. -/
def doc1 : Doc := { thumbs := [⟨some 5, some "/p/5"⟩, ⟨some 8, none⟩] }

/-- The script's state on that page. -/
def s1 : State := init doc1

/-- The thumbnail of photo 5 on the page with three photos. -/
def thumb5 : Thumb := ⟨some 5, some "/p/5"⟩

/-! ## The scenario of three photos -/

/-- The modal after the part of `swapModalContentSmooth` that follows its
`await preloadImage(...)`, if it waited (`pre = some h`). -/
def fadeIn (ov : Overlay) (pre : Option Html) (gen : Nat) : Overlay :=
  match pre with
  | some h => swapFade ov h gen
  | none => ov

/-- The inputs of the scenario: open index 0 and let its fetch and the two
fetches this starts settle; press next and let that navigation settle; press
next again and let that navigation settle.  A continuation that waits for no
request does not read the outcome it is resumed with. -/
def scenario (o5 o6 o7 : FetchOutcome) : List Event :=
  [.call 0, .resume 0 o5, .resume 0 o6, .resume 0 o7,
   .next, .resume 0 .failed, .resume 0 .failed,
   .next, .resume 0 .failed, .resume 0 .failed]

/-- A settled state of the scenario: the order is 5, 6, 7 with URLs `u5`, `u6`,
`u7`, the three payloads are cached and fresh against the tiles, the modal
`el` is open on index `i` with `data-photo-id` equal to `id`, nothing is
pending, and the requests made so far are those for `u5`, `u6`, `u7`. -/
def Browsing (u5 u6 u7 : String) (d5 d6 d7 : Payload) (s : State) (i : Int) (id : PhotoId)
    (el : Nat) : Prop :=
  s.order = [5, 6, 7] ∧
  truthy (s.idToUrl 5) = some u5 ∧ truthy (s.idToUrl 6) = some u6 ∧
  truthy (s.idToUrl 7) = some u7 ∧
  s.htmlCache 5 = some d5 ∧ s.htmlCache 6 = some d6 ∧ s.htmlCache 7 = some d7 ∧
  isFresh d6 (readTileCounts s.doc 6) = true ∧ isFresh d7 (readTileCounts s.doc 7) = true ∧
  s.mounted = some el ∧ (s.els el).wired = true ∧ s.tasks = [] ∧
  s.requests = [u5, u6, u7] ∧ s.currentIndex = i ∧ (s.els el).dataPhotoId = some id

/-! ## The displayed photo and the navigation index -/

/-- The modal in the document, if there is one, carries in `data-photo-id` the
photo at `order[currentIndex]`. -/
def Consistent (s : State) : Prop :=
  ∀ el, s.mounted = some el →
    ∃ id, (s.els el).dataPhotoId = some id ∧ orderAt s s.currentIndex = some id

/-- The number of pending continuations that carry the latest sequence
number. -/
def latestCount (s : State) : Nat :=
  (s.tasks.filter (fun t => t.seq? == some s.navSeq)).length

/-- What holds of a pending continuation: the photo of a navigation attempt
is the one at its index; an attempt on the already-open path holds the modal
that is in the document; an attempt on the first-open path is superseded once
a modal is in the document. -/
def TaskOk (s : State) : Task → Prop
  | .navDetail seq idx id none _ =>
    orderAt s idx = some id ∧ (s.mounted ≠ none → seq < s.navSeq)
  | .navDetail _ idx id (some e) _ => orderAt s idx = some id ∧ s.mounted = some e
  | .navSwap _ idx id e _ _ => orderAt s idx = some id ∧ s.mounted = some e
  | _ => True

/-- The invariant of the runs. -/
def NavInv (s : State) : Prop :=
  s.wf ∧ latestCount s ≤ 1 ∧ (∀ t ∈ s.tasks, TaskOk s t) ∧ Consistent s

/-- The event applies no submission response, or the response it applies
names, through `Number(data.photo_id ?? id)`, the photo at `order[currentIndex]`. -/
def writesIndexed (s : State) : Event → Bool
  | .resume i _ =>
    match s.tasks[i]? with
    | some (.submitSwap _ id data _ _) => newId data id == orderAt s s.currentIndex
    | _ => true
  | _ => true

/-- Every submission response applied in the run from `s` names the photo at
the navigation index of the moment. -/
def Benign : State → List Event → Bool
  | _, [] => true
  | s, e :: es => writesIndexed s e && Benign (step s e) es

/-- The response to a favorite toggle on photo 5. -/
def rFav : FetchOutcome :=
  jsonOk { html := some h5, photo_id := some 5, is_favorite := some true,
           favorites_count := some 4, comments_count := some 0 }

/-! ## The autocomplete input (`static/js/photosmith.js`)

A string is the list of its code points.  The method `toLowerCase()` belongs to
the host and maps by the Unicode case tables: the functions that call it take
it as their argument `lowerCase`, and what is proved of them holds for every
such function. -/

/-- The constant `SPACER_TEXT`. -/
def SPACER_TEXT : List Char := List.replicate 20 '~'

/-- The white space and line terminators of JavaScript, which `trim()` strips
and `\s` matches. -/
def isSpace (c : Char) : Bool :=
  c.val = 0x09 || c.val = 0x0A || c.val = 0x0B || c.val = 0x0C || c.val = 0x0D ||
  c.val = 0x20 || c.val = 0xA0 || c.val = 0x1680 || (0x2000 ≤ c.val && c.val ≤ 0x200A) ||
  c.val = 0x2028 || c.val = 0x2029 || c.val = 0x202F || c.val = 0x205F || c.val = 0x3000 ||
  c.val = 0xFEFF

/-- The method `trim()`. -/
def trim (s : List Char) : List Char :=
  ((s.dropWhile isSpace).reverse.dropWhile isSpace).reverse

/-- The method `split(',')`. -/
def splitComma : List Char → List (List Char)
  | [] => [[]]
  | c :: cs =>
    if c = ',' then [] :: splitComma cs
    else
      match splitComma cs with
      | [] => [[c]]
      | t :: ts => (c :: t) :: ts

/-- The function `splitTokens`. -/
def splitTokens (val : List Char) : List (List Char) := splitComma val

/-- The method `split(/\s+/)`; `inRun` tells that the character before was
white space. -/
def splitSpaces (inRun : Bool) : List Char → List (List Char)
  | [] => [[]]
  | c :: cs =>
    if isSpace c then
      if inRun then splitSpaces true cs else [] :: splitSpaces true cs
    else
      match splitSpaces false cs with
      | [] => [[c]]
      | t :: ts => (c :: t) :: ts

/-- The value of `chunk.indexOf(search)`. -/
def indexOfStr (search : List Char) : List Char → Int
  | [] => if search.isEmpty then 0 else -1
  | c :: cs =>
    if search.isPrefixOf (c :: cs) then 0
    else if indexOfStr search cs < 0 then -1
    else indexOfStr search cs + 1

/-- The chunks of a term: `lc` is the term in lower case with its hyphens
replaced by spaces. -/
def chunksOf (lowerCase : List Char → List Char) (search term : List Char) :
    List (List Char) :=
  let lc := (lowerCase term).map (fun c => if c = '-' then ' ' else c)
  if ' ' ∈ search then [lc] else splitSpaces false lc

/-- The inner loop of `onInputChange` over the chunks, with its `break`; the
pair is `(hasPartial, hasPrefix)`. -/
def scanChunks (search : List Char) : List (List Char) → Bool × Bool → Bool × Bool
  | [], found => found
  | chunk :: rest, found =>
    if indexOfStr search chunk ≥ 0 then
      if indexOfStr search chunk = 0 then (true, true)
      else scanChunks search rest (true, found.2)
    else scanChunks search rest found

/-- The body of the outer loop of `onInputChange`; the pair is
`(prefixHits, partialHits)`. -/
def pushHit (lowerCase : List Char → List Char) (search : List Char)
    (hits : List (List Char) × List (List Char)) (term : List Char) :
    List (List Char) × List (List Char) :=
  let found := scanChunks search (chunksOf lowerCase search term) (false, false)
  if found.1 then
    if found.2 then (hits.1 ++ [term], hits.2) else (hits.1, hits.2 ++ [term])
  else hits

/-- The set `pickedLC` of `onInputChange`. -/
def pickedLC (lowerCase : List Char → List Char) (tokens : List (List Char)) :
    List (List Char) :=
  (tokens.map (fun t => lowerCase (trim t))).filter (fun t => !t.isEmpty)

/-- The string `search` of `onInputChange`. -/
def searchOf (lowerCase : List Char → List Char) (value : List Char) : List Char :=
  lowerCase (trim ((splitTokens value).getLast?.getD []))

/-- The array `remainingUC` of `onInputChange`. -/
def remainingUC (lowerCase : List Char → List Char) (termsUC : List (List Char))
    (value : List Char) : List (List Char) :=
  termsUC.filter (fun t => !(pickedLC lowerCase (splitTokens value)).contains (lowerCase t))

/-- The function `onInputChange`: the list it passes to `updateDropdown`. -/
def onInputChange (lowerCase : List Char → List Char) (termsUC : List (List Char))
    (value : List Char) : List (List Char) :=
  let search := searchOf lowerCase value
  let remaining := remainingUC lowerCase termsUC value
  if search.length > 0 then
    let hits := remaining.foldl (pushHit lowerCase search) ([], [])
    if hits.1.length > 0 ∧ hits.2.length > 0 then hits.1 ++ [SPACER_TEXT] ++ hits.2
    else if ¬ hits.1.length > 0 ∧ hits.2.length > 0 then hits.2
    else hits.1
  else remaining

/-! ### The list in the words of the statement -/

/-- The search starts a chunk of the term. -/
def prefixHit (lowerCase : List Char → List Char) (search term : List Char) : Bool :=
  (chunksOf lowerCase search term).any (fun chunk => search.isPrefixOf chunk)

/-- The search occurs in a chunk of the term. -/
def substringHit (lowerCase : List Char → List Char) (search term : List Char) : Bool :=
  (chunksOf lowerCase search term).any (fun chunk => includes chunk search)

/-- The term equals, case-insensitively, a token entered in the input. -/
def entered (lowerCase : List Char → List Char) (value term : List Char) : Bool :=
  (splitTokens value).any
    (fun t => !(trim t).isEmpty && lowerCase (trim t) == lowerCase term)

/-- The list as the statement describes it: the terms not entered that have a
prefix hit, then those that have only another substring hit, with one spacer
between the two groups when both are non-empty. -/
def suggestions (lowerCase : List Char → List Char) (termsUC : List (List Char))
    (value : List Char) : List (List Char) :=
  let rest := termsUC.filter (fun t => !entered lowerCase value t)
  let first := rest.filter (fun t => prefixHit lowerCase (searchOf lowerCase value) t)
  let second := rest.filter
    (fun t => substringHit lowerCase (searchOf lowerCase value) t &&
      !prefixHit lowerCase (searchOf lowerCase value) t)
  first ++ (if first ≠ [] ∧ second ≠ [] then [SPACER_TEXT] else []) ++ second

/-! ### Lower-casing in the examples -/

/-- The lower-case letter of a capital letter of Basic Latin (A to Z) or of
Latin-1 Supplement (À to Þ, the sign × apart); any other character of these two
blocks is its own. -/
def lowerLatinChar (c : Char) : Char :=
  if (0x41 ≤ c.toNat ∧ c.toNat ≤ 0x5A) ∨
      (0xC0 ≤ c.toNat ∧ c.toNat ≤ 0xDE ∧ c.toNat ≠ 0xD7) then
    Char.ofNat (c.toNat + 32)
  else c

/-- The method `toLowerCase()` on the strings of Basic Latin and Latin-1
Supplement, where it works letter by letter. -/
def lowerLatin (s : List Char) : List Char := s.map lowerLatinChar

/-! ## Frame lemmas -/


theorem preloadOne_eq (s : State) (p : Option PhotoId) :
    ∃ r t, preloadOne s p = { s with requests := r, tasks := s.tasks ++ t } ∧
      ∀ x ∈ t, x.seq? = none := by
  unfold preloadOne
  cases p with
  | none => exact ⟨s.requests, [], by simp⟩
  | some pid =>
    simp only
    cases truthy (s.idToUrl pid) with
    | none => exact ⟨s.requests, [], by simp⟩
    | some url =>
      simp only
      split
      · exact ⟨s.requests, [], by simp⟩
      · exact ⟨_, _, rfl, by simp [Task.seq?]⟩

theorem preloadAround_eq (s : State) (idx : Int) :
    ∃ r t, preloadAround s idx = { s with requests := r, tasks := s.tasks ++ t } ∧
      ∀ x ∈ t, x.seq? = none := by
  unfold preloadAround
  split
  · exact ⟨s.requests, [], by simp⟩
  · simp only
    obtain ⟨r1, t1, h1, g1⟩ := preloadOne_eq s (orderAt s (jsMod (idx + 1) s.order.length))
    generalize preloadOne s (orderAt s (jsMod (idx + 1) s.order.length)) = s1 at h1 ⊢
    obtain ⟨r2, t2, h2, g2⟩ :=
      preloadOne_eq s1 (orderAt s1 (jsMod (idx - 1 + s1.order.length) s1.order.length))
    rw [h2]; subst h1
    refine ⟨r2, t1 ++ t2, by simp, ?_⟩
    intro x hx
    rcases List.mem_append.1 hx with h | h
    · exact g1 x h
    · exact g2 x h

theorem startDetail_eq (s : State) (id : PhotoId) (url : String) (mk : Option Payload → Task) :
    ∃ r c, startDetail s id url mk = { s with requests := r, tasks := s.tasks ++ [mk c] } := by
  unfold startDetail
  cases cachedFresh s id with
  | none => exact ⟨_, _, rfl⟩
  | some c => exact ⟨s.requests, some c, rfl⟩

theorem showLoading_eq (s : State) (el : Nat) (b : Bool) :
    ∃ sp v, showLoadingWithDelay s el b =
      { s with spinnerTimer := sp,
               els := Function.update s.els el { s.els el with veil := v } } := by
  unfold showLoadingWithDelay
  split
  · exact ⟨s.spinnerTimer, (s.els el).veil, by simp⟩
  · split
    · exact ⟨some (el, (s.els el).panelGen), (s.els el).veil, by simp⟩
    · exact ⟨none, false, rfl⟩

theorem showLoading_sameRender (s : State) (el : Nat) (b : Bool) :
    sameRender s (showLoadingWithDelay s el b) := by
  obtain ⟨sp, v, h⟩ := showLoading_eq s el b
  rw [h]
  refine ⟨rfl, rfl, rfl, ?_⟩
  intro e
  by_cases he : e = el
  · subst he; simp [Overlay.shown]
  · simp [Function.update, he]

@[simp]
theorem setEl_idToUrl (s : State) (el : Nat) (ov : Overlay) :
    (setEl s el ov).idToUrl = s.idToUrl := by
  rfl

@[simp]
theorem setEl_order (s : State) (el : Nat) (ov : Overlay) :
    (setEl s el ov).order = s.order := by
  rfl

@[simp]
theorem setEl_currentIndex (s : State) (el : Nat) (ov : Overlay) :
    (setEl s el ov).currentIndex = s.currentIndex := by
  rfl

@[simp]
theorem setEl_htmlCache (s : State) (el : Nat) (ov : Overlay) :
    (setEl s el ov).htmlCache = s.htmlCache := by
  rfl

@[simp]
theorem setEl_navSeq (s : State) (el : Nat) (ov : Overlay) :
    (setEl s el ov).navSeq = s.navSeq := by
  rfl

@[simp]
theorem setEl_mountHtml (s : State) (el : Nat) (ov : Overlay) :
    (setEl s el ov).mountHtml = s.mountHtml := by
  rfl

@[simp]
theorem setEl_nextEl (s : State) (el : Nat) (ov : Overlay) :
    (setEl s el ov).nextEl = s.nextEl := by
  rfl

@[simp]
theorem setEl_mounted (s : State) (el : Nat) (ov : Overlay) :
    (setEl s el ov).mounted = s.mounted := by
  rfl

@[simp]
theorem setEl_doc (s : State) (el : Nat) (ov : Overlay) :
    (setEl s el ov).doc = s.doc := by
  rfl

@[simp]
theorem setEl_requests (s : State) (el : Nat) (ov : Overlay) :
    (setEl s el ov).requests = s.requests := by
  rfl

@[simp]
theorem setEl_tasks (s : State) (el : Nat) (ov : Overlay) :
    (setEl s el ov).tasks = s.tasks := by
  rfl

@[simp]
theorem toastInModal_idToUrl (s : State) (msg : String) :
    (toastInModal s msg).idToUrl = s.idToUrl := by
  unfold toastInModal; split <;> rfl

@[simp]
theorem toastInModal_order (s : State) (msg : String) :
    (toastInModal s msg).order = s.order := by
  unfold toastInModal; split <;> rfl

@[simp]
theorem toastInModal_currentIndex (s : State) (msg : String) :
    (toastInModal s msg).currentIndex = s.currentIndex := by
  unfold toastInModal; split <;> rfl

@[simp]
theorem toastInModal_htmlCache (s : State) (msg : String) :
    (toastInModal s msg).htmlCache = s.htmlCache := by
  unfold toastInModal; split <;> rfl

@[simp]
theorem toastInModal_navSeq (s : State) (msg : String) :
    (toastInModal s msg).navSeq = s.navSeq := by
  unfold toastInModal; split <;> rfl

@[simp]
theorem toastInModal_mountHtml (s : State) (msg : String) :
    (toastInModal s msg).mountHtml = s.mountHtml := by
  unfold toastInModal; split <;> rfl

@[simp]
theorem toastInModal_nextEl (s : State) (msg : String) :
    (toastInModal s msg).nextEl = s.nextEl := by
  unfold toastInModal; split <;> rfl

@[simp]
theorem toastInModal_mounted (s : State) (msg : String) :
    (toastInModal s msg).mounted = s.mounted := by
  unfold toastInModal; split <;> rfl

@[simp]
theorem toastInModal_doc (s : State) (msg : String) :
    (toastInModal s msg).doc = s.doc := by
  unfold toastInModal; split <;> rfl

@[simp]
theorem toastInModal_requests (s : State) (msg : String) :
    (toastInModal s msg).requests = s.requests := by
  unfold toastInModal; split <;> rfl

@[simp]
theorem toastInModal_tasks (s : State) (msg : String) :
    (toastInModal s msg).tasks = s.tasks := by
  unfold toastInModal; split <;> rfl

@[simp]
theorem showLoadingWithDelay_idToUrl (s : State) (el : Nat) (b : Bool) :
    (showLoadingWithDelay s el b).idToUrl = s.idToUrl := by
  unfold showLoadingWithDelay; split; · rfl
  split <;> rfl

@[simp]
theorem showLoadingWithDelay_order (s : State) (el : Nat) (b : Bool) :
    (showLoadingWithDelay s el b).order = s.order := by
  unfold showLoadingWithDelay; split; · rfl
  split <;> rfl

@[simp]
theorem showLoadingWithDelay_currentIndex (s : State) (el : Nat) (b : Bool) :
    (showLoadingWithDelay s el b).currentIndex = s.currentIndex := by
  unfold showLoadingWithDelay; split; · rfl
  split <;> rfl

@[simp]
theorem showLoadingWithDelay_htmlCache (s : State) (el : Nat) (b : Bool) :
    (showLoadingWithDelay s el b).htmlCache = s.htmlCache := by
  unfold showLoadingWithDelay; split; · rfl
  split <;> rfl

@[simp]
theorem showLoadingWithDelay_navSeq (s : State) (el : Nat) (b : Bool) :
    (showLoadingWithDelay s el b).navSeq = s.navSeq := by
  unfold showLoadingWithDelay; split; · rfl
  split <;> rfl

@[simp]
theorem showLoadingWithDelay_mountHtml (s : State) (el : Nat) (b : Bool) :
    (showLoadingWithDelay s el b).mountHtml = s.mountHtml := by
  unfold showLoadingWithDelay; split; · rfl
  split <;> rfl

@[simp]
theorem showLoadingWithDelay_nextEl (s : State) (el : Nat) (b : Bool) :
    (showLoadingWithDelay s el b).nextEl = s.nextEl := by
  unfold showLoadingWithDelay; split; · rfl
  split <;> rfl

@[simp]
theorem showLoadingWithDelay_mounted (s : State) (el : Nat) (b : Bool) :
    (showLoadingWithDelay s el b).mounted = s.mounted := by
  unfold showLoadingWithDelay; split; · rfl
  split <;> rfl

@[simp]
theorem showLoadingWithDelay_doc (s : State) (el : Nat) (b : Bool) :
    (showLoadingWithDelay s el b).doc = s.doc := by
  unfold showLoadingWithDelay; split; · rfl
  split <;> rfl

@[simp]
theorem showLoadingWithDelay_requests (s : State) (el : Nat) (b : Bool) :
    (showLoadingWithDelay s el b).requests = s.requests := by
  unfold showLoadingWithDelay; split; · rfl
  split <;> rfl

@[simp]
theorem showLoadingWithDelay_tasks (s : State) (el : Nat) (b : Bool) :
    (showLoadingWithDelay s el b).tasks = s.tasks := by
  unfold showLoadingWithDelay; split; · rfl
  split <;> rfl

@[simp]
theorem preloadAround_idToUrl (s : State) (idx : Int) :
    (preloadAround s idx).idToUrl = s.idToUrl := by
  obtain ⟨r, t, h, -⟩ := preloadAround_eq s idx; rw [h]

@[simp]
theorem preloadAround_order (s : State) (idx : Int) :
    (preloadAround s idx).order = s.order := by
  obtain ⟨r, t, h, -⟩ := preloadAround_eq s idx; rw [h]

@[simp]
theorem preloadAround_currentIndex (s : State) (idx : Int) :
    (preloadAround s idx).currentIndex = s.currentIndex := by
  obtain ⟨r, t, h, -⟩ := preloadAround_eq s idx; rw [h]

@[simp]
theorem preloadAround_htmlCache (s : State) (idx : Int) :
    (preloadAround s idx).htmlCache = s.htmlCache := by
  obtain ⟨r, t, h, -⟩ := preloadAround_eq s idx; rw [h]

@[simp]
theorem preloadAround_navSeq (s : State) (idx : Int) :
    (preloadAround s idx).navSeq = s.navSeq := by
  obtain ⟨r, t, h, -⟩ := preloadAround_eq s idx; rw [h]

@[simp]
theorem preloadAround_mountHtml (s : State) (idx : Int) :
    (preloadAround s idx).mountHtml = s.mountHtml := by
  obtain ⟨r, t, h, -⟩ := preloadAround_eq s idx; rw [h]

@[simp]
theorem preloadAround_els (s : State) (idx : Int) :
    (preloadAround s idx).els = s.els := by
  obtain ⟨r, t, h, -⟩ := preloadAround_eq s idx; rw [h]

@[simp]
theorem preloadAround_nextEl (s : State) (idx : Int) :
    (preloadAround s idx).nextEl = s.nextEl := by
  obtain ⟨r, t, h, -⟩ := preloadAround_eq s idx; rw [h]

@[simp]
theorem preloadAround_mounted (s : State) (idx : Int) :
    (preloadAround s idx).mounted = s.mounted := by
  obtain ⟨r, t, h, -⟩ := preloadAround_eq s idx; rw [h]

@[simp]
theorem preloadAround_doc (s : State) (idx : Int) :
    (preloadAround s idx).doc = s.doc := by
  obtain ⟨r, t, h, -⟩ := preloadAround_eq s idx; rw [h]

@[simp]
theorem startDetail_idToUrl (s : State) (id : PhotoId) (url : String) (mk : Option Payload → Task) :
    (startDetail s id url mk).idToUrl = s.idToUrl := by
  obtain ⟨r, c, h⟩ := startDetail_eq s id url mk; rw [h]

@[simp]
theorem startDetail_order (s : State) (id : PhotoId) (url : String) (mk : Option Payload → Task) :
    (startDetail s id url mk).order = s.order := by
  obtain ⟨r, c, h⟩ := startDetail_eq s id url mk; rw [h]

@[simp]
theorem startDetail_currentIndex (s : State) (id : PhotoId) (url : String) (mk : Option Payload → Task) :
    (startDetail s id url mk).currentIndex = s.currentIndex := by
  obtain ⟨r, c, h⟩ := startDetail_eq s id url mk; rw [h]

@[simp]
theorem startDetail_htmlCache (s : State) (id : PhotoId) (url : String) (mk : Option Payload → Task) :
    (startDetail s id url mk).htmlCache = s.htmlCache := by
  obtain ⟨r, c, h⟩ := startDetail_eq s id url mk; rw [h]

@[simp]
theorem startDetail_navSeq (s : State) (id : PhotoId) (url : String) (mk : Option Payload → Task) :
    (startDetail s id url mk).navSeq = s.navSeq := by
  obtain ⟨r, c, h⟩ := startDetail_eq s id url mk; rw [h]

@[simp]
theorem startDetail_mountHtml (s : State) (id : PhotoId) (url : String) (mk : Option Payload → Task) :
    (startDetail s id url mk).mountHtml = s.mountHtml := by
  obtain ⟨r, c, h⟩ := startDetail_eq s id url mk; rw [h]

@[simp]
theorem startDetail_els (s : State) (id : PhotoId) (url : String) (mk : Option Payload → Task) :
    (startDetail s id url mk).els = s.els := by
  obtain ⟨r, c, h⟩ := startDetail_eq s id url mk; rw [h]

@[simp]
theorem startDetail_nextEl (s : State) (id : PhotoId) (url : String) (mk : Option Payload → Task) :
    (startDetail s id url mk).nextEl = s.nextEl := by
  obtain ⟨r, c, h⟩ := startDetail_eq s id url mk; rw [h]

@[simp]
theorem startDetail_mounted (s : State) (id : PhotoId) (url : String) (mk : Option Payload → Task) :
    (startDetail s id url mk).mounted = s.mounted := by
  obtain ⟨r, c, h⟩ := startDetail_eq s id url mk; rw [h]

@[simp]
theorem startDetail_doc (s : State) (id : PhotoId) (url : String) (mk : Option Payload → Task) :
    (startDetail s id url mk).doc = s.doc := by
  obtain ⟨r, c, h⟩ := startDetail_eq s id url mk; rw [h]

theorem sameRender_refl (s : State) : sameRender s s := ⟨rfl, rfl, rfl, fun _ => rfl⟩

theorem sameRender_trans {s t u : State} (h1 : sameRender s t) (h2 : sameRender t u) :
    sameRender s u :=
  ⟨h2.1.trans h1.1, h2.2.1.trans h1.2.1, h2.2.2.1.trans h1.2.2.1,
    fun el => (h2.2.2.2 el).trans (h1.2.2.2 el)⟩

theorem finishDetail_eq (t : State) (id : PhotoId) (c : Option Payload) (o : FetchOutcome) :
    (finishDetail t id c o).1 = { t with htmlCache := cacheAfter t id c o } := by
  unfold finishDetail cacheAfter
  cases c with
  | some d => rfl
  | none => cases fetchDetailHTML o <;> rfl

theorem stale_navDetail (t : State) (seq : Nat) (idx : Int) (id : PhotoId) (el : Option Nat)
    (c : Option Payload) (o : FetchOutcome) (h : seq ≠ t.navSeq) :
    sameRender t (runTask t (.navDetail seq idx id el c) o) ∧
    (runTask t (.navDetail seq idx id el c) o).navSeq = t.navSeq ∧
    (runTask t (.navDetail seq idx id el c) o).tasks = t.tasks ∧
    (runTask t (.navDetail seq idx id el c) o).htmlCache = cacheAfter t id c o := by
  have h' : ¬ (seq = t.navSeq) := h
  simp only [runTask]
  rw [finishDetail_eq]
  generalize cacheAfter t id c o = hc
  cases el with
  | none =>
    simp only [resumeFirst]
    cases (finishDetail t id c o).2 with
    | ok d => simp [h', sameRender_refl]; exact ⟨rfl, rfl, rfl, fun _ => rfl⟩
    | error e => simp [h', sameRender_refl]; exact ⟨rfl, rfl, rfl, fun _ => rfl⟩
  | some e =>
    simp only [resumeMounted]
    cases (finishDetail t id c o).2 with
    | ok d =>
      simp only [ne_eq, h', not_false_eq_true, if_true]
      obtain ⟨sp, v, hh⟩ := showLoading_eq { t with htmlCache := hc } e false
      refine ⟨sameRender_trans (s := t) (t := { t with htmlCache := hc })
        ⟨rfl, rfl, rfl, fun _ => rfl⟩ (showLoading_sameRender _ _ _), ?_, ?_, ?_⟩ <;>
      rw [hh]
    | error er =>
      simp only [h', and_false, if_false]
      obtain ⟨sp, v, hh⟩ := showLoading_eq { t with htmlCache := hc } e false
      refine ⟨sameRender_trans (s := t) (t := { t with htmlCache := hc })
        ⟨rfl, rfl, rfl, fun _ => rfl⟩ (showLoading_sameRender _ _ _), ?_, ?_, ?_⟩ <;>
      rw [hh]

theorem addsOnly_refl (k : Nat) (l : List Task) : addsOnly k l l := ⟨[], by simp⟩

theorem addsOnly_trans {k : Nat} {a b c : List Task} (h1 : addsOnly k a b)
    (h2 : addsOnly k b c) : addsOnly k a c := by
  obtain ⟨x, rfl, hx⟩ := h1
  obtain ⟨y, rfl, hy⟩ := h2
  refine ⟨x ++ y, by simp, ?_⟩
  intro z hz
  rcases List.mem_append.1 hz with h | h
  · exact hx z h
  · exact hy z h

theorem preloadAround_adds (s : State) (idx : Int) (k n : Nat) (old : List Task)
    (h1 : s.tasks = old) (h2 : s.navSeq = n) :
    addsOnly k old (preloadAround s idx).tasks ∧ (preloadAround s idx).navSeq = n := by
  obtain ⟨r, t, h, g⟩ := preloadAround_eq s idx
  rw [h]; subst h1; subst h2
  exact ⟨⟨t, rfl, fun x hx => Or.inl (g x hx)⟩, rfl⟩

theorem runTask_adds (t : State) (τ : Task) (o : FetchOutcome) :
    addsOnly t.navSeq t.tasks (runTask t τ o).tasks ∧ (runTask t τ o).navSeq = t.navSeq := by
  cases τ with
  | navDetail seq idx id el c =>
    simp only [runTask]
    rw [finishDetail_eq]
    generalize cacheAfter t id c o = hc
    cases el with
    | none =>
      simp only [resumeFirst]
      cases (finishDetail t id c o).2 with
      | ok d =>
        simp only
        split
        · exact ⟨addsOnly_refl _ _, rfl⟩
        · split
          · simp [addsOnly_refl]
          · exact preloadAround_adds _ _ _ _ _ rfl rfl
      | error e =>
        simp only
        split <;> simp [addsOnly_refl]
    | some e =>
      simp only [resumeMounted]
      cases (finishDetail t id c o).2 with
      | ok d =>
        simp only
        split
        · simp [addsOnly_refl]
        · rename_i hs
          have hs' : seq = t.navSeq := by simpa using hs
          refine ⟨⟨_, rfl, ?_⟩, rfl⟩
          intro x hx
          simp only [List.mem_singleton] at hx
          subst hx
          right; simp [Task.seq?, hs']
      | error er =>
        simp only
        split <;> simp [addsOnly_refl]
  | navSwap seq idx id el pre gen =>
    simp only [runTask, resumeSwap, finishNav]
    cases pre with
    | none =>
      simp only [showLoadingWithDelay_tasks, showLoadingWithDelay_navSeq]
      exact preloadAround_adds _ _ _ _ _ rfl rfl
    | some h =>
      simp only [showLoadingWithDelay_tasks, showLoadingWithDelay_navSeq]
      exact preloadAround_adds _ _ _ _ _ rfl rfl
  | prefetch pid =>
    simp only [runTask, finishPrefetch]
    cases fetchDetailHTML o <;> exact ⟨addsOnly_refl _ _, rfl⟩
  | submitPost el id =>
    simp only [runTask, resumeSubmitPost]
    cases postForm o with
    | error e => simp [addsOnly_refl]
    | ok d =>
      refine ⟨⟨_, rfl, ?_⟩, rfl⟩
      intro x hx
      simp only [List.mem_singleton] at hx
      subst hx
      left; rfl
  | submitSwap el id data pre gen =>
    simp only [runTask, resumeSubmitSwap]
    cases pre <;> cases newId data id <;> exact ⟨addsOnly_refl _ _, rfl⟩

theorem startDetail_tasks_eq (s : State) (id : PhotoId) (url : String)
    (mk : Option Payload → Task) :
    (startDetail s id url mk).tasks = s.tasks ++ [mk (cachedFresh s id)] := by
  unfold startDetail
  cases cachedFresh s id <;> rfl

theorem startDetail_requests_eq (s : State) (id : PhotoId) (url : String)
    (mk : Option Payload → Task) :
    (startDetail s id url mk).requests =
      if (cachedFresh s id).isSome then s.requests else s.requests ++ [url] := by
  unfold startDetail
  cases cachedFresh s id <;> rfl

theorem cachedFresh_eq (s : State) (id : PhotoId) :
    cachedFresh s id =
      (s.htmlCache id).bind
        (fun c => if isFresh c (readTileCounts s.doc id) then some c else none) := by
  unfold cachedFresh
  cases s.htmlCache id <;> rfl

theorem openByIndex_valid (s : State) (idx : Int) (id : PhotoId) (url : String)
    (hidx : 0 ≤ idx ∧ idx < s.order.length) (hid : orderAt s idx = some id)
    (hurl : truthy (s.idToUrl id) = some url) :
    (openByIndex s idx).navSeq = s.navSeq + 1 ∧
    (openByIndex s idx).tasks =
      s.tasks ++ [.navDetail (s.navSeq + 1) idx id s.mounted (cachedFresh s id)] ∧
    (openByIndex s idx).requests =
      (if (cachedFresh s id).isSome then s.requests else s.requests ++ [url]) ∧
    (openByIndex s idx).htmlCache = s.htmlCache ∧
    (openByIndex s idx).currentIndex = s.currentIndex ∧
    (openByIndex s idx).mounted = s.mounted ∧
    (openByIndex s idx).mountHtml = s.mountHtml ∧
    (openByIndex s idx).els = s.els := by
  have hr : ¬ (idx < 0 ∨ idx ≥ s.order.length) := by omega
  have hid' : ∀ (a : Nat) (b : List Nat) (c : Option Nat),
      orderAt { s with navSeq := a, aborted := b, navAbort := c } idx = some id := fun _ _ _ => hid
  unfold openByIndex
  rw [if_neg hr]
  simp only [hid', hurl]
  split
  · rename_i hm
    simp only [startDetail_navSeq, startDetail_tasks_eq, startDetail_requests_eq,
      startDetail_htmlCache, startDetail_currentIndex, startDetail_mounted,
      startDetail_mountHtml, startDetail_els, cachedFresh_eq, hm]
    exact ⟨trivial, trivial, trivial, trivial, trivial, trivial, trivial, trivial⟩
  · rename_i el hm
    simp only [startDetail_navSeq, startDetail_tasks_eq, startDetail_requests_eq,
      startDetail_htmlCache, startDetail_currentIndex, startDetail_mounted,
      startDetail_mountHtml, startDetail_els, showLoadingWithDelay_navSeq,
      showLoadingWithDelay_tasks, showLoadingWithDelay_requests,
      showLoadingWithDelay_htmlCache, showLoadingWithDelay_currentIndex,
      showLoadingWithDelay_mounted, showLoadingWithDelay_mountHtml,
      showLoadingWithDelay_doc, cachedFresh_eq, hm]
    refine ⟨trivial, trivial, trivial, trivial, trivial, trivial, trivial, ?_⟩
    unfold showLoadingWithDelay
    split
    · rfl
    · rfl

theorem openByIndex_adds (s : State) (idx : Int) :
    s.navSeq ≤ (openByIndex s idx).navSeq ∧
    addsOnly (openByIndex s idx).navSeq s.tasks (openByIndex s idx).tasks := by
  unfold openByIndex
  split
  · exact ⟨le_refl _, addsOnly_refl _ _⟩
  · simp only
    split
    · exact ⟨Nat.le_succ _, addsOnly_refl _ _⟩
    · split
      · exact ⟨Nat.le_succ _, addsOnly_refl _ _⟩
      · split
        · simp only [startDetail_navSeq, startDetail_tasks_eq]
          refine ⟨Nat.le_succ _, _, rfl, ?_⟩
          intro x hx
          simp only [List.mem_singleton] at hx
          subst hx
          right; rfl
        · simp only [startDetail_navSeq, startDetail_tasks_eq, showLoadingWithDelay_navSeq,
            showLoadingWithDelay_tasks]
          refine ⟨Nat.le_succ _, _, rfl, ?_⟩
          intro x hx
          simp only [List.mem_singleton] at hx
          subst hx
          right; rfl

theorem onSubmit_adds (s : State) (el : Nat) (form : Form) (csrf : Bool) :
    (onSubmit s el form csrf).navSeq = s.navSeq ∧
    addsOnly s.navSeq s.tasks (onSubmit s el form csrf).tasks := by
  unfold onSubmit
  split
  · exact ⟨rfl, addsOnly_refl _ _⟩
  · simp only
    split
    · simp [addsOnly_refl]
    · refine ⟨rfl, _, rfl, ?_⟩
      intro x hx
      simp only [List.mem_singleton] at hx
      subst hx
      left; rfl

theorem transitionEnd_adds (s : State) (el : Nat) :
    (transitionEnd s el).navSeq = s.navSeq ∧ (transitionEnd s el).tasks = s.tasks := by
  unfold transitionEnd
  split <;> exact ⟨rfl, rfl⟩

theorem spinnerFire_adds (s : State) :
    (spinnerFire s).navSeq = s.navSeq ∧ (spinnerFire s).tasks = s.tasks := by
  unfold spinnerFire
  split
  · exact ⟨rfl, rfl⟩
  · split <;> exact ⟨rfl, rfl⟩

/-- Every task after a step was pending before it, or carries no sequence
number, or carries the sequence number current after the step. -/
theorem step_tasks (t : State) (e : Event) :
    t.navSeq ≤ (step t e).navSeq ∧
    (e.navigates = false → (step t e).navSeq = t.navSeq) ∧
    ∀ x ∈ (step t e).tasks,
      x ∈ t.tasks ∨ x.seq? = none ∨ x.seq? = some (step t e).navSeq := by
  have key : ∀ (u : State), t.navSeq ≤ u.navSeq → addsOnly u.navSeq t.tasks u.tasks →
      ∀ x ∈ u.tasks, x ∈ t.tasks ∨ x.seq? = none ∨ x.seq? = some u.navSeq := by
    intro u _ ⟨added, hu, ha⟩ x hx
    rw [hu] at hx
    rcases List.mem_append.1 hx with h | h
    · exact Or.inl h
    · exact Or.inr (ha x h)
  cases e with
  | call idx =>
    obtain ⟨h1, h2⟩ := openByIndex_adds t idx
    exact ⟨h1, fun h => by simp [Event.navigates] at h, key _ h1 h2⟩
  | prev =>
    simp only [step]
    split
    · obtain ⟨h1, h2⟩ := openByIndex_adds t (prevIndex t)
      exact ⟨h1, fun h => by simp [Event.navigates] at h, key _ h1 h2⟩
    · exact ⟨le_refl _, fun _ => rfl, fun x hx => Or.inl hx⟩
  | next =>
    simp only [step]
    split
    · obtain ⟨h1, h2⟩ := openByIndex_adds t (nextIndex t)
      exact ⟨h1, fun h => by simp [Event.navigates] at h, key _ h1 h2⟩
    · exact ⟨le_refl _, fun _ => rfl, fun x hx => Or.inl hx⟩
  | resume i o =>
    simp only [step]
    split
    · exact ⟨le_refl _, fun _ => rfl, fun x hx => Or.inl hx⟩
    · rename_i τ hτ
      obtain ⟨⟨added, h1, ha⟩, h2⟩ := runTask_adds { t with tasks := t.tasks.eraseIdx i } τ o
      refine ⟨le_of_eq h2.symm, fun _ => h2, ?_⟩
      intro x hx
      rw [h1] at hx
      rcases List.mem_append.1 hx with h | h
      · exact Or.inl (List.mem_of_mem_eraseIdx h)
      · rw [h2]; exact Or.inr (ha x h)
  | submit form csrf =>
    simp only [step]
    split
    · rename_i el _
      obtain ⟨h1, h2⟩ := onSubmit_adds t el form csrf
      exact ⟨le_of_eq h1.symm, fun _ => h1, key _ (le_of_eq h1.symm) (h1 ▸ h2)⟩
    · exact ⟨le_refl _, fun _ => rfl, fun x hx => Or.inl hx⟩
  | transitionEnd el =>
    obtain ⟨h1, h2⟩ := transitionEnd_adds t el
    simp only [step]
    exact ⟨le_of_eq h1.symm, fun _ => h1, fun x hx => Or.inl (h2 ▸ hx)⟩
  | spinnerFire =>
    obtain ⟨h1, h2⟩ := spinnerFire_adds t
    simp only [step]
    exact ⟨le_of_eq h1.symm, fun _ => h1, fun x hx => Or.inl (h2 ▸ hx)⟩
  | toastExpire el =>
    exact ⟨le_refl _, fun _ => rfl, fun x hx => Or.inl hx⟩

/-- Well-formedness is kept by every step. -/
theorem wf_step (t : State) (e : Event) (h : t.wf) : (step t e).wf := by
  obtain ⟨h1, -, h3⟩ := step_tasks t e
  intro x hx k hk
  rcases h3 x hx with h' | h' | h'
  · exact le_trans (h x h' k hk) h1
  · rw [h'] at hk; cases hk
  · rw [h'] at hk; cases hk; exact le_refl _

theorem wf_run (s : State) (evs : List Event) (h : s.wf) : (run s evs).wf := by
  induction evs generalizing s with
  | nil => exact h
  | cons e es ih => exact ih (step s e) (wf_step s e h)

theorem foldl_addThumb_tasks (l : List Thumb) (s : State) :
    (l.foldl addThumb s).tasks = s.tasks ∧ (l.foldl addThumb s).navSeq = s.navSeq := by
  induction l generalizing s with
  | nil => exact ⟨rfl, rfl⟩
  | cons a l ih =>
    simp only [List.foldl_cons]
    rw [(ih _).1, (ih _).2]
    unfold addThumb
    cases a.photoId <;> exact ⟨rfl, rfl⟩

theorem wf_init (doc : Doc) : (init doc).wf := by
  intro x hx
  have h : (init doc).tasks = [] := (foldl_addThumb_tasks _ _).1
  rw [h] at hx
  cases hx

theorem openByIndex_order (s : State) (idx : Int) :
    (openByIndex s idx).order = s.order ∧ (openByIndex s idx).idToUrl = s.idToUrl ∧
    (openByIndex s idx).doc = s.doc := by
  unfold openByIndex
  split
  · exact ⟨rfl, rfl, rfl⟩
  · simp only
    split
    · exact ⟨rfl, rfl, rfl⟩
    · split
      · exact ⟨rfl, rfl, rfl⟩
      · split <;> simp

theorem orderAt_congr (s s' : State) (k : Int) (h : s'.order = s.order) :
    orderAt s' k = orderAt s k := by
  unfold orderAt; rw [h]

/-- The invariant of a run that follows three calls numbered `n + 1`, `n + 2`
and `n + 3`: the first two attempts are still where they were suspended. -/
theorem early_attempts_wait (n : Nat) (t : State) (evs : List Event)
    (hev : ∀ e ∈ evs, e.navigates = false) (hn : t.navSeq = n + 3)
    (ht : ∀ τ ∈ t.tasks, ∀ k, τ.seq? = some k → k = n + 1 ∨ k = n + 2 →
      ∃ idx id el c, τ = .navDetail k idx id el c) :
    (run t evs).navSeq = n + 3 ∧
    ∀ τ ∈ (run t evs).tasks, ∀ k, τ.seq? = some k → k = n + 1 ∨ k = n + 2 →
      ∃ idx id el c, τ = .navDetail k idx id el c := by
  induction evs generalizing t with
  | nil => exact ⟨hn, ht⟩
  | cons e es ih =>
    obtain ⟨-, h2, h3⟩ := step_tasks t e
    have he : e.navigates = false := hev e (List.mem_cons_self _ _)
    have hn' : (step t e).navSeq = n + 3 := (h2 he).trans hn
    refine ih (step t e) (fun e' h' => hev e' (List.mem_cons_of_mem _ h')) hn' ?_
    intro τ hτ k hk hk'
    rcases h3 τ hτ with h | h | h
    · exact ht τ h k hk hk'
    · rw [h] at hk; cases hk
    · rw [h, hn'] at hk
      cases hk
      omega

theorem cachedFresh_openByIndex (s : State) (idx : Int) (id : PhotoId)
    (h : (openByIndex s idx).htmlCache = s.htmlCache) :
    cachedFresh (openByIndex s idx) id = cachedFresh s id := by
  rw [cachedFresh_eq, cachedFresh_eq, h, (openByIndex_order s idx).2.2]

theorem sameCount_iff (a b : Option Int) :
    sameCount a b = true ↔ a = none ∨ b = none ∨ ∃ n, a = some n ∧ b = some n := by
  cases a <;> cases b <;> simp [sameCount]
  exact eq_comm

theorem isFresh_false_of_differs (cached : Payload) (tile : TileCounts)
    (h : (∃ x y, cached.comments_count = some x ∧ tile.comments = some y ∧ x ≠ y) ∨
         (∃ x y, cached.favorites_count = some x ∧ tile.favorites = some y ∧ x ≠ y)) :
    isFresh cached tile = false := by
  unfold isFresh
  rcases h with ⟨x, y, h1, h2, h3⟩ | ⟨x, y, h1, h2, h3⟩
  · rw [h1, h2]; simp [sameCount, h3]
  · rw [h1, h2]; simp [sameCount, h3]

theorem finishDetail_ok (t : State) (id : PhotoId) (c : Option Payload) (o : FetchOutcome)
    (data : Payload) (h : (finishDetail t id c o).2 = .ok data) :
    finishDetail t id c o = ({ t with htmlCache := cacheAfter t id c o }, .ok data) := by
  rw [← finishDetail_eq, ← h]

theorem finishDetail_error (t : State) (id : PhotoId) (c : Option Payload) (o : FetchOutcome)
    (e : Err) (h : (finishDetail t id c o).2 = .error e) :
    finishDetail t id c o = (t, .error e) := by
  unfold finishDetail at h ⊢
  cases c with
  | some d => cases h
  | none =>
    simp only at h ⊢
    cases hf : fetchDetailHTML o with
    | ok d => rw [hf] at h; cases h
    | error e' => rw [hf] at h; simp only at h ⊢; rw [h]

theorem fetchDetailHTML_failures (r : Response)
    (h : r.ok = false ∨ includes (toLowerCase (r.contentType.getD "")) "application/json".toList
          = false ∨ r.json.bind (fun b => b.html) = none) :
    fetchDetailHTML (.response r) = .error .other := by
  unfold fetchDetailHTML fetchJSON
  simp only
  generalize includes (toLowerCase (r.contentType.getD "")) "application/json".toList = inc
    at h ⊢
  cases hok : r.ok <;> cases inc <;> cases hj : r.json <;> simp [hok, hj] at h ⊢
  rw [h]

theorem patchFirst_length {α : Type} (p : α → Bool) (f : α → α) (l : List α) :
    (patchFirst p f l).length = l.length := by
  induction l with
  | nil => rfl
  | cons x xs ih =>
    unfold patchFirst
    split
    · rfl
    · simp [ih]

theorem patchFirst_getElem? {α : Type} (p : α → Bool) (f : α → α) (l : List α) (i : Nat)
    (e : α) (h : l[i]? = some e) (hp : p e = false) : (patchFirst p f l)[i]? = some e := by
  induction l generalizing i with
  | nil => simp at h
  | cons x xs ih =>
    unfold patchFirst
    cases i with
    | zero =>
      simp only [List.getElem?_cons_zero, Option.some.injEq] at h
      subst h
      simp [hp]
    | succ n =>
      simp only [List.getElem?_cons_succ] at h
      split
      · simpa using h
      · simpa using ih n h

theorem patchFirst_find? {α : Type} (p : α → Bool) (f : α → α) (l : List α) (e : α)
    (hf : ∀ x, p x = true → p (f x) = true) (h : l.find? p = some e) :
    (patchFirst p f l).find? p = some (f e) := by
  induction l with
  | nil => simp at h
  | cons x xs ih =>
    unfold patchFirst
    by_cases hx : p x = true
    · simp only [List.find?_cons, hx] at h
      cases h
      simp [hx, hf _ hx]
    · have hx' : p x = false := by simpa using hx
      simp only [List.find?_cons, hx'] at h
      simp [hx', ih h]

theorem queryNum_of_find? (l : List CountEl) (p : PhotoId) (e : CountEl) (x : NumText)
    (h : l.find? (fun e => e.photoId == p) = some e) (hx : e.num = some x) :
    queryNum l p = some x := by
  unfold queryNum
  induction l with
  | nil => simp at h
  | cons y ys ih =>
    by_cases hy : (y.photoId == p) = true
    · simp only [List.find?_cons, hy] at h
      cases h
      simp [List.filter_cons, hy, List.findSome?_cons, hx]
    · have hy' : (y.photoId == p) = false := by simpa using hy
      simp only [List.find?_cons, hy'] at h
      simp only [List.filter_cons, hy']
      exact ih h

theorem setCountEl_of_key (p : PhotoId) (n : Int) (e : CountEl) (hk : (e.photoId == p) = true)
    (hnum : e.num.isSome = true) :
    setCountEl n e = ⟨p, some (.digits n), n == 0⟩ := by
  have hk' : e.photoId = p := by simpa using hk
  unfold setCountEl
  cases e with
  | mk k num dn =>
    simp only at hk' hnum
    subst hk'
    cases num with
    | none => cases hnum
    | some x => rfl

/-! ## The claims -/

/-- Claim C1.  Let `a`, `b` and `c` be valid indices with a URL, and let the
three calls `openByIndex(a)`, `openByIndex(b)`, `openByIndex(c)` be made in
immediate succession in a state whose pending attempts were all numbered by
`navSeq`.  Then the three continuations are pending, numbered `navSeq + 1`,
`navSeq + 2` and `navSeq + 3`; and after any run of further events that
starts no navigation, `navSeq` is still the number of `c`, and resuming a
continuation of `a` or of `b`, whatever its request answered, changes neither
the navigation index, nor the mounted HTML, nor the modal in the document,
nor, on any modal element, the panel, the swap region, the pending swaps, the
toast or the attribute `data-photo-id`: what is mounted or swapped afterwards
is never theirs. -/
theorem succession_only_last_renders (s : State) (a b c : Int) (ia ib ic : PhotoId)
    (ua ub uc : String) (hwf : s.wf)
    (ha : 0 ≤ a ∧ a < s.order.length) (hia : orderAt s a = some ia)
    (hua : truthy (s.idToUrl ia) = some ua)
    (hb : 0 ≤ b ∧ b < s.order.length) (hib : orderAt s b = some ib)
    (hub : truthy (s.idToUrl ib) = some ub)
    (hc : 0 ≤ c ∧ c < s.order.length) (hic : orderAt s c = some ic)
    (huc : truthy (s.idToUrl ic) = some uc)
    (evs : List Event) (hev : ∀ e ∈ evs, e.navigates = false) :
    (openThree s a b c).tasks =
      s.tasks ++ [Task.navDetail (s.navSeq + 1) a ia s.mounted (cachedFresh s ia),
                  Task.navDetail (s.navSeq + 2) b ib s.mounted (cachedFresh s ib),
                  Task.navDetail (s.navSeq + 3) c ic s.mounted (cachedFresh s ic)] ∧
    (run (openThree s a b c) evs).navSeq = s.navSeq + 3 ∧
    ∀ (i : Nat) (τ : Task) (o : FetchOutcome),
      (run (openThree s a b c) evs).tasks[i]? = some τ →
      τ.seq? = some (s.navSeq + 1) ∨ τ.seq? = some (s.navSeq + 2) →
      sameRender (run (openThree s a b c) evs)
        (step (run (openThree s a b c) evs) (.resume i o)) := by
  -- the three synchronous parts
  obtain ⟨a1, a2, -, a4, -, a6, -, -⟩ := openByIndex_valid s a ia ua ha hia hua
  obtain ⟨o1, o2, o3⟩ := openByIndex_order s a
  have hb' : 0 ≤ b ∧ b < (openByIndex s a).order.length := by rw [o1]; exact hb
  have hib' : orderAt (openByIndex s a) b = some ib := by
    rw [orderAt_congr s _ b o1]; exact hib
  have hub' : truthy ((openByIndex s a).idToUrl ib) = some ub := by rw [o2]; exact hub
  obtain ⟨b1, b2, -, b4, -, b6, -, -⟩ :=
    openByIndex_valid (openByIndex s a) b ib ub hb' hib' hub'
  obtain ⟨p1, p2, p3⟩ := openByIndex_order (openByIndex s a) b
  have hc' : 0 ≤ c ∧ c < (openByIndex (openByIndex s a) b).order.length := by
    rw [p1, o1]; exact hc
  have hic' : orderAt (openByIndex (openByIndex s a) b) c = some ic := by
    rw [orderAt_congr (openByIndex s a) _ c p1, orderAt_congr s _ c o1]; exact hic
  have huc' : truthy ((openByIndex (openByIndex s a) b).idToUrl ic) = some uc := by
    rw [p2, o2]; exact huc
  obtain ⟨c1, c2, -, -, -, -, -, -⟩ :=
    openByIndex_valid (openByIndex (openByIndex s a) b) c ic uc hc' hic' huc'
  have htasks : (openThree s a b c).tasks =
      s.tasks ++ [Task.navDetail (s.navSeq + 1) a ia s.mounted (cachedFresh s ia),
                  Task.navDetail (s.navSeq + 2) b ib s.mounted (cachedFresh s ib),
                  Task.navDetail (s.navSeq + 3) c ic s.mounted (cachedFresh s ic)] := by
    unfold openThree
    rw [c2, b2, a2, b1, a1, b6, a6, cachedFresh_openByIndex _ _ _ b4,
      cachedFresh_openByIndex _ _ _ a4, cachedFresh_openByIndex _ _ _ a4]
    simp
  have hseq : (openThree s a b c).navSeq = s.navSeq + 3 := by
    unfold openThree; rw [c1, b1, a1]
  -- the invariant of the run
  have hinit : ∀ τ ∈ (openThree s a b c).tasks, ∀ k, τ.seq? = some k →
      k = s.navSeq + 1 ∨ k = s.navSeq + 2 → ∃ idx id el c, τ = .navDetail k idx id el c := by
    intro τ hτ k hk hk'
    rw [htasks] at hτ
    rcases List.mem_append.1 hτ with h | h
    · have := hwf τ h k hk
      omega
    · simp only [List.mem_cons, List.mem_singleton, List.not_mem_nil, or_false] at h
      rcases h with h | h | h <;> subst h <;> simp only [Task.seq?, Option.some.injEq] at hk <;>
        subst hk <;> exact ⟨_, _, _, _, rfl⟩
  obtain ⟨hnav, hinv⟩ := early_attempts_wait s.navSeq (openThree s a b c) evs hev hseq hinit
  refine ⟨htasks, hnav, ?_⟩
  intro i τ o hτ hk
  have hmem : τ ∈ (run (openThree s a b c) evs).tasks := List.getElem?_mem hτ
  have hstale : ∀ k, τ.seq? = some k → k = s.navSeq + 1 ∨ k = s.navSeq + 2 →
      sameRender (run (openThree s a b c) evs)
        (step (run (openThree s a b c) evs) (.resume i o)) := by
    intro k hk1 hk2
    obtain ⟨idx, id, el, cch, rfl⟩ := hinv τ hmem k hk1 hk2
    simp only [step, hτ]
    have hne : k ≠ ({ run (openThree s a b c) evs with
        tasks := (run (openThree s a b c) evs).tasks.eraseIdx i } : State).navSeq := by
      show k ≠ (run (openThree s a b c) evs).navSeq
      rw [hnav]; omega
    exact sameRender_trans ⟨rfl, rfl, rfl, fun _ => rfl⟩
      (stale_navDetail _ k idx id el cch o hne).1
  rcases hk with h | h
  · exact hstale _ h (Or.inl rfl)
  · exact hstale _ h (Or.inr rfl)

/-- Witness of claim C1 on the page with three photos: the indices 0, 1, 2 are
opened in succession from the initial state and the third attempt's fetch
answers first; its HTML is mounted, and resuming the first attempt with a
successful answer afterwards changes nothing that is rendered. -/
theorem succession_only_last_renders_witness :
    (run (openThree s0 0 1 2) [.resume 2 r7]).mountHtml = some h7 ∧
    (run (openThree s0 0 1 2) [.resume 2 r7]).currentIndex = 2 ∧
    sameRender (run (openThree s0 0 1 2) [.resume 2 r7])
      (step (run (openThree s0 0 1 2) [.resume 2 r7]) (.resume 0 r5)) :=
  ⟨by decide, by decide,
    (succession_only_last_renders s0 0 1 2 5 6 7 "/p/5" "/p/6" "/p/7" (wf_init doc0)
      (by decide) (by decide) (by decide) (by decide) (by decide) (by decide)
      (by decide) (by decide) (by decide) [.resume 2 r7] (by decide)).2.2
      0 (.navDetail 1 0 5 none none) r5 (by decide) (Or.inl (by decide))⟩

/-- Claim C2, evaluated on the code.  Photo 5 is open; `next` starts attempt 2
for photo 6, whose payload arrives while it is the latest attempt and whose
swap then waits for its image; `prev` starts attempt 3.  When the image wait of
attempt 2 ends, `navSeq` is 3, and yet the continuation of attempt 2 leaves a
pending swap to its HTML, sets `currentIndex` to 1 and `data-photo-id` to 6;
when the fade-out ends the swap region is replaced by the HTML of photo 6.
(The continuation at `await swapModalContentSmooth` reads no request outcome:
the outcome given to `resume` there is ignored.) -/
theorem stale_swap_writes_after_supersession :
    (run s0 [.call 0, .resume 0 r5, .next, .resume 2 r6, .prev]).navSeq = 3 ∧
    (run s0 [.call 0, .resume 0 r5, .next, .resume 2 r6, .prev]).tasks[2]? =
      some (.navSwap 2 1 6 0 (some h6) 0) ∧
    (run s0 [.call 0, .resume 0 r5, .next, .resume 2 r6, .prev]).currentIndex = 0 ∧
    ((run s0 [.call 0, .resume 0 r5, .next, .resume 2 r6, .prev]).els 0).dataPhotoId = some 5 ∧
    ((run s0 [.call 0, .resume 0 r5, .next, .resume 2 r6, .prev]).els 0).fadeQueue = [] ∧
    (run s0 [.call 0, .resume 0 r5, .next, .resume 2 r6, .prev, .resume 2 .failed]).navSeq = 3 ∧
    (run s0 [.call 0, .resume 0 r5, .next, .resume 2 r6, .prev,
      .resume 2 .failed]).currentIndex = 1 ∧
    ((run s0 [.call 0, .resume 0 r5, .next, .resume 2 r6, .prev,
      .resume 2 .failed]).els 0).dataPhotoId = some 6 ∧
    ((run s0 [.call 0, .resume 0 r5, .next, .resume 2 r6, .prev,
      .resume 2 .failed]).els 0).fadeQueue = [h6] ∧
    ((run s0 [.call 0, .resume 0 r5, .next, .resume 2 r6, .prev,
      .resume 2 .failed, .transitionEnd 0]).els 0).swap = some h6 := by
  decide

/-- Claim C3.  The call `getDetailEnsuringFreshness(id, url)`: when the cache
holds an entry for `id` that is fresh against the tile counters, no request is
issued, the cache is left alone and the caller receives that entry; when there
is no entry, or the entry's comments or favorites counter differs from the
tile's, exactly one request, for `url`, is issued, and once it succeeds with
`fresh` the caller receives `fresh`, the cache entry for `id` is `fresh`, and
no further request is issued. -/
theorem getDetail_cached_or_one_request (s : State) (id : PhotoId) (url : String)
    (mk : Option Payload → Task) :
    (∀ cached, s.htmlCache id = some cached →
      isFresh cached (readTileCounts s.doc id) = true →
        (startDetail s id url mk).requests = s.requests ∧
        (startDetail s id url mk).tasks = s.tasks ++ [mk (some cached)] ∧
        (startDetail s id url mk).htmlCache = s.htmlCache ∧
        ∀ (t : State) (o : FetchOutcome), finishDetail t id (some cached) o = (t, .ok cached)) ∧
    ((s.htmlCache id = none ∨ ∃ cached, s.htmlCache id = some cached ∧
        ((∃ x y, cached.comments_count = some x ∧
            (readTileCounts s.doc id).comments = some y ∧ x ≠ y) ∨
         (∃ x y, cached.favorites_count = some x ∧
            (readTileCounts s.doc id).favorites = some y ∧ x ≠ y))) →
        (startDetail s id url mk).requests = s.requests ++ [url] ∧
        (startDetail s id url mk).tasks = s.tasks ++ [mk none] ∧
        (startDetail s id url mk).htmlCache = s.htmlCache ∧
        ∀ (t : State) (o : FetchOutcome) (fresh : Payload), fetchDetailHTML o = .ok fresh →
          (finishDetail t id none o).2 = .ok fresh ∧
          (finishDetail t id none o).1.htmlCache = Function.update t.htmlCache id (some fresh) ∧
          (finishDetail t id none o).1.requests = t.requests) := by
  constructor
  · intro cached hc hf
    have h : cachedFresh s id = some cached := by
      rw [cachedFresh_eq, hc]; simp [hf]
    rw [startDetail_requests_eq, startDetail_tasks_eq, h]
    exact ⟨rfl, rfl, startDetail_htmlCache _ _ _ _, fun _ _ => rfl⟩
  · intro hmiss
    have h : cachedFresh s id = none := by
      rw [cachedFresh_eq]
      rcases hmiss with h | ⟨cached, h, hd⟩
      · rw [h]; rfl
      · rw [h]; simp [isFresh_false_of_differs cached _ hd]
    rw [startDetail_requests_eq, startDetail_tasks_eq, h]
    refine ⟨rfl, rfl, startDetail_htmlCache _ _ _ _, ?_⟩
    intro t o fresh ho
    simp [finishDetail, ho]

/-- Witness of claim C3: a fresh entry for photo 6 gives no request, a stale
entry and a missing entry give the one request `/p/6`, and the fetched payload
replaces the stale entry. -/
theorem getDetail_cached_or_one_request_witness :
    (startDetail sFresh 6 "/p/6" (Task.navDetail 1 1 6 none)).requests = [] ∧
    (startDetail sStale 6 "/p/6" (Task.navDetail 1 1 6 none)).requests = ["/p/6"] ∧
    (startDetail s0 6 "/p/6" (Task.navDetail 1 1 6 none)).requests = ["/p/6"] ∧
    (finishDetail sStale 6 none r6).1.htmlCache 6 = some { html := h6, photo_id := some 6 } :=
  ⟨((getDetail_cached_or_one_request sFresh 6 "/p/6" (Task.navDetail 1 1 6 none)).1
      freshEntry (by decide) (by decide)).1,
   ((getDetail_cached_or_one_request sStale 6 "/p/6" (Task.navDetail 1 1 6 none)).2
      (Or.inr ⟨staleEntry, by decide,
        Or.inr ⟨9, 2, by decide, by decide, by decide⟩⟩)).1,
   ((getDetail_cached_or_one_request s0 6 "/p/6" (Task.navDetail 1 1 6 none)).2
      (Or.inl (by decide))).1,
   by
    have h := ((getDetail_cached_or_one_request s0 6 "/p/6" (Task.navDetail 1 1 6 none)).2
      (Or.inl (by decide))).2.2.2 sStale r6 { html := h6, photo_id := some 6 } rfl
    rw [h.2.1]; simp⟩

/-- Claim C4.  The freshness test of `getDetailEnsuringFreshness`: the cached
entry is reused exactly when it exists and `isFresh` holds; `isFresh` holds
exactly when, for comments and for favorites, one side is missing or both
sides are present and equal; in particular every entry is fresh when both
tile counters are missing. -/
theorem fresh_iff_counters_missing_or_equal (s : State) (id : PhotoId) (cached : Payload)
    (tile : TileCounts) :
    (cachedFresh s id = some cached ↔
      s.htmlCache id = some cached ∧ isFresh cached (readTileCounts s.doc id) = true) ∧
    (isFresh cached tile = true ↔
      (cached.comments_count = none ∨ tile.comments = none ∨
        ∃ n, cached.comments_count = some n ∧ tile.comments = some n) ∧
      (cached.favorites_count = none ∨ tile.favorites = none ∨
        ∃ n, cached.favorites_count = some n ∧ tile.favorites = some n)) ∧
    isFresh cached { comments := none, favorites := none } = true := by
  refine ⟨?_, ?_, ?_⟩
  · unfold cachedFresh
    cases h : s.htmlCache id with
    | none => simp
    | some c =>
      by_cases hf : isFresh c (readTileCounts s.doc id) = true
      · simp only [hf, if_true, Option.some.injEq]
        constructor
        · intro e; subst e; exact ⟨rfl, hf⟩
        · intro e; exact e.1
      · simp only [hf, if_false, Option.some.injEq]
        constructor
        · intro e; cases e
        · rintro ⟨e, hc⟩; subst e; exact absurd hc hf
  · simp [isFresh, Bool.and_eq_true, sameCount_iff]
  · simp [isFresh, sameCount]
    cases cached.comments_count <;> cases cached.favorites_count <;> simp [sameCount]

/-- Claim C5 fails on the first-open path when the fetched HTML has no
`#photoDetailModal`: index 0 is valid and has a URL, the payload is retrieved
successfully and no other attempt is made, yet once the call has settled
`currentIndex` is still -1 and there is no modal to carry `data-photo-id`. -/
theorem settled_open_without_root :
    0 ≤ (0 : Int) ∧ (0 : Int) < s0.order.length ∧ truthy (s0.idToUrl 5) = some "/p/5" ∧
    (openByIndex s0 0).tasks = [.navDetail 1 0 5 none none] ∧
    fetchDetailHTML r5bare = .ok { html := h5bare, photo_id := some 5 } ∧
    (run s0 [.call 0, .resume 0 r5bare]).navSeq = 1 ∧
    (run s0 [.call 0, .resume 0 r5bare]).tasks = [] ∧
    (run s0 [.call 0, .resume 0 r5bare]).mountHtml = some h5bare ∧
    (run s0 [.call 0, .resume 0 r5bare]).currentIndex = -1 ∧
    modalEl (run s0 [.call 0, .resume 0 r5bare]) = none :=
  ⟨by decide, by decide, by decide, by decide, rfl, by decide, by decide, by decide, by decide,
    by decide⟩

/-- Claim C5, amended.  For a valid index `idx` with photo `id` and a URL, the
call `openByIndex(idx)` leaves a continuation numbered `navSeq + 1`.  On the
first-open path, if that number is still `navSeq` when the payload arrives,
the payload was retrieved successfully and its HTML contains the modal root,
then `currentIndex` is `idx` and the modal in the document has
`data-photo-id` equal to `id`.  On the already-open path, if the number is
still `navSeq` when the payload arrives successfully, the attempt goes on to
`await swapModalContentSmooth`, and when that returns `currentIndex` is `idx`
and the modal has `data-photo-id` equal to `id`. -/
theorem settled_open_records_index (s : State) (idx : Int) (id : PhotoId) (url : String)
    (hidx : 0 ≤ idx ∧ idx < s.order.length) (hid : orderAt s idx = some id)
    (hurl : truthy (s.idToUrl id) = some url) :
    (openByIndex s idx).navSeq = s.navSeq + 1 ∧
    (openByIndex s idx).tasks =
      s.tasks ++ [.navDetail (s.navSeq + 1) idx id s.mounted (cachedFresh s id)] ∧
    (∀ (t : State) (c : Option Payload) (o : FetchOutcome) (data : Payload),
      t.navSeq = s.navSeq + 1 → (finishDetail t id c o).2 = .ok data →
      data.html.hasRoot = true →
        (runTask t (.navDetail (s.navSeq + 1) idx id none c) o).currentIndex = idx ∧
        (modalEl (runTask t (.navDetail (s.navSeq + 1) idx id none c) o)).map
          (fun ov => ov.dataPhotoId) = some (some id)) ∧
    (∀ (t : State) (el : Nat) (c : Option Payload) (o : FetchOutcome) (data : Payload),
      t.navSeq = s.navSeq + 1 → (finishDetail t id c o).2 = .ok data →
        ∃ pre gen, (runTask t (.navDetail (s.navSeq + 1) idx id (some el) c) o).tasks =
          t.tasks ++ [.navSwap (s.navSeq + 1) idx id el pre gen]) ∧
    (∀ (t : State) (el : Nat) (pre : Option Html) (gen : Nat) (o : FetchOutcome),
        (runTask t (.navSwap (s.navSeq + 1) idx id el pre gen) o).currentIndex = idx ∧
        ((runTask t (.navSwap (s.navSeq + 1) idx id el pre gen) o).els el).dataPhotoId =
          some id) := by
  obtain ⟨a1, a2, -⟩ := openByIndex_valid s idx id url hidx hid hurl
  refine ⟨a1, a2, ?_, ?_, ?_⟩
  · intro t c o data hseq hok hroot
    simp only [runTask]
    rw [finishDetail_ok t id c o data hok]
    simp only [resumeFirst, hseq, ne_eq, not_true_eq_false, if_false, hroot, Bool.not_true]
    simp [modalEl]
  · intro t el c o data hseq hok
    simp only [runTask]
    rw [finishDetail_ok t id c o data hok]
    simp only [resumeMounted, hseq, ne_eq, not_true_eq_false, if_false]
    exact ⟨_, _, rfl⟩
  · intro t el pre gen o
    simp only [runTask, resumeSwap, finishNav]
    constructor
    · simp
    · unfold showLoadingWithDelay
      split
      · simp [setEl]
      · simp [setEl]

/-- Witness of amended claim C5: opening index 0 on the page with three photos. -/
theorem settled_open_records_index_witness :
    (run s0 [.call 0, .resume 0 r5]).currentIndex = 0 ∧
    (modalEl (run s0 [.call 0, .resume 0 r5])).map (fun ov => ov.dataPhotoId) =
      some (some 5) :=
  (settled_open_records_index s0 0 5 "/p/5" (by decide) (by decide) (by decide)).2.2.1
    { openByIndex s0 0 with tasks := [] } none r5 { html := h5, photo_id := some 5 }
    (by decide) rfl (by decide)

/-- Claim C6.  With an order of length `N ≥ 1` and a current index `i ≥ 0`
(in particular `0 ≤ i < N`), the previous control passes `(i - 1 + N) mod N`
to `openByIndex` and the next control passes `(i + 1) mod N`; both lie in
`[0, N)`; from index 0 previous targets `N - 1`, and from index `N - 1` next
targets 0. -/
theorem prev_next_wrap (s : State) (h1 : 1 ≤ s.order.length) (h0 : 0 ≤ s.currentIndex) :
    prevIndex s = (s.currentIndex - 1 + s.order.length) % s.order.length ∧
    nextIndex s = (s.currentIndex + 1) % s.order.length ∧
    (0 ≤ prevIndex s ∧ prevIndex s < s.order.length) ∧
    (0 ≤ nextIndex s ∧ nextIndex s < s.order.length) ∧
    (s.currentIndex = 0 → prevIndex s = s.order.length - 1) ∧
    (s.currentIndex = s.order.length - 1 → nextIndex s = 0) ∧
    onPrev s = openByIndex s (prevIndex s) ∧ onNext s = openByIndex s (nextIndex s) := by
  have hN : (0 : Int) < s.order.length := by omega
  have hp : prevIndex s = (s.currentIndex - 1 + s.order.length) % s.order.length := by
    unfold prevIndex jsMod
    exact Int.tmod_eq_emod (by omega) (by omega)
  have hn : nextIndex s = (s.currentIndex + 1) % s.order.length := by
    unfold nextIndex jsMod
    exact Int.tmod_eq_emod (by omega) (by omega)
  refine ⟨hp, hn, ?_, ?_, ?_, ?_, rfl, rfl⟩
  · rw [hp]; exact ⟨Int.emod_nonneg _ (by omega), Int.emod_lt_of_pos _ hN⟩
  · rw [hn]; exact ⟨Int.emod_nonneg _ (by omega), Int.emod_lt_of_pos _ hN⟩
  · intro h; rw [hp, h]
    have : (0 - 1 + (s.order.length : Int)) = s.order.length - 1 := by ring
    rw [this]; exact Int.emod_eq_of_lt (by omega) (by omega)
  · intro h; rw [hn, h]; simp


/-- Witness of claim C6: with photo 5 of three open, previous targets index 2. -/
theorem prev_next_wrap_witness :
    prevIndex (run s0 [.call 0, .resume 0 r5]) =
      ((run s0 [.call 0, .resume 0 r5]).order.length : Int) - 1 :=
  (prev_next_wrap (run s0 [.call 0, .resume 0 r5]) (by decide) (by decide)).2.2.2.2.1
    (by decide)

/-- Claim C7.  A non-2xx status, a content type without `application/json`
and a body without a string `html` all make `fetchDetailHTML` throw an error
that is not a cancellation.  The synchronous part of `openByIndex` changes
neither `currentIndex`, nor any modal element, nor the cache.  And when the
fetch of an attempt on the already-open modal fails with an error other than
cancellation while the attempt is still the latest and the modal is still in
the document, the modal shows the failure message, while `currentIndex`, the
mounted HTML, the cache, and on every modal element `data-photo-id`, the swap
region, the panel and the pending swaps are as they were; no continuation and
no request is left behind. -/
theorem failed_fetch_keeps_overlay (t : State) (seq : Nat) (idx : Int) (id : PhotoId)
    (el : Nat) (o : FetchOutcome) (err : Err)
    (hseq : seq = t.navSeq) (hm : t.mounted = some el)
    (herr : fetchDetailHTML o = .error err) (hne : err ≠ .abort) :
    (∀ r : Response, r.ok = false ∨
        includes (toLowerCase (r.contentType.getD "")) "application/json".toList = false ∨
        r.json.bind (fun b => b.html) = none →
      fetchDetailHTML (.response r) = .error .other) ∧
    (∀ (s : State) (j : Int),
      (openByIndex s j).currentIndex = s.currentIndex ∧ (openByIndex s j).els = s.els ∧
      (openByIndex s j).htmlCache = s.htmlCache ∧ (openByIndex s j).mounted = s.mounted) ∧
    (modalEl (runTask t (.navDetail seq idx id (some el) none) o)).map (fun ov => ov.toast) =
      some (some "Sorry, could not load that photo.") ∧
    (runTask t (.navDetail seq idx id (some el) none) o).currentIndex = t.currentIndex ∧
    (runTask t (.navDetail seq idx id (some el) none) o).mounted = t.mounted ∧
    (runTask t (.navDetail seq idx id (some el) none) o).mountHtml = t.mountHtml ∧
    (runTask t (.navDetail seq idx id (some el) none) o).htmlCache = t.htmlCache ∧
    (runTask t (.navDetail seq idx id (some el) none) o).tasks = t.tasks ∧
    (runTask t (.navDetail seq idx id (some el) none) o).requests = t.requests ∧
    ∀ e, ((runTask t (.navDetail seq idx id (some el) none) o).els e).dataPhotoId =
          (t.els e).dataPhotoId ∧
        ((runTask t (.navDetail seq idx id (some el) none) o).els e).swap = (t.els e).swap ∧
        ((runTask t (.navDetail seq idx id (some el) none) o).els e).panel = (t.els e).panel ∧
        ((runTask t (.navDetail seq idx id (some el) none) o).els e).swapGen =
          (t.els e).swapGen ∧
        ((runTask t (.navDetail seq idx id (some el) none) o).els e).fadeQueue =
          (t.els e).fadeQueue := by
  refine ⟨fetchDetailHTML_failures, ?_, ?_⟩
  · intro s j
    unfold openByIndex
    split
    · exact ⟨rfl, rfl, rfl, rfl⟩
    · simp only
      split
      · exact ⟨rfl, rfl, rfl, rfl⟩
      · split
        · exact ⟨rfl, rfl, rfl, rfl⟩
        · split
          · simp
          · simp only [startDetail_currentIndex, startDetail_els, startDetail_htmlCache,
              startDetail_mounted, showLoadingWithDelay_currentIndex,
              showLoadingWithDelay_htmlCache, showLoadingWithDelay_mounted]
            refine ⟨trivial, ?_, trivial, trivial⟩
            unfold showLoadingWithDelay
            split <;> rfl
  · subst hseq
    have hfin : finishDetail t id none o = (t, .error err) := by
      unfold finishDetail; simp [herr]
    have hrun : runTask t (.navDetail t.navSeq idx id (some el) none) o =
        showLoadingWithDelay (toastInModal t "Sorry, could not load that photo.") el false := by
      simp only [runTask, hfin, resumeMounted]
      simp [hne]
    rw [hrun]
    have htoast : toastInModal t "Sorry, could not load that photo." =
        setEl t el { t.els el with toast := some "Sorry, could not load that photo." } := by
      unfold toastInModal; rw [hm]
    rw [htoast]
    unfold showLoadingWithDelay
    split
    · refine ⟨?_, rfl, rfl, rfl, rfl, rfl, rfl, ?_⟩
      · simp [modalEl, setEl, hm]
      · intro e
        by_cases he : e = el
        · subst he; simp [setEl]
        · simp [setEl, Function.update, he]
    · refine ⟨?_, rfl, rfl, rfl, rfl, rfl, rfl, ?_⟩
      · simp [modalEl, setEl, hm]
      · intro e
        by_cases he : e = el
        · subst he; simp [setEl]
        · simp [setEl, Function.update, he]

/-- Witness of claim C7: photo 5 is open, `next` fetches photo 6 and gets an
HTML page instead of JSON. -/
theorem failed_fetch_keeps_overlay_witness :
    (run s0 [.call 0, .resume 0 r5, .next]).tasks[2]? = some (.navDetail 2 1 6 (some 0) none) ∧
    (modalEl (run s0 [.call 0, .resume 0 r5, .next, .resume 2 rHtml])).map (fun ov => ov.toast)
      = some (some "Sorry, could not load that photo.") ∧
    (run s0 [.call 0, .resume 0 r5, .next, .resume 2 rHtml]).currentIndex = 0 :=
  ⟨by decide,
   (failed_fetch_keeps_overlay
      { run s0 [.call 0, .resume 0 r5, .next] with tasks := [.prefetch 6, .prefetch 7] }
      2 1 6 0 rHtml .other (by decide) (by decide) rfl (by decide)).2.2.1,
   by decide⟩

/-- Claim C8 fails when the response reports another photo than the one
displayed: a form is submitted while photo 5 is displayed and posted to the
URL of photo 5; the response reports `photo_id` 6, and the counter and the
favorite indicator that change are those of tile 6, not of tile 5. -/
theorem patch_back_follows_reported_id :
    (modalEl (run s0 [.call 0, .resume 0 r5])).map (fun ov => ov.dataPhotoId) = some (some 5) ∧
    (run s0 [.call 0, .resume 0 r5, .submit {} true]).posts = [some "/p/5"] ∧
    (run s0 [.call 0, .resume 0 r5, .submit {} true]).tasks[2]? = some (.submitPost 0 (some 5)) ∧
    (run s0 [.call 0, .resume 0 r5, .submit {} true]).doc.favEls =
      [⟨5, some (.digits 1), false⟩, ⟨6, some (.digits 2), false⟩] ∧
    (run s0 [.call 0, .resume 0 r5, .submit {} true]).doc.tileEls = [⟨5, false⟩, ⟨6, false⟩] ∧
    (run s0 [.call 0, .resume 0 r5, .submit {} true,
        .resume 2 rOther,
        .resume 2 .failed]).doc.favEls =
      [⟨5, some (.digits 1), false⟩, ⟨6, some (.digits 9), false⟩] ∧
    (run s0 [.call 0, .resume 0 r5, .submit {} true,
        .resume 2 rOther,
        .resume 2 .failed]).doc.tileEls = [⟨5, false⟩, ⟨6, true⟩] := by
  decide

/-- Claim C8, amended.  The patch-back `patchListUI` changes nothing when the
response reports no `photo_id`; otherwise it keeps the number of elements and
leaves unchanged every counter region and every tile whose `data-photo-id`
differs from the reported `photo_id`.  Of the submit handler only the last
part, after `await swapModalContentSmooth`, touches the grid, and what it does
to the grid is `patchListUI` of the response. -/
theorem patch_back_touches_reported_photo_only (d : Doc) (delta : Payload) :
    (delta.photo_id = none → patchListUI d delta = d) ∧
    (patchListUI d delta).thumbs = d.thumbs ∧
    (patchListUI d delta).favEls.length = d.favEls.length ∧
    (patchListUI d delta).commentEls.length = d.commentEls.length ∧
    (patchListUI d delta).tileEls.length = d.tileEls.length ∧
    (∀ (i : Nat) (e : CountEl), d.favEls[i]? = some e → delta.photo_id ≠ some e.photoId →
      (patchListUI d delta).favEls[i]? = some e) ∧
    (∀ (i : Nat) (e : CountEl), d.commentEls[i]? = some e → delta.photo_id ≠ some e.photoId →
      (patchListUI d delta).commentEls[i]? = some e) ∧
    (∀ (i : Nat) (e : TileEl), d.tileEls[i]? = some e → delta.photo_id ≠ some e.photoId →
      (patchListUI d delta).tileEls[i]? = some e) ∧
    (∀ (s : State) (el : Nat) (form : Form) (csrf : Bool),
      (onSubmit s el form csrf).doc = s.doc) ∧
    (∀ (s : State) (el : Nat) (id : Option PhotoId) (o : FetchOutcome),
      (resumeSubmitPost s el id o).doc = s.doc) ∧
    (∀ (s : State) (el : Nat) (id : Option PhotoId) (data : Payload) (pre : Option Html)
      (gen : Nat), (resumeSubmitSwap s el id data pre gen).doc = patchListUI s.doc data) := by
  have hne : ∀ (q p : PhotoId), delta.photo_id = some p → delta.photo_id ≠ some q →
      (q == p) = false := by
    intro q p h1 h2
    rw [h1] at h2
    simp only [beq_eq_false_iff_ne, ne_eq]
    intro h; apply h2; rw [h]
  refine ⟨?_, ?_, ?_, ?_, ?_, ?_, ?_, ?_, ?_, ?_, ?_⟩
  · intro h; unfold patchListUI; rw [h]
  · unfold patchListUI; cases delta.photo_id <;> rfl
  · unfold patchListUI; cases delta.photo_id
    · rfl
    · simp [setCount, patchFirst_length]
  · unfold patchListUI; cases delta.photo_id
    · rfl
    · simp [setCount, patchFirst_length]
  · unfold patchListUI; cases delta.photo_id
    · rfl
    · simp [setCount, patchFirst_length]
  · intro i e he hq
    unfold patchListUI
    cases hp : delta.photo_id with
    | none => exact he
    | some p =>
      simp only [setCount]
      exact patchFirst_getElem? _ _ _ i e he (hne e.photoId p hp hq)
  · intro i e he hq
    unfold patchListUI
    cases hp : delta.photo_id with
    | none => exact he
    | some p =>
      simp only [setCount]
      exact patchFirst_getElem? _ _ _ i e he (hne e.photoId p hp hq)
  · intro i e he hq
    unfold patchListUI
    cases hp : delta.photo_id with
    | none => exact he
    | some p =>
      simp only [setCount]
      exact patchFirst_getElem? _ _ _ i e he (hne e.photoId p hp hq)
  · intro s el form csrf
    unfold onSubmit
    split
    · rfl
    · simp only
      split
      · simp
      · rfl
  · intro s el id o
    unfold resumeSubmitPost
    cases postForm o with
    | error e => simp
    | ok data => rfl
  · intro s el id data pre gen
    unfold resumeSubmitSwap
    cases pre <;> cases newId data id <;> rfl

/-- Witness of amended claim C8: a response reporting photo 6 leaves the
favorite counter of photo 5 as it was. -/
theorem patch_back_touches_reported_photo_only_witness :
    (patchListUI doc0 otherData).favEls[0]? =
      some ⟨5, some (.digits 1), false⟩ :=
  (patch_back_touches_reported_photo_only doc0 otherData).2.2.2.2.2.1 0 ⟨5, some (.digits 1), false⟩
    (by decide) (by decide)

/-- Claim C9.  Let a successful response `data` report `photo_id = p`,
`favorites_count = n`, `comments_count = m` and `is_favorite = b`, and let the
grid have for `p` a favorite counter and a comment counter, each with a number
element, and a tile.  Then the submit handler goes on with `data` after
`postForm`, and when it completes the favorite counter of `p` shows `n` and is
hidden exactly when `n = 0`, the comment counter shows `m` and is hidden
exactly when `m = 0`, the tile is favorited exactly when `b`, `readTileCounts`
reads back `m` and `n`, the cache entry for `p` is `data`, and the modal's
`data-photo-id` is `p`. -/
theorem submit_response_patches_tile_and_cache (s : State) (el : Nat) (id : Option PhotoId)
    (data : Payload) (pre : Option Html) (gen : Nat) (p : PhotoId) (n m : Int) (b : Bool)
    (ef ec : CountEl) (et : TileEl)
    (hp : data.photo_id = some p) (hn : data.favorites_count = some n)
    (hm : data.comments_count = some m) (hb : data.is_favorite = some b)
    (hf : s.doc.favEls.find? (fun e => e.photoId == p) = some ef) (hfn : ef.num.isSome = true)
    (hc : s.doc.commentEls.find? (fun e => e.photoId == p) = some ec)
    (hcn : ec.num.isSome = true)
    (ht : s.doc.tileEls.find? (fun e => e.photoId == p) = some et) :
    (∀ o, postForm o = .ok data → ∃ pre' gen',
      (resumeSubmitPost s el id o).tasks = s.tasks ++ [.submitSwap el id data pre' gen']) ∧
    (resumeSubmitSwap s el id data pre gen).doc.favEls.find? (fun e => e.photoId == p) =
      some ⟨p, some (.digits n), n == 0⟩ ∧
    (resumeSubmitSwap s el id data pre gen).doc.commentEls.find? (fun e => e.photoId == p) =
      some ⟨p, some (.digits m), m == 0⟩ ∧
    (resumeSubmitSwap s el id data pre gen).doc.tileEls.find? (fun e => e.photoId == p) =
      some ⟨p, b⟩ ∧
    readTileCounts (resumeSubmitSwap s el id data pre gen).doc p =
      { comments := some m, favorites := some n } ∧
    (resumeSubmitSwap s el id data pre gen).htmlCache p = some data ∧
    ((resumeSubmitSwap s el id data pre gen).els el).dataPhotoId = some p := by
  have hdoc : (resumeSubmitSwap s el id data pre gen).doc = patchListUI s.doc data := by
    unfold resumeSubmitSwap
    cases pre <;> cases newId data id <;> rfl
  have hkf : (ef.photoId == p) = true :=
    List.find?_some (p := fun e : CountEl => e.photoId == p) hf
  have hkc : (ec.photoId == p) = true :=
    List.find?_some (p := fun e : CountEl => e.photoId == p) hc
  have hkt : (et.photoId == p) = true :=
    List.find?_some (p := fun e : TileEl => e.photoId == p) ht
  have hfav : (patchListUI s.doc data).favEls.find? (fun e => e.photoId == p) =
      some ⟨p, some (.digits n), n == 0⟩ := by
    unfold patchListUI
    simp only [hp, hn, hm, hb, Option.getD_some, setCount]
    rw [patchFirst_find? (fun e : CountEl => e.photoId == p) (setCountEl n) _ ef
      (fun x hx => hx) hf, setCountEl_of_key p n ef hkf hfn]
  have hcom : (patchListUI s.doc data).commentEls.find? (fun e => e.photoId == p) =
      some ⟨p, some (.digits m), m == 0⟩ := by
    unfold patchListUI
    simp only [hp, hn, hm, hb, Option.getD_some, setCount]
    rw [patchFirst_find? (fun e : CountEl => e.photoId == p) (setCountEl m) _ ec
      (fun x hx => hx) hc, setCountEl_of_key p m ec hkc hcn]
  have htile : (patchListUI s.doc data).tileEls.find? (fun e => e.photoId == p) =
      some ⟨p, b⟩ := by
    unfold patchListUI
    simp only [hp, hn, hm, hb, Option.getD_some, setCount]
    rw [patchFirst_find? (fun e : TileEl => e.photoId == p)
      (fun t => { t with isFavorite := b }) _ et (fun x hx => hx) ht]
    have hk : et.photoId = p := by simpa using hkt
    rw [← hk]
  refine ⟨?_, ?_, ?_, ?_, ?_, ?_, ?_⟩
  · intro o ho
    unfold resumeSubmitPost
    rw [ho]
    exact ⟨_, _, rfl⟩
  · rw [hdoc]; exact hfav
  · rw [hdoc]; exact hcom
  · rw [hdoc]; exact htile
  · rw [hdoc]
    unfold readTileCounts
    rw [queryNum_of_find? _ p _ _ hcom rfl, queryNum_of_find? _ p _ _ hfav rfl]
    rfl
  · unfold resumeSubmitSwap
    simp only [newId, hp]
    simp
  · unfold resumeSubmitSwap
    simp only [newId, hp]
    simp [setEl]

/-- Witness of claim C9: a favorite toggle on photo 5 answered with four
favorites. -/
theorem submit_response_patches_tile_and_cache_witness :
    (run s0 [.call 0, .resume 0 r5, .submit {} true]).tasks[2]? =
      some (.submitPost 0 (some 5)) ∧
    readTileCounts (resumeSubmitSwap (run s0 [.call 0, .resume 0 r5]) 0 (some 5) favData none
      0).doc 5 = { comments := some 0, favorites := some 4 } ∧
    (resumeSubmitSwap (run s0 [.call 0, .resume 0 r5]) 0 (some 5) favData none 0).doc.tileEls
      = [⟨5, true⟩, ⟨6, false⟩] :=
  ⟨by decide,
   (submit_response_patches_tile_and_cache (run s0 [.call 0, .resume 0 r5]) 0 (some 5) favData
      none 0 5 4 0 true ⟨5, some (.digits 1), false⟩ ⟨5, some (.digits 0), true⟩ ⟨5, false⟩
      (by decide) (by decide) (by decide) (by decide) (by decide) (by decide) (by decide)
      (by decide) (by decide)).2.2.2.2.1,
   by decide⟩

/-- Claim C10 fails: attempt 1, for photo 5, is superseded by attempt 2 before
its fetch completes; when the fetch of attempt 1 then succeeds, `navSeq` is 2
and the cache entry for photo 5 is written all the same. -/
theorem stale_fetch_writes_cache :
    (run s0 [.call 0, .call 1]).navSeq = 2 ∧
    (run s0 [.call 0, .call 1]).tasks[0]? = some (.navDetail 1 0 5 none none) ∧
    (run s0 [.call 0, .call 1]).htmlCache 5 = none ∧
    (run s0 [.call 0, .call 1, .resume 0 r5]).navSeq = 2 ∧
    (run s0 [.call 0, .call 1, .resume 0 r5]).htmlCache 5 =
      some { html := h5, photo_id := some 5 } := by
  decide

/-- Claim C10, amended.  When the awaited `getDetailEnsuringFreshness` of a
superseded attempt for `id` settles, the cache is written without regard to
`navSeq`: the entry for `id` becomes the fetched payload when the attempt had
issued a request and the request succeeded; the cache is unchanged when the
request failed or was cancelled, or when the attempt had been served from the
cache; no entry of another photo changes; and nothing that is rendered
changes. -/
theorem stale_attempt_writes_own_entry_only (t : State) (seq : Nat) (idx : Int)
    (id : PhotoId) (el : Option Nat) (c : Option Payload) (o : FetchOutcome)
    (hstale : seq ≠ t.navSeq) :
    (runTask t (.navDetail seq idx id el c) o).htmlCache = cacheAfter t id c o ∧
    (∀ q, q ≠ id → (runTask t (.navDetail seq idx id el c) o).htmlCache q = t.htmlCache q) ∧
    (∀ fresh, c = none → fetchDetailHTML o = .ok fresh →
      (runTask t (.navDetail seq idx id el c) o).htmlCache id = some fresh) ∧
    (∀ e, fetchDetailHTML o = .error e →
      (runTask t (.navDetail seq idx id el c) o).htmlCache = t.htmlCache) ∧
    (c.isSome = true → (runTask t (.navDetail seq idx id el c) o).htmlCache = t.htmlCache) ∧
    sameRender t (runTask t (.navDetail seq idx id el c) o) := by
  obtain ⟨h1, -, -, h4⟩ := stale_navDetail t seq idx id el c o hstale
  rw [h4]
  refine ⟨rfl, ?_, ?_, ?_, ?_, h1⟩
  · intro q hq
    unfold cacheAfter
    cases c with
    | some d => rfl
    | none =>
      cases fetchDetailHTML o with
      | ok f => simp [Function.update, hq]
      | error e => rfl
  · intro fresh hc ho
    subst hc
    simp [cacheAfter, ho]
  · intro e ho
    unfold cacheAfter
    cases c with
    | some d => rfl
    | none => rw [ho]
  · intro hc
    unfold cacheAfter
    cases c with
    | some d => rfl
    | none => cases hc

/-- Witness of amended claim C10: the superseded attempt for photo 5 writes the
entry of photo 5 and not that of photo 6. -/
theorem stale_attempt_writes_own_entry_only_witness :
    (run s0 [.call 0, .call 1, .resume 0 r5]).htmlCache 5 =
      some { html := h5, photo_id := some 5 } ∧
    (run s0 [.call 0, .call 1, .resume 0 r5]).htmlCache 6 = none :=
  ⟨(stale_attempt_writes_own_entry_only
      { run s0 [.call 0, .call 1] with tasks := [.navDetail 2 1 6 none none] }
      1 0 5 none none r5 (by decide)).2.2.1 { html := h5, photo_id := some 5 } rfl rfl,
   (stale_attempt_writes_own_entry_only
      { run s0 [.call 0, .call 1] with tasks := [.navDetail 2 1 6 none none] }
      1 0 5 none none r5 (by decide)).2.1 6 (by decide)⟩

/-! ## Claims C11 to C20 -/

/-- Claim C11 fails.  On a page whose second thumbnail has no URL,
`openByIndex(0)` is in flight as attempt 1 when `openByIndex(1)` is called for
the photo without a URL: the call raises `navSeq` to 2 and aborts the
controller of attempt 1, and no continuation is added.  When the fetch of
attempt 1 then succeeds its result is discarded: nothing is mounted and
`currentIndex` stays -1, whereas without the second call photo 5 is shown. -/
theorem open_without_url_supersedes :
    orderAt s1 1 = some 8 ∧ s1.idToUrl 8 = none ∧
    (run s1 [.call 0]).navSeq = 1 ∧ (run s1 [.call 0]).navAbort = some 1 ∧
    (run s1 [.call 0]).aborted = [] ∧
    (run s1 [.call 0]).tasks = [.navDetail 1 0 5 none none] ∧
    (run s1 [.call 0, .call 1]).navSeq = 2 ∧ (run s1 [.call 0, .call 1]).navAbort = some 2 ∧
    (run s1 [.call 0, .call 1]).aborted = [1] ∧
    (run s1 [.call 0, .call 1]).tasks = [.navDetail 1 0 5 none none] ∧
    (run s1 [.call 0, .call 1, .resume 0 r5]).mounted = none ∧
    (run s1 [.call 0, .call 1, .resume 0 r5]).mountHtml = none ∧
    (run s1 [.call 0, .call 1, .resume 0 r5]).currentIndex = -1 ∧
    (run s1 [.call 0, .resume 0 r5]).mounted = some 0 ∧
    (run s1 [.call 0, .resume 0 r5]).currentIndex = 0 := by
  decide

/-- Claim C11, amended.  For a valid index whose photo has no URL,
`openByIndex(idx)` increments `navSeq`, aborts the controller held in
`navAbort` and installs the one of the new attempt, and changes nothing else:
`currentIndex`, the cache, the modal elements, the modal in the document, the
mounted HTML, the spinner timer, the grid, the requests and the pending
continuations are as before. -/
theorem open_without_url_allocates_only (s : State) (idx : Int) (id : PhotoId)
    (hidx : 0 ≤ idx ∧ idx < s.order.length) (hid : orderAt s idx = some id)
    (hurl : truthy (s.idToUrl id) = none) :
    (openByIndex s idx).navSeq = s.navSeq + 1 ∧
    (openByIndex s idx).navAbort = some (s.navSeq + 1) ∧
    (openByIndex s idx).aborted = s.navAbort.toList ++ s.aborted ∧
    (openByIndex s idx).currentIndex = s.currentIndex ∧
    (openByIndex s idx).htmlCache = s.htmlCache ∧
    (openByIndex s idx).els = s.els ∧
    (openByIndex s idx).mounted = s.mounted ∧
    (openByIndex s idx).mountHtml = s.mountHtml ∧
    (openByIndex s idx).spinnerTimer = s.spinnerTimer ∧
    (openByIndex s idx).doc = s.doc ∧
    (openByIndex s idx).requests = s.requests ∧
    (openByIndex s idx).tasks = s.tasks := by
  have hr : ¬ (idx < 0 ∨ idx ≥ s.order.length) := by omega
  have hid' : ∀ (a : Nat) (b : List Nat) (c : Option Nat),
      orderAt { s with navSeq := a, aborted := b, navAbort := c } idx = some id := fun _ _ _ => hid
  unfold openByIndex
  rw [if_neg hr]
  simp only [hid', hurl]
  refine ⟨trivial, trivial, ?_, trivial, trivial, trivial, trivial, trivial, trivial, trivial,
    trivial, trivial⟩
  cases s.navAbort <;> rfl

/-- Witness of amended claim C11: with attempt 1 for photo 5 in flight, the
call for photo 8, which has no URL, makes `navSeq` 2 and leaves the
continuation of attempt 1 as the only one pending. -/
theorem open_without_url_allocates_only_witness :
    (openByIndex (run s1 [.call 0]) 1).navSeq = 2 ∧
    (openByIndex (run s1 [.call 0]) 1).tasks = [.navDetail 1 0 5 none none] :=
  ⟨(open_without_url_allocates_only (run s1 [.call 0]) 1 8 (by decide) (by decide)
      (by decide)).1,
   (open_without_url_allocates_only (run s1 [.call 0]) 1 8 (by decide) (by decide)
      (by decide)).2.2.2.2.2.2.2.2.2.2.2⟩

theorem firstOpenSettle_eq (s : State) (seq : Nat) (idx : Int) (id : PhotoId)
    (r : Except Err Payload) :
    (firstOpenSettle s seq idx id r true).1 = resumeFirst s seq idx id r := by
  unfold firstOpenSettle firstOpenTry resumeFirst firstOpenCatch
  cases r with
  | error err => rfl
  | ok data =>
    simp only
    by_cases hs : seq = s.navSeq
    · subst hs
      simp only [ne_eq, not_true_eq_false, if_false]
      cases data.html.hasRoot
      · simp
      · simp
    · simp [hs]

/-- Claim C12, evaluated on the code.  The first-open branch of `openByIndex`
catches every error itself: whatever the awaited call returned or threw, the
promise of `openByIndex` is fulfilled and the fail-safe of the click handler
assigns no location; the state left is that of `resumeFirst`.  On the page
with three photos the click on the thumbnail of photo 5 calls
`openByIndex(0)`; when the fetched HTML lacks the modal root an error is thrown
inside the `try`, and so it is when Bootstrap is missing; in both cases the
promise is fulfilled and the browser stays on the page, whereas a rejection
would have sent it to `/p/5`. -/
theorem first_click_never_falls_back :
    (∀ (s : State) (seq : Nat) (idx : Int) (id : PhotoId) (r : Except Err Payload)
        (boot : Bool) (a : Thumb),
      (firstOpenSettle s seq idx id r boot).2 = .fulfilled ∧
      failSafe a (firstOpenSettle s seq idx id r boot).2 = none) ∧
    (∀ (s : State) (seq : Nat) (idx : Int) (id : PhotoId) (r : Except Err Payload),
      (firstOpenSettle s seq idx id r true).1 = resumeFirst s seq idx id r) ∧
    onThumbClick s0 thumb5 = openByIndex s0 0 ∧
    (openByIndex s0 0).tasks = [.navDetail 1 0 5 none none] ∧
    fetchDetailHTML r5bare = .ok { html := h5bare, photo_id := some 5 } ∧
    (firstOpenTry { openByIndex s0 0 with tasks := [] } 1 0 5
      (.ok { html := h5bare, photo_id := some 5 }) true).2 = some .other ∧
    (firstOpenSettle { openByIndex s0 0 with tasks := [] } 1 0 5
      (.ok { html := h5bare, photo_id := some 5 }) true).2 = .fulfilled ∧
    failSafe thumb5 (firstOpenSettle { openByIndex s0 0 with tasks := [] } 1 0 5
      (.ok { html := h5bare, photo_id := some 5 }) true).2 = none ∧
    (firstOpenTry { openByIndex s0 0 with tasks := [] } 1 0 5
      (.ok { html := h5, photo_id := some 5 }) false).2 = some .other ∧
    failSafe thumb5 (firstOpenSettle { openByIndex s0 0 with tasks := [] } 1 0 5
      (.ok { html := h5, photo_id := some 5 }) false).2 = none ∧
    failSafe thumb5 (.rejected .other) = some "/p/5" := by
  refine ⟨?_, firstOpenSettle_eq, ?_, by decide, rfl, by decide, by decide, by decide,
    by decide, by decide, by decide⟩
  · intro s seq idx id r boot a
    have h : (firstOpenSettle s seq idx id r boot).2 = .fulfilled := by
      unfold firstOpenSettle
      split <;> rfl
    rw [h]
    exact ⟨rfl, rfl⟩
  · rfl

/-- Claim C13, evaluated on the code.  When the latest first-open attempt
mounts HTML without the modal root, no modal is in the document afterwards and
no modal element has changed: `toastInModal` looks for the modal, finds none
and returns.  On the page with three photos, opening index 0 with such HTML
ends, with the attempt still the latest, with the HTML mounted, no modal in
the document and no toast on any modal element. -/
theorem missing_root_shows_no_toast :
    (∀ (s : State) (idx : Int) (id : PhotoId) (data : Payload),
      (resumeFirst s s.navSeq idx id
        (.ok { data with html := { data.html with hasRoot := false } })).mounted = none ∧
      (resumeFirst s s.navSeq idx id
        (.ok { data with html := { data.html with hasRoot := false } })).els = s.els) ∧
    (openByIndex s0 0).tasks = [.navDetail 1 0 5 none none] ∧
    fetchDetailHTML r5bare = .ok { html := h5bare, photo_id := some 5 } ∧
    h5bare.hasRoot = false ∧
    (run s0 [.call 0, .resume 0 r5bare]).navSeq = 1 ∧
    (run s0 [.call 0, .resume 0 r5bare]).mountHtml = some h5bare ∧
    modalEl (run s0 [.call 0, .resume 0 r5bare]) = none ∧
    ((run s0 [.call 0, .resume 0 r5bare]).els 0).toast = none := by
  refine ⟨?_, by decide, rfl, by decide, by decide, by decide, by decide, by decide⟩
  intro s idx id data
  simp [resumeFirst, toastInModal]

theorem setLast_append (z x : Option Nat) (l : List (Option Nat)) :
    setLast z (l ++ [x]) = l ++ [z] := by
  induction l with
  | nil => rfl
  | cons a l ih =>
    cases l with
    | nil => rfl
    | cons b l => simpa [setLast] using ih

theorem bootstrapShow_detail (k : Stack) :
    bootstrapShow k .detail =
      { k with detailZ := some zDetailModal,
               backdrops := k.backdrops ++ [some zDetailBackdrop], bodyModalOpen := true } := by
  simp [bootstrapShow, onShowBsModal, onShownBsModal, setLast_append]

theorem bootstrapShow_activity (k : Stack) :
    bootstrapShow k .activity =
      { k with activityZ := some zActivityModal,
               backdrops := k.backdrops ++ [some zActivityBackdrop], bodyModalOpen := true } := by
  simp [bootstrapShow, onShowBsModal, onShownBsModal, setLast_append]

/-- Claim C14 fails for the order detail, then recent activity: once both are
shown the activity modal, opened last, has z-index 2000 and its backdrop 1990,
which are not above the detail modal (3000) nor its backdrop (2990). -/
theorem detail_stays_above_activity_opened_later :
    (bootstrapShow (bootstrapShow {} .detail) .activity).detailZ = some 3000 ∧
    (bootstrapShow (bootstrapShow {} .detail) .activity).activityZ = some 2000 ∧
    (bootstrapShow (bootstrapShow {} .detail) .activity).backdrops = [some 2990, some 1990] ∧
    ¬ ((2000 : Nat) > 3000) ∧ ¬ ((2000 : Nat) > 2990) ∧ ¬ ((1990 : Nat) > 3000) := by
  decide

/-- Claim C14, amended.  In both opening orders, once both modals are shown
the detail modal has z-index 3000, the activity modal 2000, and the two
backdrops added are at 2990 for the detail modal and 1990 for the activity
modal: the detail modal is above the activity modal and its backdrop, and the
detail backdrop is above the activity modal, whichever was opened last. -/
theorem detail_always_on_top (k : Stack) :
    (bootstrapShow (bootstrapShow k .detail) .activity).detailZ = some zDetailModal ∧
    (bootstrapShow (bootstrapShow k .detail) .activity).activityZ = some zActivityModal ∧
    (bootstrapShow (bootstrapShow k .detail) .activity).backdrops =
      k.backdrops ++ [some zDetailBackdrop, some zActivityBackdrop] ∧
    (bootstrapShow (bootstrapShow k .activity) .detail).detailZ = some zDetailModal ∧
    (bootstrapShow (bootstrapShow k .activity) .detail).activityZ = some zActivityModal ∧
    (bootstrapShow (bootstrapShow k .activity) .detail).backdrops =
      k.backdrops ++ [some zActivityBackdrop, some zDetailBackdrop] ∧
    zDetailModal > zActivityModal ∧ zDetailModal > zActivityBackdrop ∧
    zDetailBackdrop > zActivityModal ∧ zDetailModal > zDetailBackdrop ∧
    zActivityModal > zActivityBackdrop := by
  rw [bootstrapShow_activity, bootstrapShow_detail, bootstrapShow_detail,
    bootstrapShow_activity]
  refine ⟨rfl, rfl, by simp, rfl, rfl, by simp, by decide, by decide, by decide, by decide,
    by decide⟩

/-- Claim C15.  The submit handler posts to the `action` of the form when it
is a non-empty string, and to the URL mapped to the `data-photo-id` of the
modal when the form has no `action` or an empty one.  With a CSRF token a
handled form logs exactly that POST and suspends on it; without a token
nothing is posted; a form of another class is not intercepted. -/
theorem submit_posts_to_action_or_photo_url (s : State) (el : Nat) (form : Form) :
    (∀ a, form.action = some a → a ≠ "" →
      submitUrl s (s.els el).dataPhotoId form = some a) ∧
    (form.action = none ∨ form.action = some "" →
      submitUrl s (s.els el).dataPhotoId form = (s.els el).dataPhotoId.bind s.idToUrl) ∧
    (form.handled = true →
      (onSubmit s el form true).posts =
        s.posts ++ [submitUrl s (s.els el).dataPhotoId form] ∧
      (onSubmit s el form true).tasks = s.tasks ++ [.submitPost el (s.els el).dataPhotoId]) ∧
    (onSubmit s el form false).posts = s.posts ∧
    (form.handled = false → ∀ csrf, onSubmit s el form csrf = s) := by
  refine ⟨?_, ?_, ?_, ?_, ?_⟩
  · intro a ha hne
    simp [submitUrl, truthy, ha, hne]
  · intro h
    rcases h with h | h <;> simp [submitUrl, truthy, h]
  · intro h
    simp [onSubmit, h]
  · unfold onSubmit
    split
    · rfl
    · simp
      unfold toastInModal
      split <;> rfl
  · intro h csrf
    simp [onSubmit, h]

/-- Witness of claim C15 with photo 5 open: a form with an action posts to
that action, a form without one to `/p/5`. -/
theorem submit_posts_to_action_or_photo_url_witness :
    submitUrl (run s0 [.call 0, .resume 0 r5])
      ((run s0 [.call 0, .resume 0 r5]).els 0).dataPhotoId
      { action := some "/comment/3/delete" } = some "/comment/3/delete" ∧
    submitUrl (run s0 [.call 0, .resume 0 r5])
      ((run s0 [.call 0, .resume 0 r5]).els 0).dataPhotoId {} = some "/p/5" ∧
    (onSubmit (run s0 [.call 0, .resume 0 r5]) 0 {} true).posts = [some "/p/5"] := by
  have h := submit_posts_to_action_or_photo_url (run s0 [.call 0, .resume 0 r5]) 0
  refine ⟨(h { action := some "/comment/3/delete" }).1 _ rfl (by decide), ?_, ?_⟩
  · rw [(h {}).2.1 (Or.inl rfl)]; decide
  · rw [((h {}).2.2.1 rfl).1]; decide

/-- Claim C16.  For every response, `fetchJSON` and `fetchDetailHTML` throw
when the status is not 2xx, and when the lower-cased content type does not
contain `application/json`; `fetchDetailHTML` throws as well when the body has
no string `html`.  For a 2xx response with such a content type and a body
with a string `html`, `fetchJSON` returns the body and `fetchDetailHTML`
returns it unchanged. -/
theorem fetch_rejects_bad_responses (r : Response) :
    (r.ok = false → fetchJSON (.response r) = .error .other ∧
      fetchDetailHTML (.response r) = .error .other) ∧
    (includes (toLowerCase (r.contentType.getD "")) "application/json".toList = false →
      fetchJSON (.response r) = .error .other ∧
      fetchDetailHTML (.response r) = .error .other) ∧
    (r.json.bind (fun b => b.html) = none → fetchDetailHTML (.response r) = .error .other) ∧
    (∀ (b : Body) (h : Html), r.ok = true →
      includes (toLowerCase (r.contentType.getD "")) "application/json".toList = true →
      r.json = some b → b.html = some h →
        fetchJSON (.response r) = .ok b ∧
        ∃ p, fetchDetailHTML (.response r) = .ok p ∧ p.html = h ∧ p.toBody = b) := by
  refine ⟨?_, ?_, ?_, ?_⟩
  · intro h
    refine ⟨?_, fetchDetailHTML_failures r (Or.inl h)⟩
    simp [fetchJSON, h]
  · intro h
    refine ⟨?_, fetchDetailHTML_failures r (Or.inr (Or.inl h))⟩
    unfold fetchJSON
    simp only
    rw [h]
    cases r.ok <;> simp
  · intro h
    exact fetchDetailHTML_failures r (Or.inr (Or.inr h))
  · intro b h hok hct hj hh
    have h1 : fetchJSON (.response r) = .ok b := by
      unfold fetchJSON
      simp only
      rw [hct, hok, hj]
      simp
    refine ⟨h1, { html := h, photo_id := b.photo_id, is_favorite := b.is_favorite,
                  favorites_count := b.favorites_count,
                  comments_count := b.comments_count }, ?_, rfl, ?_⟩
    · unfold fetchDetailHTML
      rw [h1]
      simp only [hh]
    · cases b
      simp only at hh
      subst hh
      rfl

/-- Witness of claim C16: an HTML page is refused, the JSON of photo 5 is
returned. -/
theorem fetch_rejects_bad_responses_witness :
    fetchDetailHTML rHtml = .error .other ∧
    fetchJSON r5 = .ok { html := some h5, photo_id := some 5 } :=
  ⟨((fetch_rejects_bad_responses
      { ok := true, contentType := some "text/html; charset=utf-8", json := none }).2.1
      (by decide)).2,
   ((fetch_rejects_bad_responses
      { ok := true, contentType := some "application/json",
        json := some { html := some h5, photo_id := some 5 } }).2.2.2
      { html := some h5, photo_id := some 5 } h5 rfl (by decide) rfl rfl).1⟩

/-- Claim C18 fails on the navigation index: with photo 5 open
(`currentIndex` 0), the handler of `hidden.bs.modal` removes the modal and
the backdrops and clears `bsModal`, and `currentIndex` is still 0. -/
theorem teardown_keeps_index :
    (run s0 [.call 0, .resume 0 r5]).mounted = some 0 ∧
    (run s0 [.call 0, .resume 0 r5]).currentIndex = 0 ∧
    (onHidden (run s0 [.call 0, .resume 0 r5]) (bootstrapShow {} .detail) 0 true).1.mounted
      = none ∧
    (onHidden (run s0 [.call 0, .resume 0 r5]) (bootstrapShow {} .detail) 0 true).1.bsModal
      = none ∧
    (onHidden (run s0 [.call 0, .resume 0 r5]) (bootstrapShow {} .detail) 0 true).2.backdrops
      = [] ∧
    (onHidden (run s0 [.call 0, .resume 0 r5]) (bootstrapShow {} .detail) 0
      true).1.currentIndex = 0 := by
  decide

/-- Claim C18, amended.  When the modal in the document closes, the handler
of `hidden.bs.modal` removes the modal element and every backdrop, removes
`modal-open` from the body and clears `bsModal`; `currentIndex`, the order,
the cache, `navSeq` and the pending continuations are unchanged. -/
theorem teardown_removes_overlay (s : State) (k : Stack) (el : Nat) (mountEmpty : Bool)
    (hm : s.mounted = some el) :
    (onHidden s k el mountEmpty).1.mounted = none ∧
    modalEl (onHidden s k el mountEmpty).1 = none ∧
    (onHidden s k el mountEmpty).2.backdrops = [] ∧
    (onHidden s k el mountEmpty).2.bodyModalOpen = false ∧
    (onHidden s k el mountEmpty).1.bsModal = none ∧
    (onHidden s k el mountEmpty).1.currentIndex = s.currentIndex ∧
    (onHidden s k el mountEmpty).1.order = s.order ∧
    (onHidden s k el mountEmpty).1.htmlCache = s.htmlCache ∧
    (onHidden s k el mountEmpty).1.navSeq = s.navSeq ∧
    (onHidden s k el mountEmpty).1.tasks = s.tasks := by
  cases mountEmpty <;> simp [onHidden, hardTeardownModal, hm, modalEl]

/-- Witness of amended claim C18: photo 5 is open and the modal closes. -/
theorem teardown_removes_overlay_witness :
    modalEl (onHidden (run s0 [.call 0, .resume 0 r5]) (bootstrapShow {} .detail) 0 true).1
      = none ∧
    (onHidden (run s0 [.call 0, .resume 0 r5]) (bootstrapShow {} .detail) 0
      true).1.currentIndex = (run s0 [.call 0, .resume 0 r5]).currentIndex :=
  ⟨(teardown_removes_overlay (run s0 [.call 0, .resume 0 r5]) (bootstrapShow {} .detail) 0 true
      (by decide)).2.1,
   (teardown_removes_overlay (run s0 [.call 0, .resume 0 r5]) (bootstrapShow {} .detail) 0 true
      (by decide)).2.2.2.2.2.1⟩

theorem includes_of_isPrefixOf (s ch : List Char) (h : s.isPrefixOf ch = true) :
    includes ch s = true := by
  cases ch with
  | nil =>
    cases s with
    | nil => rfl
    | cons a s => simp [List.isPrefixOf] at h
  | cons c cs => simp [includes, h]

theorem indexOfStr_ge (s ch : List Char) : -1 ≤ indexOfStr s ch := by
  induction ch with
  | nil => unfold indexOfStr; split <;> decide
  | cons c cs ih =>
    unfold indexOfStr
    split
    · decide
    · split
      · decide
      · omega

theorem indexOfStr_eq_zero (s ch : List Char) :
    indexOfStr s ch = 0 ↔ s.isPrefixOf ch = true := by
  cases ch with
  | nil =>
    unfold indexOfStr
    cases s with
    | nil => simp
    | cons a s => simp [List.isPrefixOf]
  | cons c cs =>
    unfold indexOfStr
    by_cases h : s.isPrefixOf (c :: cs) = true
    · simp [h]
    · simp only [h, if_false, Bool.false_eq_true, iff_false]
      split
      · decide
      · have := indexOfStr_ge s cs
        omega

theorem indexOfStr_nonneg (s ch : List Char) :
    0 ≤ indexOfStr s ch ↔ includes ch s = true := by
  induction ch with
  | nil =>
    unfold indexOfStr includes
    cases s with
    | nil => simp
    | cons a s => simp
  | cons c cs ih =>
    unfold indexOfStr includes
    by_cases h : s.isPrefixOf (c :: cs) = true
    · simp [h]
    · simp only [h, if_false, Bool.false_eq_true, Bool.false_or]
      rw [← ih]
      split
      · constructor
        · intro h'; exact absurd h' (by decide)
        · intro h'; omega
      · constructor
        · intro _; omega
        · intro _; omega

theorem scanChunks_eq (s : List Char) (l : List (List Char)) (found : Bool × Bool) :
    scanChunks s l found =
      if l.any (fun chunk => s.isPrefixOf chunk) then (true, true)
      else (found.1 || l.any (fun chunk => includes chunk s), found.2) := by
  induction l generalizing found with
  | nil => simp [scanChunks]
  | cons chunk rest ih =>
    unfold scanChunks
    by_cases hp : s.isPrefixOf chunk = true
    · have h0 : indexOfStr s chunk = 0 := (indexOfStr_eq_zero s chunk).2 hp
      simp [h0, hp]
    · have hne : ¬ indexOfStr s chunk = 0 := fun h => hp ((indexOfStr_eq_zero s chunk).1 h)
      have hp' : s.isPrefixOf chunk = false := Bool.eq_false_iff.2 hp
      by_cases hi : includes chunk s = true
      · have hge : indexOfStr s chunk ≥ 0 := (indexOfStr_nonneg s chunk).2 hi
        simp only [hge, if_true, hne, if_false]
        rw [ih]
        simp [hp', hi]
      · have hi' : includes chunk s = false := Bool.eq_false_iff.2 hi
        have hlt : ¬ indexOfStr s chunk ≥ 0 := fun h => hi ((indexOfStr_nonneg s chunk).1 h)
        simp only [hlt, if_false]
        rw [ih]
        simp [hp', hi']

theorem prefixHit_substringHit (lowerCase : List Char → List Char) (s t : List Char)
    (h : prefixHit lowerCase s t = true) : substringHit lowerCase s t = true := by
  unfold prefixHit at h
  unfold substringHit
  rw [List.any_eq_true] at h ⊢
  obtain ⟨chunk, hm, hc⟩ := h
  exact ⟨chunk, hm, includes_of_isPrefixOf s chunk hc⟩

theorem pushHit_eq (lowerCase : List Char → List Char) (s : List Char)
    (hits : List (List Char) × List (List Char)) (t : List Char) :
    pushHit lowerCase s hits t =
      (hits.1 ++ (if prefixHit lowerCase s t then [t] else []),
       hits.2 ++ (if substringHit lowerCase s t && !prefixHit lowerCase s t then [t]
                  else [])) := by
  unfold pushHit
  simp only [scanChunks_eq]
  by_cases hp : prefixHit lowerCase s t = true
  · have hp' := hp
    unfold prefixHit at hp'
    simp [hp', hp]
  · have hp1 : prefixHit lowerCase s t = false := by simpa using hp
    have hp' := hp1
    unfold prefixHit at hp'
    by_cases hs : substringHit lowerCase s t = true
    · have hs' := hs
      unfold substringHit at hs'
      simp [hp', hp1, hs', hs]
    · have hs1 : substringHit lowerCase s t = false := by simpa using hs
      have hs' := hs1
      unfold substringHit at hs'
      simp [hp', hp1, hs', hs1]

theorem foldl_pushHit (lowerCase : List Char → List Char) (s : List Char)
    (l : List (List Char)) (hits : List (List Char) × List (List Char)) :
    l.foldl (pushHit lowerCase s) hits =
      (hits.1 ++ l.filter (fun t => prefixHit lowerCase s t),
       hits.2 ++ l.filter (fun t => substringHit lowerCase s t && !prefixHit lowerCase s t)) := by
  induction l generalizing hits with
  | nil => simp
  | cons t l ih =>
    simp only [List.foldl_cons]
    rw [ih, pushHit_eq]
    simp only [List.filter_cons]
    cases prefixHit lowerCase s t <;> cases substringHit lowerCase s t <;> simp

theorem picked_eq_entered (lowerCase : List Char → List Char)
    (hlc : ∀ s, lowerCase s = [] ↔ s = []) (value t : List Char) :
    (pickedLC lowerCase (splitTokens value)).contains (lowerCase t) =
      entered lowerCase value t := by
  rw [Bool.eq_iff_iff]
  unfold pickedLC entered
  rw [List.contains_iff_exists_mem_beq, List.any_eq_true]
  constructor
  · rintro ⟨x, hx, he⟩
    rw [List.mem_filter, List.mem_map] at hx
    obtain ⟨⟨tok, hm, rfl⟩, hne⟩ := hx
    refine ⟨tok, hm, ?_⟩
    have he' : lowerCase t = lowerCase (trim tok) := by simpa using he
    have hne' : ¬ lowerCase (trim tok) = [] := by simpa using hne
    have h1 : ¬ trim tok = [] := fun h => hne' ((hlc _).2 h)
    simp [h1, he']
  · rintro ⟨tok, hm, he⟩
    have he' : ¬ trim tok = [] ∧ lowerCase (trim tok) = lowerCase t := by simpa using he
    refine ⟨lowerCase (trim tok), ?_, by simp [he'.2]⟩
    rw [List.mem_filter, List.mem_map]
    refine ⟨⟨tok, hm, rfl⟩, ?_⟩
    have : ¬ lowerCase (trim tok) = [] := fun h => he'.1 ((hlc _).1 h)
    simpa using this

theorem remainingUC_eq (lowerCase : List Char → List Char)
    (hlc : ∀ s, lowerCase s = [] ↔ s = []) (termsUC : List (List Char)) (value : List Char) :
    remainingUC lowerCase termsUC value =
      termsUC.filter (fun t => !entered lowerCase value t) := by
  unfold remainingUC
  congr 1
  funext t
  rw [picked_eq_entered lowerCase hlc]

theorem lowerLatin_eq_nil (s : List Char) : lowerLatin s = [] ↔ s = [] := by
  simp [lowerLatin]

/-- Claim C19.  Let `lowerCase` be the method `toLowerCase()`, of which only
this is used: it sends the empty string, and no other, to the empty string.
When the last comma-separated token of the input is non-empty after trimming,
the list `onInputChange` passes to `updateDropdown` is: the catalog terms not
equal, case-insensitively, to an entered token that have a prefix hit, in
catalog order; then those that have only another substring hit, in catalog
order; with one spacer between the groups when both are non-empty.  Every
entry other than the spacer is a catalog term that is not entered and has a
hit, and every such term is listed. -/
theorem onInputChange_lists_hits (lowerCase : List Char → List Char)
    (hlc : ∀ s, lowerCase s = [] ↔ s = [])
    (termsUC : List (List Char)) (value : List Char)
    (h : trim ((splitTokens value).getLast?.getD []) ≠ []) :
    onInputChange lowerCase termsUC value = suggestions lowerCase termsUC value ∧
    (∀ t ∈ onInputChange lowerCase termsUC value, t = SPACER_TEXT ∨
      (t ∈ termsUC ∧ entered lowerCase value t = false ∧
        substringHit lowerCase (searchOf lowerCase value) t = true)) ∧
    (∀ t ∈ termsUC, entered lowerCase value t = false →
      substringHit lowerCase (searchOf lowerCase value) t = true →
      t ∈ onInputChange lowerCase termsUC value) := by
  have hs : (searchOf lowerCase value).length > 0 := by
    unfold searchOf
    apply List.length_pos.2
    intro h'
    exact h ((hlc _).1 h')
  have heq : onInputChange lowerCase termsUC value = suggestions lowerCase termsUC value := by
    unfold onInputChange suggestions
    simp only [hs, if_true, foldl_pushHit, remainingUC_eq lowerCase hlc, List.nil_append]
    generalize (termsUC.filter (fun t => !entered lowerCase value t)).filter
      (fun t => prefixHit lowerCase (searchOf lowerCase value) t) = P
    generalize (termsUC.filter (fun t => !entered lowerCase value t)).filter
      (fun t => substringHit lowerCase (searchOf lowerCase value) t &&
        !prefixHit lowerCase (searchOf lowerCase value) t) = Q
    cases P with
    | nil => cases Q <;> simp
    | cons p P => cases Q <;> simp
  refine ⟨heq, ?_, ?_⟩
  · intro t ht
    rw [heq] at ht
    unfold suggestions at ht
    simp only [List.mem_append, List.mem_filter, Bool.and_eq_true, Bool.not_eq_true'] at ht
    rcases ht with (⟨⟨h1, h2⟩, h3⟩ | h4) | ⟨⟨h1, h2⟩, h3, _⟩
    · exact Or.inr ⟨h1, h2, prefixHit_substringHit _ _ _ h3⟩
    · left
      split at h4
      · simpa using h4
      · cases h4
    · exact Or.inr ⟨h1, h2, h3⟩
  · intro t ht he hsub
    rw [heq]
    unfold suggestions
    simp only [List.mem_append, List.mem_filter, Bool.and_eq_true, Bool.not_eq_true']
    by_cases hp : prefixHit lowerCase (searchOf lowerCase value) t = true
    · exact Or.inl (Or.inl ⟨⟨ht, he⟩, hp⟩)
    · exact Or.inr ⟨⟨ht, he⟩, hsub, Bool.eq_false_iff.2 hp⟩

/-- Witness of claim C19 with the lower-casing of Latin letters: for the
catalog Cat, Bobcat, tom-cat, Dog, catalog and the input `dog, ca` the list is
Cat, tom-cat, catalog, the spacer, Bobcat; for the catalog Éclair, ÉCOLE,
Café and the input `é` it is Éclair, ÉCOLE, the spacer, Café. -/
theorem onInputChange_lists_hits_witness :
    onInputChange lowerLatin ["Cat".toList, "Bobcat".toList, "tom-cat".toList, "Dog".toList,
      "catalog".toList] "dog, ca".toList =
      ["Cat".toList, "tom-cat".toList, "catalog".toList, SPACER_TEXT, "Bobcat".toList] ∧
    onInputChange lowerLatin ["Cat".toList, "Bobcat".toList, "tom-cat".toList, "Dog".toList,
      "catalog".toList] "dog, ca".toList =
      suggestions lowerLatin ["Cat".toList, "Bobcat".toList, "tom-cat".toList, "Dog".toList,
        "catalog".toList] "dog, ca".toList ∧
    onInputChange lowerLatin ["Éclair".toList, "ÉCOLE".toList, "Café".toList] "é".toList =
      ["Éclair".toList, "ÉCOLE".toList, SPACER_TEXT, "Café".toList] ∧
    onInputChange lowerLatin ["Éclair".toList, "ÉCOLE".toList, "Café".toList] "é".toList =
      suggestions lowerLatin ["Éclair".toList, "ÉCOLE".toList, "Café".toList] "é".toList :=
  ⟨by decide,
   (onInputChange_lists_hits lowerLatin lowerLatin_eq_nil ["Cat".toList, "Bobcat".toList,
      "tom-cat".toList, "Dog".toList, "catalog".toList] "dog, ca".toList (by decide)).1,
   by decide,
   (onInputChange_lists_hits lowerLatin lowerLatin_eq_nil ["Éclair".toList, "ÉCOLE".toList,
      "Café".toList] "é".toList (by decide)).1⟩

theorem resumeSwap_eq (s : State) (idx : Int) (id : PhotoId) (el : Nat) (pre : Option Html)
    (gen : Nat) :
    resumeSwap s idx id el pre gen = finishNav (setEl s el (fadeIn (s.els el) pre gen)) idx id el := by
  unfold resumeSwap fadeIn
  cases pre with
  | some h => rfl
  | none =>
    have : setEl s el (s.els el) = s := by
      unfold setEl
      rw [Function.update_eq_self]
    simp only [this]

@[simp]
theorem swapStart_wired (ov : Overlay) (h : Html) : (swapStart ov h).1.wired = ov.wired := by
  unfold swapStart swapFallback swapFade
  split
  · split <;> rfl
  · split
    · rfl
    · simp

@[simp]
theorem swapStart_dataPhotoId (ov : Overlay) (h : Html) :
    (swapStart ov h).1.dataPhotoId = ov.dataPhotoId := by
  unfold swapStart swapFallback swapFade
  split
  · split <;> rfl
  · split
    · rfl
    · simp

@[simp]
theorem fadeIn_wired (ov : Overlay) (pre : Option Html) (gen : Nat) :
    (fadeIn ov pre gen).wired = ov.wired := by
  unfold fadeIn swapFade
  cases pre with
  | none => rfl
  | some h => simp only; split <;> rfl

@[simp]
theorem fadeIn_dataPhotoId (ov : Overlay) (pre : Option Html) (gen : Nat) :
    (fadeIn ov pre gen).dataPhotoId = ov.dataPhotoId := by
  unfold fadeIn swapFade
  cases pre with
  | none => rfl
  | some h => simp only; split <;> rfl

@[simp]
theorem showLoadingWithDelay_els_wired (s : State) (el : Nat) (b : Bool) (e : Nat) :
    ((showLoadingWithDelay s el b).els e).wired = (s.els e).wired := by
  obtain ⟨sp, v, h⟩ := showLoading_eq s el b
  rw [h]
  by_cases he : e = el
  · subst he; simp
  · simp [Function.update, he]

@[simp]
theorem showLoadingWithDelay_els_dataPhotoId (s : State) (el : Nat) (b : Bool) (e : Nat) :
    ((showLoadingWithDelay s el b).els e).dataPhotoId = (s.els e).dataPhotoId := by
  obtain ⟨sp, v, h⟩ := showLoading_eq s el b
  rw [h]
  by_cases he : e = el
  · subst he; simp
  · simp [Function.update, he]

theorem preloadOne_cached (s : State) (p : PhotoId) (h : (s.htmlCache p).isSome = true) :
    preloadOne s (some p) = s := by
  unfold preloadOne
  simp only
  cases truthy (s.idToUrl p) with
  | none => rfl
  | some url => simp [h]

theorem preloadAround_cached (s : State) (idx : Int) (p1 p2 : PhotoId)
    (hlen : s.order.length ≠ 0)
    (h1 : orderAt s (jsMod (idx + 1) s.order.length) = some p1)
    (h2 : orderAt s (jsMod (idx - 1 + s.order.length) s.order.length) = some p2)
    (c1 : (s.htmlCache p1).isSome = true) (c2 : (s.htmlCache p2).isSome = true) :
    preloadAround s idx = s := by
  unfold preloadAround
  rw [if_neg hlen]
  simp only
  rw [h1, preloadOne_cached s p1 c1, h2, preloadOne_cached s p2 c2]

theorem browse_next (u5 u6 u7 : String) (d5 d6 d7 : Payload) (s : State) (el : Nat)
    (o1 o2 : FetchOutcome) (i j : Int) (id idj : PhotoId) (uj : String) (dj : Payload)
    (hB : Browsing u5 u6 u7 d5 d6 d7 s i id el)
    (hj : Int.tmod (i + 1) 3 = j) (hj0 : 0 ≤ j ∧ j < 3)
    (hidj : ([5, 6, 7] : List PhotoId)[j.toNat]? = some idj)
    (huj : truthy (s.idToUrl idj) = some uj) (hcj : s.htmlCache idj = some dj)
    (hfj : isFresh dj (readTileCounts s.doc idj) = true)
    (hnb1 : ∃ p, ([5, 6, 7] : List PhotoId)[(Int.tmod (j + 1) 3).toNat]? = some p ∧
      (s.htmlCache p).isSome = true)
    (hnb2 : ∃ p, ([5, 6, 7] : List PhotoId)[(Int.tmod (j - 1 + 3) 3).toNat]? = some p ∧
      (s.htmlCache p).isSome = true)
    (hnn1 : 0 ≤ Int.tmod (j + 1) 3) (hnn2 : 0 ≤ Int.tmod (j - 1 + 3) 3) :
    (step s .next).requests = [u5, u6, u7] ∧
    (step s .next).tasks = [.navDetail (s.navSeq + 1) j idj (some el) (some dj)] ∧
    (run s [.next, .resume 0 o1, .resume 0 o2]).navSeq = s.navSeq + 1 ∧
    Browsing u5 u6 u7 d5 d6 d7 (run s [.next, .resume 0 o1, .resume 0 o2]) j idj el := by
  obtain ⟨horder, h5, h6, h7, c5, c6, c7, f6, f7, hm, hw, ht, hr, hi, hd⟩ := hB
  have hnext : step s .next = openByIndex s j := by
    simp [step, wiredEl, hm, hw, onNext, nextIndex, hi, horder, jsMod, hj]
  have hlen : (s.order.length : Int) = 3 := by rw [horder]; rfl
  have hoj : orderAt s j = some idj := by
    unfold orderAt
    rw [if_neg (by omega), horder]
    exact hidj
  have hcf : cachedFresh s idj = some dj := by
    rw [cachedFresh_eq, hcj]; simp [hfj]
  obtain ⟨a1, a2, a3, a4, a5, a6, a7, a8⟩ :=
    openByIndex_valid s j idj uj (by rw [hlen]; exact hj0) hoj huj
  obtain ⟨b1, b2, b3⟩ := openByIndex_order s j
  rw [hcf, ht, hm] at a2
  rw [hcf, hr] at a3
  simp only [Option.isSome_some, if_true, List.nil_append] at a2 a3
  refine ⟨by rw [hnext, a3], by rw [hnext, a2], ?_⟩
  simp only [run, List.foldl_cons, List.foldl_nil, hnext]
  rw [← and_comm]
  generalize openByIndex s j = S1 at a1 a2 a3 a4 a5 a6 a7 a8 b1 b2 b3
  obtain ⟨p1, hp1, hc1⟩ := hnb1
  obtain ⟨p2, hp2, hc2⟩ := hnb2
  have hS2 : step S1 (.resume 0 o1) =
      { setEl { S1 with tasks := [] } el (swapStart (S1.els el) dj.html).1 with
        tasks := [.navSwap (s.navSeq + 1) j idj el (swapStart (S1.els el) dj.html).2
                    (swapStart (S1.els el) dj.html).1.swapGen] } := by
    simp [step, a2, runTask, finishDetail, resumeMounted, a1, setEl]
  rw [hS2]
  simp only [step, List.getElem?_cons_zero, List.eraseIdx_cons_zero, runTask, resumeSwap_eq,
    finishNav]
  unfold Browsing
  simp only [showLoadingWithDelay_order, preloadAround_order, setEl_order,
    showLoadingWithDelay_idToUrl, preloadAround_idToUrl, setEl_idToUrl,
    showLoadingWithDelay_htmlCache, preloadAround_htmlCache, setEl_htmlCache,
    showLoadingWithDelay_doc, preloadAround_doc, setEl_doc,
    showLoadingWithDelay_mounted, preloadAround_mounted, setEl_mounted,
    showLoadingWithDelay_currentIndex, preloadAround_currentIndex, setEl_currentIndex,
    showLoadingWithDelay_tasks, showLoadingWithDelay_requests, showLoadingWithDelay_navSeq,
    preloadAround_navSeq, setEl_navSeq,
    showLoadingWithDelay_els_wired, showLoadingWithDelay_els_dataPhotoId, preloadAround_els,
    b1, b2, b3, a4, a6, horder, h5, h6, h7, c5, c6, c7, f6, f7, hm]
  have hpre : ∀ (X : State), X.order = [5, 6, 7] → X.htmlCache = s.htmlCache →
      preloadAround X j = X := by
    intro X hX hXc
    have hl : ((([5, 6, 7] : List PhotoId).length : Nat) : Int) = 3 := rfl
    apply preloadAround_cached X j p1 p2
    · rw [hX]; decide
    · unfold orderAt jsMod
      rw [hX, hl, if_neg (not_lt.2 hnn1)]
      exact hp1
    · unfold orderAt jsMod
      rw [hX, hl, if_neg (not_lt.2 hnn2)]
      exact hp2
    · rw [hXc]; exact hc1
    · rw [hXc]; exact hc2
  rw [hpre _ (by simp [b1, horder]) (by simp [a4])]
  refine ⟨⟨trivial, trivial, trivial, trivial, trivial, trivial, trivial, trivial, trivial,
    trivial, ?_, ?_, ?_, trivial, ?_⟩, ?_⟩
  · simp [setEl, a8, hw]
  · simp [setEl]
  · simp [setEl, a3]
  · simp [setEl]
  · simp [setEl, a1]

theorem scenario_open (s : State) (u5 u6 u7 : String) (d5 d6 d7 : Payload)
    (o5 o6 o7 : FetchOutcome)
    (horder : s.order = [5, 6, 7])
    (h5 : truthy (s.idToUrl 5) = some u5) (h6 : truthy (s.idToUrl 6) = some u6)
    (h7 : truthy (s.idToUrl 7) = some u7)
    (hcache : s.htmlCache = fun _ => none) (hm : s.mounted = none) (ht : s.tasks = [])
    (hr : s.requests = [])
    (ho5 : fetchDetailHTML o5 = .ok d5) (ho6 : fetchDetailHTML o6 = .ok d6)
    (ho7 : fetchDetailHTML o7 = .ok d7) (hroot : d5.html.hasRoot = true)
    (hf6 : isFresh d6 (readTileCounts s.doc 6) = true)
    (hf7 : isFresh d7 (readTileCounts s.doc 7) = true) :
    (run s [.call 0]).requests = [u5] ∧
    (run s [.call 0, .resume 0 o5]).requests = [u5, u6, u7] ∧
    (run s [.call 0, .resume 0 o5]).tasks = [.prefetch 6, .prefetch 7] ∧
    (run s [.call 0, .resume 0 o5]).navSeq = s.navSeq + 1 ∧
    (run s [.call 0, .resume 0 o5, .resume 0 o6, .resume 0 o7]).navSeq = s.navSeq + 1 ∧
    Browsing u5 u6 u7 d5 d6 d7 (run s [.call 0, .resume 0 o5, .resume 0 o6, .resume 0 o7])
      0 5 s.nextEl := by
  have t1 : Int.tmod 1 3 = 1 := by decide
  have t2 : Int.tmod 2 3 = 2 := by decide
  unfold Browsing
  simp [run, step, openByIndex, horder, orderAt, h5, hm, startDetail, cachedFresh,
    hcache, ht, hr, runTask, finishDetail, ho5, resumeFirst, hroot, preloadAround, preloadOne,
    jsMod, h6, h7, finishPrefetch, ho6, ho7, t1, t2, Function.update, hf6, hf7]


theorem run_append (s : State) (l1 l2 : List Event) :
    run s (l1 ++ l2) = run (run s l1) l2 := by
  unfold run
  rw [List.foldl_append]

/-- Claim C17, amended.  With order 5, 6, 7, URLs for the three photos, an
empty cache, no modal, and fetches that succeed with payloads fresh against
the tiles: opening index 0 requests the URL of 5; when that fetch settles,
the preloading of the neighbours requests the URLs of 6 and 7; each next
press finds its photo fresh in the cache, starts its attempt without a
request and settles on it.  The requests of the whole scenario are the URLs
of 5, 6, 7 in this order, and it ends on index 2 with `data-photo-id` 7. -/
theorem scenario_fetches_by_preload (s : State) (u5 u6 u7 : String) (d5 d6 d7 : Payload)
    (o5 o6 o7 : FetchOutcome)
    (horder : s.order = [5, 6, 7])
    (h5 : truthy (s.idToUrl 5) = some u5) (h6 : truthy (s.idToUrl 6) = some u6)
    (h7 : truthy (s.idToUrl 7) = some u7)
    (hcache : s.htmlCache = fun _ => none) (hm : s.mounted = none) (ht : s.tasks = [])
    (hr : s.requests = [])
    (ho5 : fetchDetailHTML o5 = .ok d5) (ho6 : fetchDetailHTML o6 = .ok d6)
    (ho7 : fetchDetailHTML o7 = .ok d7) (hroot : d5.html.hasRoot = true)
    (hf6 : isFresh d6 (readTileCounts s.doc 6) = true)
    (hf7 : isFresh d7 (readTileCounts s.doc 7) = true) :
    (run s ((scenario o5 o6 o7).take 1)).requests = [u5] ∧
    (run s ((scenario o5 o6 o7).take 2)).requests = [u5, u6, u7] ∧
    (run s ((scenario o5 o6 o7).take 2)).tasks = [.prefetch 6, .prefetch 7] ∧
    (run s ((scenario o5 o6 o7).take 4)).requests = [u5, u6, u7] ∧
    (run s ((scenario o5 o6 o7).take 4)).tasks = [] ∧
    (run s ((scenario o5 o6 o7).take 5)).requests = [u5, u6, u7] ∧
    (run s ((scenario o5 o6 o7).take 5)).tasks =
      [.navDetail (s.navSeq + 2) 1 6 (some s.nextEl) (some d6)] ∧
    (run s ((scenario o5 o6 o7).take 7)).requests = [u5, u6, u7] ∧
    (run s ((scenario o5 o6 o7).take 7)).tasks = [] ∧
    (run s ((scenario o5 o6 o7).take 7)).currentIndex = 1 ∧
    (run s ((scenario o5 o6 o7).take 8)).requests = [u5, u6, u7] ∧
    (run s ((scenario o5 o6 o7).take 8)).tasks =
      [.navDetail (s.navSeq + 3) 2 7 (some s.nextEl) (some d7)] ∧
    (run s (scenario o5 o6 o7)).requests = [u5, u6, u7] ∧
    (run s (scenario o5 o6 o7)).tasks = [] ∧
    (run s (scenario o5 o6 o7)).currentIndex = 2 ∧
    (modalEl (run s (scenario o5 o6 o7))).map (fun ov => ov.dataPhotoId) = some (some 7) := by
  obtain ⟨e1, e2, e3, e4, e5, hB0⟩ := scenario_open s u5 u6 u7 d5 d6 d7 o5 o6 o7 horder h5 h6 h7
    hcache hm ht hr ho5 ho6 ho7 hroot hf6 hf7
  generalize hS4 : run s [.call 0, .resume 0 o5, .resume 0 o6, .resume 0 o7] = S4 at e5 hB0
  have hB0' := hB0
  obtain ⟨-, g5, g6, g7, c5, c6, c7, f6, f7, gm, -, gt, gr, -, -⟩ := hB0'
  obtain ⟨n1, n2, n3, hB1⟩ := browse_next u5 u6 u7 d5 d6 d7 S4 s.nextEl .failed .failed 0 1 5 6
    u6 d6 hB0 (by decide) (by decide) (by decide) g6 c6 f6
    ⟨7, by decide, by rw [c7]; rfl⟩ ⟨5, by decide, by rw [c5]; rfl⟩ (by decide) (by decide)
  generalize hS7 : run S4 [.next, .resume 0 .failed, .resume 0 .failed] = S7 at n3 hB1
  have hB1' := hB1
  obtain ⟨-, k5, k6, k7, q5, q6, q7, r6, r7, km, -, kt, kr, ki, -⟩ := hB1'
  obtain ⟨m1, m2, m3, hB2⟩ := browse_next u5 u6 u7 d5 d6 d7 S7 s.nextEl .failed .failed 1 2 6 7
    u7 d7 hB1 (by decide) (by decide) (by decide) k7 q7 r7
    ⟨5, by decide, by rw [q5]; rfl⟩ ⟨6, by decide, by rw [q6]; rfl⟩ (by decide) (by decide)
  have hB2' := hB2
  obtain ⟨-, -, -, -, -, -, -, -, -, lm, -, lt, lr, li, ld⟩ := hB2'
  have p4 : (scenario o5 o6 o7).take 4 = [.call 0, .resume 0 o5, .resume 0 o6, .resume 0 o7] :=
    rfl
  have p5 : (scenario o5 o6 o7).take 5 =
      [.call 0, .resume 0 o5, .resume 0 o6, .resume 0 o7] ++ [.next] := rfl
  have p7 : (scenario o5 o6 o7).take 7 =
      [.call 0, .resume 0 o5, .resume 0 o6, .resume 0 o7] ++
        [.next, .resume 0 .failed, .resume 0 .failed] := rfl
  have p8 : (scenario o5 o6 o7).take 8 =
      ([.call 0, .resume 0 o5, .resume 0 o6, .resume 0 o7] ++
        [.next, .resume 0 .failed, .resume 0 .failed]) ++ [.next] := rfl
  have p10 : scenario o5 o6 o7 =
      ([.call 0, .resume 0 o5, .resume 0 o6, .resume 0 o7] ++
        [.next, .resume 0 .failed, .resume 0 .failed]) ++
        [.next, .resume 0 .failed, .resume 0 .failed] := rfl
  have q1 : run S4 [.next] = step S4 .next := rfl
  have q2 : run S7 [.next] = step S7 .next := rfl
  rw [p4, p5, p7, p8, p10]
  simp only [run_append, hS4, hS7, q1, q2]
  refine ⟨e1, e2, e3, gr, gt, n1, ?_, kr, kt, ki, m1, ?_, lr, lt, li, ?_⟩
  · rw [n2, e5]
  · rw [m2, n3, e5]
  · simp [modalEl, lm, ld]

/-- Claim C17 fails on where the fetches come from: on the page with three
photos the requests for `/p/6` and `/p/7` have been issued, and have settled,
before the first next press, and neither next press issues a request. -/
theorem next_presses_fetch_nothing :
    (run s0 ((scenario r5 r6 r7).take 4)).requests = ["/p/5", "/p/6", "/p/7"] ∧
    (run s0 ((scenario r5 r6 r7).take 4)).tasks = [] ∧
    (run s0 ((scenario r5 r6 r7).take 5)).requests = ["/p/5", "/p/6", "/p/7"] ∧
    (run s0 ((scenario r5 r6 r7).take 7)).requests = ["/p/5", "/p/6", "/p/7"] ∧
    (run s0 ((scenario r5 r6 r7).take 8)).requests = ["/p/5", "/p/6", "/p/7"] ∧
    (run s0 (scenario r5 r6 r7)).requests = ["/p/5", "/p/6", "/p/7"] ∧
    (run s0 (scenario r5 r6 r7)).tasks = [] ∧
    (run s0 (scenario r5 r6 r7)).currentIndex = 2 := by
  decide

/-- Witness of amended claim C17 on the page with three photos: the first
next press is served from the cache and the scenario ends on index 2. -/
theorem scenario_fetches_by_preload_witness :
    (run s0 ((scenario r5 r6 r7).take 5)).tasks =
      [.navDetail 2 1 6 (some 0) (some { html := h6, photo_id := some 6 })] ∧
    (run s0 (scenario r5 r6 r7)).currentIndex = 2 :=
  ⟨(scenario_fetches_by_preload s0 "/p/5" "/p/6" "/p/7" { html := h5, photo_id := some 5 }
      { html := h6, photo_id := some 6 } { html := h7, photo_id := some 7 } r5 r6 r7
      (by decide) (by decide) (by decide) (by decide) rfl (by decide) (by decide) (by decide)
      rfl rfl rfl (by decide) (by decide) (by decide)).2.2.2.2.2.2.1,
   (scenario_fetches_by_preload s0 "/p/5" "/p/6" "/p/7" { html := h5, photo_id := some 5 }
      { html := h6, photo_id := some 6 } { html := h7, photo_id := some 7 } r5 r6 r7
      (by decide) (by decide) (by decide) (by decide) rfl (by decide) (by decide) (by decide)
      rfl rfl rfl (by decide) (by decide) (by decide)).2.2.2.2.2.2.2.2.2.2.2.2.2.2.1⟩

theorem filter_eraseIdx_le (p : Task → Bool) (l : List Task) (i : Nat) :
    ((l.eraseIdx i).filter p).length ≤ (l.filter p).length :=
  ((List.eraseIdx_sublist l i).filter p).length_le

theorem filter_eraseIdx_lt (p : Task → Bool) (l : List Task) (i : Nat) (x : Task)
    (h : l[i]? = some x) (hp : p x = true) :
    ((l.eraseIdx i).filter p).length + 1 = (l.filter p).length := by
  induction l generalizing i with
  | nil => simp at h
  | cons a l ih =>
    cases i with
    | zero =>
      simp only [List.getElem?_cons_zero, Option.some.injEq] at h
      subst h
      simp [List.filter_cons, hp]
    | succ i =>
      simp only [List.getElem?_cons_succ] at h
      simp only [List.eraseIdx_cons_succ, List.filter_cons]
      have := ih i h
      split
      · simp only [List.length_cons]; omega
      · exact this

theorem TaskOk_congr (s s' : State) (t : Task) (ho : s'.order = s.order)
    (hm : s'.mounted = s.mounted) (hn : s.navSeq ≤ s'.navSeq) (h : TaskOk s t) :
    TaskOk s' t := by
  cases t with
  | navDetail seq idx id el c =>
    cases el with
    | none =>
      simp only [TaskOk] at h ⊢
      rw [orderAt_congr s s' idx ho, hm]
      exact ⟨h.1, fun hne => lt_of_lt_of_le (h.2 hne) hn⟩
    | some e =>
      simp only [TaskOk] at h ⊢
      rw [orderAt_congr s s' idx ho, hm]
      exact h
  | navSwap seq idx id e pre gen =>
    simp only [TaskOk] at h ⊢
    rw [orderAt_congr s s' idx ho, hm]
    exact h
  | prefetch p => trivial
  | submitPost e i => trivial
  | submitSwap e i d p g => trivial

theorem TaskOk_of_seq_none (s : State) (t : Task) (h : t.seq? = none) : TaskOk s t := by
  cases t with
  | navDetail seq idx id el c => cases h
  | navSwap seq idx id e pre gen => cases h
  | prefetch p => trivial
  | submitPost e i => trivial
  | submitSwap e i d p g => trivial

theorem latestCount_append (s s' : State) (added : List Task) (hn : s'.navSeq = s.navSeq)
    (ht : s'.tasks = s.tasks ++ added) (ha : ∀ x ∈ added, x.seq? = none) :
    latestCount s' = latestCount s := by
  unfold latestCount
  rw [ht, hn, List.filter_append]
  have : added.filter (fun t => t.seq? == some s.navSeq) = [] := by
    rw [List.filter_eq_nil_iff]
    intro x hx
    simp [ha x hx]
  rw [this]; simp

/-- The part of the invariant about the pending continuations is kept by a
step that leaves the sequence number, the order and the modal in the document
alone and adds continuations without a sequence number only. -/
theorem pending_frame (s s' : State) (added : List Task)
    (hwf : s.wf) (hcnt : latestCount s ≤ 1) (hok : ∀ t ∈ s.tasks, TaskOk s t)
    (hn : s'.navSeq = s.navSeq) (ho : s'.order = s.order) (hm : s'.mounted = s.mounted)
    (ht : s'.tasks = s.tasks ++ added) (ha : ∀ x ∈ added, x.seq? = none) :
    s'.wf ∧ latestCount s' ≤ 1 ∧ ∀ t ∈ s'.tasks, TaskOk s' t := by
  refine ⟨?_, ?_, ?_⟩
  · intro x hx k hk
    rw [ht] at hx
    rw [hn]
    rcases List.mem_append.1 hx with h | h
    · exact hwf x h k hk
    · rw [ha x h] at hk; cases hk
  · rw [latestCount_append s s' added hn ht ha]; exact hcnt
  · intro x hx
    rw [ht] at hx
    rcases List.mem_append.1 hx with h | h
    · exact TaskOk_congr s s' x ho hm (le_of_eq hn.symm) (hok x h)
    · exact TaskOk_of_seq_none s' x (ha x h)

theorem consistent_frame (s s' : State) (h : Consistent s)
    (ho : s'.order = s.order) (hm : s'.mounted = s.mounted)
    (hc : s'.currentIndex = s.currentIndex)
    (hd : ∀ e, (s'.els e).dataPhotoId = (s.els e).dataPhotoId) : Consistent s' := by
  intro el hel
  rw [hm] at hel
  obtain ⟨id, h1, h2⟩ := h el hel
  exact ⟨id, by rw [hd, h1], by rw [hc, orderAt_congr s s' _ ho, h2]⟩

theorem NavInv_frame (s s' : State) (added : List Task) (h : NavInv s)
    (hn : s'.navSeq = s.navSeq) (ho : s'.order = s.order) (hm : s'.mounted = s.mounted)
    (hc : s'.currentIndex = s.currentIndex)
    (hd : ∀ e, (s'.els e).dataPhotoId = (s.els e).dataPhotoId)
    (ht : s'.tasks = s.tasks ++ added) (ha : ∀ x ∈ added, x.seq? = none) :
    NavInv s' := by
  obtain ⟨h1, h2, h3, h4⟩ := h
  obtain ⟨g1, g2, g3⟩ := pending_frame s s' added h1 h2 h3 hn ho hm ht ha
  exact ⟨g1, g2, g3, consistent_frame s s' h4 ho hm hc hd⟩

@[simp]
theorem toastInModal_els_dataPhotoId (s : State) (msg : String) (e : Nat) :
    ((toastInModal s msg).els e).dataPhotoId = (s.els e).dataPhotoId := by
  unfold toastInModal
  split
  · rfl
  · rename_i el _
    by_cases he : e = el
    · subst he; simp [setEl]
    · simp [setEl, Function.update, he]

theorem toastInModal_inv (s : State) (msg : String) (h : NavInv s) :
    NavInv (toastInModal s msg) :=
  NavInv_frame s _ [] h (by simp) (by simp) (by simp) (by simp) (by simp) (by simp) (by simp)

theorem showLoadingWithDelay_inv (s : State) (el : Nat) (b : Bool) (h : NavInv s) :
    NavInv (showLoadingWithDelay s el b) :=
  NavInv_frame s _ [] h (by simp) (by simp) (by simp) (by simp) (by simp) (by simp) (by simp)

theorem openByIndex_nourl (s : State) (idx : Int) (id : PhotoId)
    (hidx : 0 ≤ idx ∧ idx < s.order.length) (hid : orderAt s idx = some id)
    (hurl : truthy (s.idToUrl id) = none) :
    (openByIndex s idx).navSeq = s.navSeq + 1 ∧
    (openByIndex s idx).tasks = s.tasks ∧
    (openByIndex s idx).currentIndex = s.currentIndex ∧
    (openByIndex s idx).mounted = s.mounted ∧
    (openByIndex s idx).els = s.els := by
  have hr : ¬ (idx < 0 ∨ idx ≥ s.order.length) := by omega
  have hid' : ∀ (a : Nat) (b : List Nat) (c : Option Nat),
      orderAt { s with navSeq := a, aborted := b, navAbort := c } idx = some id := fun _ _ _ => hid
  unfold openByIndex
  rw [if_neg hr]
  simp only [hid', hurl]
  exact ⟨trivial, trivial, trivial, trivial, trivial⟩

theorem orderAt_valid (s : State) (idx : Int) (h : 0 ≤ idx ∧ idx < s.order.length) :
    ∃ id, orderAt s idx = some id := by
  unfold orderAt
  rw [if_neg (by omega)]
  have : idx.toNat < s.order.length := by omega
  exact ⟨s.order[idx.toNat], List.getElem?_eq_getElem this⟩

/-- A new attempt keeps the invariant: it supersedes every pending attempt and
is the only one that carries the latest sequence number. -/
theorem NavInv_open (s s' : State) (added : List Task) (h : NavInv s)
    (hn : s'.navSeq = s.navSeq + 1) (ho : s'.order = s.order) (hm : s'.mounted = s.mounted)
    (hc : s'.currentIndex = s.currentIndex) (hels : s'.els = s.els)
    (ht : s'.tasks = s.tasks ++ added)
    (ha : added = [] ∨ ∃ idx id c, orderAt s idx = some id ∧
      added = [Task.navDetail (s.navSeq + 1) idx id s.mounted c]) : NavInv s' := by
  obtain ⟨h1, h2, h3, h4⟩ := h
  have hold : s.tasks.filter (fun t => t.seq? == some s'.navSeq) = [] := by
    rw [List.filter_eq_nil_iff]
    intro x hx
    simp only [beq_iff_eq]
    intro hk
    have := h1 x hx _ hk
    omega
  refine ⟨?_, ?_, ?_, ?_⟩
  · intro x hx k hk
    rw [ht] at hx
    rcases List.mem_append.1 hx with g | g
    · have := h1 x g k hk; omega
    · rcases ha with rfl | ⟨idx, id, c, -, rfl⟩
      · cases g
      · simp only [List.mem_singleton] at g
        subst g
        simp only [Task.seq?, Option.some.injEq] at hk
        omega
  · unfold latestCount
    rw [ht, List.filter_append, hold]
    rcases ha with rfl | ⟨idx, id, c, -, rfl⟩
    · simp
    · simp only [List.nil_append]
      exact le_trans (List.length_filter_le _ _) (by simp)
  · intro x hx
    rw [ht] at hx
    rcases List.mem_append.1 hx with g | g
    · exact TaskOk_congr s s' x ho hm (by omega) (h3 x g)
    · rcases ha with rfl | ⟨idx, id, c, hid, rfl⟩
      · cases g
      · simp only [List.mem_singleton] at g
        subst g
        cases hmo : s.mounted with
        | none =>
          simp only [TaskOk]
          rw [orderAt_congr s s' idx ho, hm, hmo]
          exact ⟨hid, fun hne => absurd rfl hne⟩
        | some e =>
          simp only [TaskOk]
          rw [orderAt_congr s s' idx ho, hm, hmo]
          exact ⟨hid, rfl⟩
  · exact consistent_frame s s' h4 ho hm hc (by intro e; rw [hels])

theorem openByIndex_inv (s : State) (idx : Int) (h : NavInv s) :
    NavInv (openByIndex s idx) := by
  by_cases hidx : idx < 0 ∨ idx ≥ s.order.length
  · have : openByIndex s idx = s := by unfold openByIndex; rw [if_pos hidx]
    rw [this]; exact h
  · have hv : 0 ≤ idx ∧ idx < s.order.length := by omega
    obtain ⟨id, hid⟩ := orderAt_valid s idx hv
    have ho := (openByIndex_order s idx).1
    cases hurl : truthy (s.idToUrl id) with
    | none =>
      obtain ⟨g1, g2, g3, g4, g5⟩ := openByIndex_nourl s idx id hv hid hurl
      exact NavInv_open s _ [] h g1 ho g4 g3 g5 (by simp [g2]) (Or.inl rfl)
    | some url =>
      obtain ⟨g1, g2, -, -, g5, g6, -, g8⟩ := openByIndex_valid s idx id url hv hid hurl
      exact NavInv_open s _ _ h g1 ho g6 g5 g8 g2 (Or.inr ⟨idx, id, _, hid, rfl⟩)

/-- The first mount keeps the invariant: the new modal carries the photo of
the attempt, and every other pending attempt is superseded. -/
theorem mount_inv (s S : State) (idx : Int) (id : PhotoId) (el : Nat) (h : NavInv s)
    (hid : orderAt s idx = some id) (hmo : s.mounted = none) (hzero : latestCount s = 0)
    (eN : S.navSeq = s.navSeq) (eO : S.order = s.order) (eT : S.tasks = s.tasks)
    (eM : S.mounted = some el) (eC : S.currentIndex = idx)
    (eD : (S.els el).dataPhotoId = some id) : NavInv (preloadAround S idx) := by
  obtain ⟨h1, h2, h3, h4⟩ := h
  have hnone : ∀ x ∈ s.tasks, x.seq? ≠ some s.navSeq := by
    intro x hx hk
    have hmem : x ∈ s.tasks.filter (fun t => t.seq? == some s.navSeq) := by
      rw [List.mem_filter]; exact ⟨hx, by simp [hk]⟩
    unfold latestCount at hzero
    rw [List.length_eq_zero] at hzero
    rw [hzero] at hmem
    cases hmem
  obtain ⟨rq, t, hp, ht⟩ := preloadAround_eq S idx
  rw [hp]
  refine ⟨?_, ?_, ?_, ?_⟩
  · intro x hx k hk
    simp only [List.mem_append] at hx
    show k ≤ S.navSeq
    rw [eN]
    rcases hx with g | g
    · rw [eT] at g; exact h1 x g k hk
    · rw [ht x g] at hk; cases hk
  · have := latestCount_append S { S with requests := rq, tasks := S.tasks ++ t } t rfl rfl ht
    rw [this]
    unfold latestCount
    rw [eT, eN]
    exact h2
  · intro x hx
    simp only [List.mem_append] at hx
    rcases hx with g | g
    · rw [eT] at g
      have hx3 := h3 x g
      cases x with
      | navDetail sq ix i e c =>
        cases e with
        | none =>
          simp only [TaskOk] at hx3 ⊢
          refine ⟨by rw [← hx3.1]; exact orderAt_congr s _ ix eO, fun _ => ?_⟩
          show sq < S.navSeq
          rw [eN]
          have a1 := h1 _ g sq rfl
          have a2 := hnone _ g
          simp only [Task.seq?, ne_eq, Option.some.injEq] at a2
          omega
        | some e =>
          simp only [TaskOk] at hx3
          rw [hmo] at hx3
          cases hx3.2
      | navSwap sq ix i e pre gen =>
        simp only [TaskOk] at hx3
        rw [hmo] at hx3
        cases hx3.2
      | prefetch q => trivial
      | submitPost e i => trivial
      | submitSwap e i d p g => trivial
    · exact TaskOk_of_seq_none _ x (ht x g)
  · intro e he
    have he : S.mounted = some e := he
    rw [eM] at he
    cases he
    refine ⟨id, eD, ?_⟩
    show orderAt { S with requests := rq, tasks := S.tasks ++ t } S.currentIndex = some id
    rw [eC]
    exact (orderAt_congr s _ idx eO).trans hid

theorem resumeFirst_inv (s : State) (seq : Nat) (idx : Int) (id : PhotoId)
    (r : Except Err Payload) (h : NavInv s)
    (hid : orderAt s idx = some id) (hst : s.mounted ≠ none → seq < s.navSeq)
    (hcnt : seq = s.navSeq → latestCount s = 0) :
    NavInv (resumeFirst s seq idx id r) := by
  unfold resumeFirst
  cases r with
  | error err =>
    simp only
    split
    · exact toastInModal_inv s _ h
    · exact h
  | ok data =>
    simp only
    split
    · exact h
    · rename_i hseq
      have hseq : seq = s.navSeq := not_not.1 hseq
      have hmo : s.mounted = none := by
        by_contra hne
        have := hst hne
        omega
      split
      · refine toastInModal_inv _ _ ?_
        exact NavInv_frame s _ [] h rfl rfl hmo.symm rfl (fun _ => rfl) (by simp) (by simp)
      · exact mount_inv s _ idx id s.nextEl h hid hmo (hcnt hseq) rfl rfl rfl rfl rfl (by simp)

theorem resumeMounted_inv (s : State) (seq : Nat) (idx : Int) (id : PhotoId) (el : Nat)
    (r : Except Err Payload) (h : NavInv s)
    (hid : orderAt s idx = some id) (hel : s.mounted = some el)
    (hcnt : seq = s.navSeq → latestCount s = 0) :
    NavInv (resumeMounted s seq idx id el r) := by
  unfold resumeMounted
  cases r with
  | error err =>
    simp only
    refine showLoadingWithDelay_inv _ _ _ ?_
    split
    · exact toastInModal_inv s _ h
    · exact h
  | ok data =>
    simp only
    split
    · exact showLoadingWithDelay_inv _ _ _ h
    · rename_i hseq
      have hseq : seq = s.navSeq := not_not.1 hseq
      obtain ⟨h1, h2, h3, h4⟩ := h
      have hzero := hcnt hseq
      refine ⟨?_, ?_, ?_, ?_⟩
      · intro x hx k hk
        simp only [setEl_tasks, List.mem_append, List.mem_singleton] at hx
        show k ≤ s.navSeq
        rcases hx with g | g
        · exact h1 x g k hk
        · subst g
          simp only [Task.seq?, Option.some.injEq] at hk
          omega
      · unfold latestCount at hzero ⊢
        simp only [setEl_tasks, setEl_navSeq, List.filter_append]
        rw [List.length_eq_zero] at hzero
        rw [hzero]
        simp only [List.nil_append]
        exact le_trans (List.length_filter_le _ _) (by simp)
      · intro x hx
        simp only [setEl_tasks, List.mem_append, List.mem_singleton] at hx
        rcases hx with g | g
        · exact TaskOk_congr s _ x rfl rfl (le_refl _) (h3 x g)
        · subst g
          exact ⟨hid, hel⟩
      · refine consistent_frame s _ h4 rfl rfl rfl ?_
        intro e
        show ((setEl s el (swapStart (s.els el) data.html).1).els e).dataPhotoId = _
        by_cases he : e = el
        · subst he; simp [setEl]
        · simp [setEl, Function.update, he]

theorem resumeSwap_inv (s : State) (idx : Int) (id : PhotoId) (el : Nat) (pre : Option Html)
    (gen : Nat) (h : NavInv s) (hid : orderAt s idx = some id) (hel : s.mounted = some el) :
    NavInv (resumeSwap s idx id el pre gen) := by
  rw [resumeSwap_eq]
  unfold finishNav
  simp only
  obtain ⟨h1, h2, h3, h4⟩ := h
  generalize hS : setEl { setEl s el (fadeIn (s.els el) pre gen) with currentIndex := idx } el
    { ({ setEl s el (fadeIn (s.els el) pre gen) with currentIndex := idx } : State).els el with
      dataPhotoId := some id } = S
  have eN : S.navSeq = s.navSeq := by subst hS; rfl
  have eO : S.order = s.order := by subst hS; rfl
  have eT : S.tasks = s.tasks := by subst hS; rfl
  have eM : S.mounted = s.mounted := by subst hS; rfl
  have eC : S.currentIndex = idx := by subst hS; rfl
  have eD : (S.els el).dataPhotoId = some id := by subst hS; simp [setEl]
  obtain ⟨rq, t, hp, ht⟩ := preloadAround_eq S idx
  have q1 : (showLoadingWithDelay (preloadAround S idx) el false).tasks = s.tasks ++ t := by
    rw [showLoadingWithDelay_tasks, hp, ← eT]
  obtain ⟨g1, g2, g3⟩ := pending_frame s (showLoadingWithDelay (preloadAround S idx) el false) t
    h1 h2 h3 (by simp [eN]) (by simp [eO]) (by simp [eM]) q1 ht
  refine ⟨g1, g2, g3, ?_⟩
  intro e he
  simp only [showLoadingWithDelay_mounted, preloadAround_mounted, eM, hel,
    Option.some.injEq] at he
  subst he
  refine ⟨id, by simp [eD], ?_⟩
  simp only [showLoadingWithDelay_currentIndex, preloadAround_currentIndex, eC]
  rw [orderAt_congr s _ idx (by simp [eO])]
  exact hid

theorem resumeSubmitPost_inv (s : State) (el : Nat) (id : Option PhotoId) (o : FetchOutcome)
    (h : NavInv s) : NavInv (resumeSubmitPost s el id o) := by
  unfold resumeSubmitPost
  split
  · exact toastInModal_inv s _ h
  · rename_i data _
    refine NavInv_frame s _
      [.submitSwap el id data (swapStart (s.els el) data.html).2
        (swapStart (s.els el) data.html).1.swapGen] h rfl rfl rfl rfl ?_ rfl (by simp [Task.seq?])
    intro e
    show ((setEl s el (swapStart (s.els el) data.html).1).els e).dataPhotoId = _
    by_cases he : e = el
    · subst he; simp [setEl]
    · simp [setEl, Function.update, he]

theorem resumeSubmitSwap_fields (s : State) (el : Nat) (id : Option PhotoId) (data : Payload)
    (pre : Option Html) (gen : Nat) :
    (resumeSubmitSwap s el id data pre gen).navSeq = s.navSeq ∧
    (resumeSubmitSwap s el id data pre gen).order = s.order ∧
    (resumeSubmitSwap s el id data pre gen).mounted = s.mounted ∧
    (resumeSubmitSwap s el id data pre gen).currentIndex = s.currentIndex ∧
    (resumeSubmitSwap s el id data pre gen).tasks = s.tasks ∧
    ((resumeSubmitSwap s el id data pre gen).els el).dataPhotoId = newId data id ∧
    ∀ e, e ≠ el → (resumeSubmitSwap s el id data pre gen).els e = s.els e := by
  unfold resumeSubmitSwap
  cases pre <;> cases newId data id <;>
    simp only [setEl, Function.update_same, true_and] <;>
    (intro e he; simp [Function.update, he])

/-- The last part of the submit handler keeps the invariant when the photo it
writes to `data-photo-id` is the one at the navigation index. -/
theorem resumeSubmitSwap_inv (s : State) (el : Nat) (id : Option PhotoId) (data : Payload)
    (pre : Option Html) (gen : Nat) (h : NavInv s)
    (hb : newId data id = orderAt s s.currentIndex) :
    NavInv (resumeSubmitSwap s el id data pre gen) := by
  obtain ⟨f1, f2, f3, f4, f5, f6, f7⟩ := resumeSubmitSwap_fields s el id data pre gen
  obtain ⟨h1, h2, h3, h4⟩ := h
  obtain ⟨g1, g2, g3⟩ := pending_frame s _ [] h1 h2 h3 f1 f2 f3 (by simp [f5]) (by simp)
  refine ⟨g1, g2, g3, ?_⟩
  intro e he
  rw [f3] at he
  obtain ⟨i, hi1, hi2⟩ := h4 e he
  refine ⟨i, ?_, by rw [f4, orderAt_congr s _ _ f2]; exact hi2⟩
  by_cases hel : e = el
  · subst hel
    rw [f6, hb, hi2]
  · rw [f7 e hel]; exact hi1

theorem runTask_inv (s : State) (t : Task) (o : FetchOutcome) (h : NavInv s)
    (hτ : TaskOk s t) (hcnt : t.seq? = some s.navSeq → latestCount s = 0)
    (hb : ∀ el id data pre gen, t = .submitSwap el id data pre gen →
      newId data id = orderAt s s.currentIndex) :
    NavInv (runTask s t o) := by
  cases t with
  | navDetail seq idx id el c =>
    unfold runTask
    simp only
    have e := finishDetail_eq s id c o
    generalize (finishDetail s id c o).1 = S at e ⊢
    generalize (finishDetail s id c o).2 = r
    have hS : NavInv S :=
      NavInv_frame s S [] h (by rw [e]) (by rw [e]) (by rw [e]) (by rw [e])
        (by intro x; rw [e]) (by rw [e]; simp) (by simp)
    have hc : seq = S.navSeq → latestCount S = 0 := by
      intro hq
      have : latestCount S = latestCount s := by rw [e]; rfl
      rw [this]
      exact hcnt (by rw [hq, e]; rfl)
    cases el with
    | none =>
      simp only [TaskOk] at hτ
      exact resumeFirst_inv S seq idx id r hS (by rw [e]; exact hτ.1)
        (by rw [e]; exact hτ.2) hc
    | some el =>
      simp only [TaskOk] at hτ
      exact resumeMounted_inv S seq idx id el r hS (by rw [e]; exact hτ.1)
        (by rw [e]; exact hτ.2) hc
  | navSwap seq idx id el pre gen =>
    simp only [TaskOk] at hτ
    exact resumeSwap_inv s idx id el pre gen h hτ.1 hτ.2
  | prefetch p =>
    unfold runTask finishPrefetch
    simp only
    split
    · exact NavInv_frame s _ [] h rfl rfl rfl rfl (fun _ => rfl) (by simp) (by simp)
    · exact h
  | submitPost e i => exact resumeSubmitPost_inv s e i o h
  | submitSwap e i d p g => exact resumeSubmitSwap_inv s e i d p g h (hb e i d p g rfl)

theorem erase_inv (s : State) (i : Nat) (t : Task) (h : NavInv s) (ht : s.tasks[i]? = some t) :
    NavInv { s with tasks := s.tasks.eraseIdx i } ∧
    TaskOk { s with tasks := s.tasks.eraseIdx i } t ∧
    (t.seq? = some s.navSeq → latestCount { s with tasks := s.tasks.eraseIdx i } = 0) := by
  obtain ⟨h1, h2, h3, h4⟩ := h
  have hmem : t ∈ s.tasks := List.mem_iff_getElem?.2 ⟨i, ht⟩
  refine ⟨⟨?_, ?_, ?_, ?_⟩, ?_, ?_⟩
  · intro x hx k hk
    exact h1 x (List.mem_of_mem_eraseIdx hx) k hk
  · exact le_trans (filter_eraseIdx_le _ _ _) h2
  · intro x hx
    exact TaskOk_congr s _ x rfl rfl (le_refl _) (h3 x (List.mem_of_mem_eraseIdx hx))
  · exact consistent_frame s _ h4 rfl rfl rfl (fun _ => rfl)
  · exact TaskOk_congr s _ t rfl rfl (le_refl _) (h3 t hmem)
  · intro hk
    have := filter_eraseIdx_lt (fun x => x.seq? == some s.navSeq) s.tasks i t ht (by simp [hk])
    unfold latestCount at h2 ⊢
    show ((s.tasks.eraseIdx i).filter (fun x => x.seq? == some s.navSeq)).length = 0
    omega

@[simp]
theorem transitionEnd_els_dataPhotoId (s : State) (el e : Nat) :
    ((transitionEnd s el).els e).dataPhotoId = (s.els e).dataPhotoId := by
  unfold transitionEnd
  split
  · rfl
  · by_cases he : e = el
    · subst he; simp [setEl]
    · simp [setEl, Function.update, he]

@[simp]
theorem spinnerFire_els_dataPhotoId (s : State) (e : Nat) :
    ((spinnerFire s).els e).dataPhotoId = (s.els e).dataPhotoId := by
  unfold spinnerFire
  split
  · rfl
  · rename_i el gen _
    split
    · by_cases he : e = el
      · subst he; simp [setEl]
      · simp [setEl, Function.update, he]
    · rfl

@[simp]
theorem toastExpire_els_dataPhotoId (s : State) (el e : Nat) :
    ((toastExpire s el).els e).dataPhotoId = (s.els e).dataPhotoId := by
  unfold toastExpire
  by_cases he : e = el
  · subst he; simp [setEl]
  · simp [setEl, Function.update, he]

theorem transitionEnd_inv (s : State) (el : Nat) (h : NavInv s) :
    NavInv (transitionEnd s el) := by
  refine NavInv_frame s _ [] h ?_ ?_ ?_ ?_ (by simp) ?_ (by simp) <;>
    (unfold transitionEnd; split <;> simp)

theorem spinnerFire_inv (s : State) (h : NavInv s) : NavInv (spinnerFire s) := by
  refine NavInv_frame s _ [] h ?_ ?_ ?_ ?_ (by simp) ?_ (by simp) <;>
    (unfold spinnerFire; split <;> [simp; (split <;> simp)])

theorem toastExpire_inv (s : State) (el : Nat) (h : NavInv s) :
    NavInv (toastExpire s el) :=
  NavInv_frame s _ [] h rfl rfl rfl rfl (by simp) (by simp [toastExpire]) (by simp)

theorem onSubmit_inv (s : State) (el : Nat) (form : Form) (csrf : Bool) (h : NavInv s) :
    NavInv (onSubmit s el form csrf) := by
  unfold onSubmit
  split
  · exact h
  · simp only
    split
    · exact toastInModal_inv s _ h
    · exact NavInv_frame s _ [.submitPost el (s.els el).dataPhotoId] h rfl rfl rfl rfl
        (fun _ => rfl) rfl (by simp [Task.seq?])

/-- Every step keeps the invariant, provided a submission response it applies
names the photo at the navigation index. -/
theorem step_inv (s : State) (e : Event) (h : NavInv s) (he : writesIndexed s e = true) :
    NavInv (step s e) := by
  cases e with
  | call idx => exact openByIndex_inv s idx h
  | prev =>
    unfold step
    simp only
    split
    · exact openByIndex_inv s _ h
    · exact h
  | next =>
    unfold step
    simp only
    split
    · exact openByIndex_inv s _ h
    · exact h
  | resume i o =>
    unfold step
    simp only
    cases ht : s.tasks[i]? with
    | none => exact h
    | some t =>
      obtain ⟨g1, g2, g3⟩ := erase_inv s i t h ht
      refine runTask_inv _ t o g1 g2 g3 ?_
      intro el id data pre gen hteq
      subst hteq
      simp only [writesIndexed, ht, beq_iff_eq] at he
      exact he
  | submit form csrf =>
    unfold step
    simp only
    split
    · exact onSubmit_inv s _ form csrf h
    · exact h
  | transitionEnd el => exact transitionEnd_inv s el h
  | spinnerFire => exact spinnerFire_inv s h
  | toastExpire el => exact toastExpire_inv s el h

theorem run_inv (s : State) (evs : List Event) (h : NavInv s)
    (he : Benign s evs = true) : NavInv (run s evs) := by
  induction evs generalizing s with
  | nil => exact h
  | cons e es ih =>
    simp only [Benign, Bool.and_eq_true] at he
    exact ih (step s e) (step_inv s e h he.1) he.2

theorem foldl_addThumb_mounted (l : List Thumb) (s : State) :
    (l.foldl addThumb s).mounted = s.mounted := by
  induction l generalizing s with
  | nil => rfl
  | cons a l ih =>
    simp only [List.foldl_cons]
    rw [ih]
    unfold addThumb
    cases a.photoId <;> rfl

theorem init_inv (doc : Doc) : NavInv (init doc) := by
  have ht : (init doc).tasks = [] := (foldl_addThumb_tasks _ _).1
  have hm : (init doc).mounted = none := foldl_addThumb_mounted _ _
  refine ⟨wf_init doc, ?_, ?_, ?_⟩
  · unfold latestCount; rw [ht]; simp
  · intro t h; rw [ht] at h; cases h
  · intro el h; rw [hm] at h; cases h

/-- Claim C20, amended.  In every state reached from the loaded page through
calls of `openByIndex`, the previous and next controls, form submissions, the
settling of the pending fetches, posts and image loads, and the timers, a
modal that is in the document carries in `data-photo-id` the photo at
`order[currentIndex]`, provided every submission response that was applied
named, through `Number(data.photo_id ?? id)`, the photo at the navigation
index of the moment it was applied. -/
theorem displayed_photo_is_indexed_photo (doc : Doc) (evs : List Event)
    (hb : Benign (init doc) evs = true) (el : Nat)
    (hm : (run (init doc) evs).mounted = some el) :
    ∃ id, ((run (init doc) evs).els el).dataPhotoId = some id ∧
      orderAt (run (init doc) evs) (run (init doc) evs).currentIndex = some id :=
  (run_inv (init doc) evs (init_inv doc) hb).2.2.2 el hm

/-- Claim C20 fails.  On the page of photos 5, 6, 7 with photo 5 open, a
favorite form is submitted, the next control then brings photo 6 (index 1),
and the response of the submission, which reports photo 5, arrives
afterwards: nothing is pending any more, the modal is in the document, its
`data-photo-id` is 5 and `order[currentIndex]` is 6.  And when the response
to a submission made on photo 5 reports photo 6, with no navigation at all,
`data-photo-id` becomes 6 while `order[currentIndex]` is 5. -/
theorem late_submit_response_breaks_index :
    (run s0 [.call 0, .resume 0 r5, .resume 0 r6, .resume 0 r7, .submit {} true, .next,
       .resume 1 .failed, .resume 1 .failed]).tasks = [.submitPost 0 (some 5)] ∧
    ((run s0 [.call 0, .resume 0 r5, .resume 0 r6, .resume 0 r7, .submit {} true, .next,
       .resume 1 .failed, .resume 1 .failed]).els 0).dataPhotoId = some 6 ∧
    (run s0 [.call 0, .resume 0 r5, .resume 0 r6, .resume 0 r7, .submit {} true, .next,
       .resume 1 .failed, .resume 1 .failed]).currentIndex = 1 ∧
    (run s0 [.call 0, .resume 0 r5, .resume 0 r6, .resume 0 r7, .submit {} true, .next,
       .resume 1 .failed, .resume 1 .failed, .resume 0 rFav, .resume 0 .failed]).tasks = [] ∧
    (run s0 [.call 0, .resume 0 r5, .resume 0 r6, .resume 0 r7, .submit {} true, .next,
       .resume 1 .failed, .resume 1 .failed, .resume 0 rFav, .resume 0 .failed]).mounted
      = some 0 ∧
    ((run s0 [.call 0, .resume 0 r5, .resume 0 r6, .resume 0 r7, .submit {} true, .next,
       .resume 1 .failed, .resume 1 .failed, .resume 0 rFav, .resume 0 .failed]).els 0).dataPhotoId
      = some 5 ∧
    (run s0 [.call 0, .resume 0 r5, .resume 0 r6, .resume 0 r7, .submit {} true, .next,
       .resume 1 .failed, .resume 1 .failed, .resume 0 rFav, .resume 0 .failed]).currentIndex
      = 1 ∧
    orderAt (run s0 [.call 0, .resume 0 r5, .resume 0 r6, .resume 0 r7, .submit {} true, .next,
       .resume 1 .failed, .resume 1 .failed, .resume 0 rFav, .resume 0 .failed]) 1 = some 6 ∧
    (run s0 [.call 0, .resume 0 r5, .resume 0 r6, .resume 0 r7, .submit {} true,
       .resume 0 rOther, .resume 0 .failed]).tasks = [] ∧
    ((run s0 [.call 0, .resume 0 r5, .resume 0 r6, .resume 0 r7, .submit {} true,
       .resume 0 rOther, .resume 0 .failed]).els 0).dataPhotoId = some 6 ∧
    (run s0 [.call 0, .resume 0 r5, .resume 0 r6, .resume 0 r7, .submit {} true,
       .resume 0 rOther, .resume 0 .failed]).currentIndex = 0 ∧
    orderAt (run s0 [.call 0, .resume 0 r5, .resume 0 r6, .resume 0 r7, .submit {} true,
       .resume 0 rOther, .resume 0 .failed]) 0 = some 5 := by
  decide

/-- Witness of amended claim C20: photo 5 is opened, a favorite form is
submitted and its response, which reports photo 5, is applied; then the next
control is pressed and its attempt settles on photo 6. -/
theorem displayed_photo_is_indexed_photo_witness :
    ∃ id, ((run (init doc0) [.call 0, .resume 0 r5, .resume 0 r6, .resume 0 r7, .submit {} true,
        .resume 0 rFav, .resume 0 .failed, .next, .resume 0 .failed, .resume 0 .failed]).els
        0).dataPhotoId = some id ∧
      orderAt (run (init doc0) [.call 0, .resume 0 r5, .resume 0 r6, .resume 0 r7,
        .submit {} true, .resume 0 rFav, .resume 0 .failed, .next, .resume 0 .failed,
        .resume 0 .failed])
        (run (init doc0) [.call 0, .resume 0 r5, .resume 0 r6, .resume 0 r7, .submit {} true,
        .resume 0 rFav, .resume 0 .failed, .next, .resume 0 .failed,
        .resume 0 .failed]).currentIndex = some id :=
  displayed_photo_is_indexed_photo doc0
    [.call 0, .resume 0 r5, .resume 0 r6, .resume 0 r7, .submit {} true, .resume 0 rFav,
      .resume 0 .failed, .next, .resume 0 .failed, .resume 0 .failed] (by decide) 0 (by decide)

end PhotoModal
